import Mathlib

/-!
greptimedb-operator: validation and configuration synthesis.

A shallow embedding of `apis/v1alpha1/validate.go`, `pkg/dbconfig/common.go`,
`pkg/dbconfig/datanode_config.go` and the meta and monitoring deployers of
`controllers/greptimedbcluster/deployers`.

Conventions of the embedding:

* a Go `error` is an `Option String` (`none` is `nil`, `some msg` carries `err.Error()`);
* a Go pointer `*T` is an `Option T` (`none` is `nil`);
* a Go method that mutates its receiver takes the receiver as an argument and returns
  the new value, together with the error where the method returns one;
* the TOML parser, the platform client, the float parser, the SQL connection and the
  HTTP client are outside the repository: they are parameters of the functions that
  call them;
* a Go call that dereferences a nil pointer has the outcome `panicked`.
-/

set_option autoImplicit false

namespace V1alpha1

/-- A Go `error`: `none` is `nil`, `some msg` is an error whose text is `msg`. -/
abbrev Error := Option String

/-! ## Data model (`apis/v1alpha1`)

The type declarations and their nil-safe getters are in files of the package that are
not part of the sources at hand; the structures below carry the fields that
`validate.go` and `pkg/dbconfig` read, and each getter returns the zero value on a
nil receiver, as the callers rely on (`in.GetFrontend().GetConfig()` on an absent
frontend). -/

/-- Modelled from the spec: the `FileStorage` type (declaration not under src/), "a
file-backed cache volume (name, mount path, size)". -/
structure FileStorage where
  Name : String := ""
  MountPath : String := ""
  StorageSize : String := ""
deriving DecidableEq, Repr

/-- Modelled from the spec: the local-file WAL variant (declaration not under src/),
which "may itself reference a file-backed cache volume". -/
structure RaftEngineWAL where
  FileStorage : Option FileStorage := none
deriving DecidableEq, Repr

/-- Modelled from the spec: the message-log WAL variant (declaration not under src/),
carrying "the broker endpoint list". -/
structure KafkaWAL where
  BrokerEndpoints : List String := []
deriving DecidableEq, Repr

/-- Modelled from the spec: `WALProviderSpec` (declaration not under src/), the
"tagged variant over {local-file, message-log}". -/
structure WALProviderSpec where
  RaftEngineWAL : Option RaftEngineWAL := none
  KafkaWAL : Option KafkaWAL := none
deriving DecidableEq, Repr

/-- Modelled from the spec: `S3Storage` (declaration not under src/); fields as read by
`configureS3`. -/
structure S3Storage where
  Bucket : String := ""
  Region : String := ""
  SecretName : String := ""
  Root : String := ""
  Endpoint : String := ""
deriving DecidableEq, Repr

/-- Modelled from the spec: `OSSStorage` (declaration not under src/); fields as read by
`configureOSS`. -/
structure OSSStorage where
  Bucket : String := ""
  Region : String := ""
  SecretName : String := ""
  Root : String := ""
  Endpoint : String := ""
deriving DecidableEq, Repr

/-- Modelled from the spec: `GCSStorage` (declaration not under src/); fields as read by
`configureGCS` (scope in place of region). -/
structure GCSStorage where
  Bucket : String := ""
  Root : String := ""
  SecretName : String := ""
  Scope : String := ""
  Endpoint : String := ""
deriving DecidableEq, Repr

/-- Modelled from the spec: `AZBlobStorage` (declaration not under src/); the sources
read its secret name only. -/
structure AZBlobStorage where
  Container : String := ""
  SecretName : String := ""
  Root : String := ""
  Endpoint : String := ""
deriving DecidableEq, Repr

/-- Modelled from the spec: the object-storage local cache (declaration not under
src/), whose file storage `GetCacheFileStorage` returns. -/
structure CacheStorage where
  FileStorage : Option FileStorage := none
  CacheCapacity : String := ""
deriving DecidableEq, Repr

/-- Modelled from the spec: `ObjectStorageProviderSpec` (declaration not under src/),
the "tagged variant over {S3, OSS, GCS, Azure-Blob, none}" with an optional cache. -/
structure ObjectStorageProviderSpec where
  S3 : Option S3Storage := none
  OSS : Option OSSStorage := none
  GCS : Option GCSStorage := none
  AZBlob : Option AZBlobStorage := none
  Cache : Option CacheStorage := none
deriving DecidableEq, Repr

/-- Modelled from the spec: the slow-query section of the logging spec (declaration
not under src/); fields as read by `ConfigureLogging`. -/
structure SlowQuery where
  Enabled : Bool := false
  Threshold : String := ""
  SampleRatio : String := ""
deriving DecidableEq, Repr

/-- Modelled from the spec: `LoggingSpec` (declaration not under src/); fields as read
by `ConfigureLogging`. `Level` and `Format` are string-typed enumerations in Go. -/
structure LoggingSpec where
  Level : String := ""
  Filters : List String := []
  LogsDir : String := ""
  OnlyLogToStdout : Option Bool := none
  Format : String := ""
  SlowQuery : Option SlowQuery := none
deriving DecidableEq, Repr

/-- Modelled from the spec: `FrontendSpec` (declaration not under src/): group name, raw
config fragment, logging options. -/
structure FrontendSpec where
  Name : String := ""
  Config : String := ""
  Logging : Option LoggingSpec := none
deriving DecidableEq, Repr

/-- Modelled from the spec: the MySQL backend of the meta role (declaration not under
src/); `Check` reads the name of its "backend-database credential secret". -/
structure MySQLStorage where
  Host : String := ""
  CredentialsSecretName : String := ""
deriving DecidableEq, Repr

/-- Modelled from the spec: the PostgreSQL backend of the meta role (declaration not
under src/); `Check` reads the name of its "backend-database credential secret". -/
structure PostgreSQLStorage where
  Host : String := ""
  CredentialsSecretName : String := ""
deriving DecidableEq, Repr

/-- Modelled from the spec: the backend storage of the meta role (declaration not under
src/), with the two backends that `Check` reads. -/
structure BackendStorage where
  MySQLStorage : Option MySQLStorage := none
  PostgreSQLStorage : Option PostgreSQLStorage := none
deriving DecidableEq, Repr

/-- Modelled from the spec: `MetaSpec` (declaration not under src/): raw config
fragment, the endpoints of the coordination service and the backend storage. -/
structure MetaSpec where
  Config : String := ""
  EtcdEndpoints : List String := []
  BackendStorage : Option BackendStorage := none
deriving DecidableEq, Repr

/-- Modelled from the spec: `DatanodeSpec` (declaration not under src/): group name, raw
config fragment, data home, logging options. -/
structure DatanodeSpec where
  Name : String := ""
  Config : String := ""
  DataHome : String := ""
  Logging : Option LoggingSpec := none
deriving DecidableEq, Repr

/-- Modelled from the spec: `FlownodeSpec` (declaration not under src/): raw config
fragment. -/
structure FlownodeSpec where
  Config : String := ""
deriving DecidableEq, Repr

/-- Modelled from the spec: `GreptimeDBStandaloneSpec` (declaration not under src/): raw
config fragment, WAL provider, object storage provider. -/
structure GreptimeDBStandaloneSpec where
  Config : String := ""
  WALProvider : Option WALProviderSpec := none
  ObjectStorageProvider : Option ObjectStorageProviderSpec := none
deriving DecidableEq, Repr

/-- Modelled from the spec: the status of a standalone (declaration not under src/):
its phase, a string-typed enumeration in Go. -/
structure GreptimeDBStandaloneStatus where
  StandalonePhase : String := ""
deriving DecidableEq, Repr

/-- Modelled from the spec: `GreptimeDBStandalone` (declaration not under src/). -/
structure GreptimeDBStandalone where
  Namespace : String := ""
  Name : String := ""
  Spec : GreptimeDBStandaloneSpec := {}
  Status : GreptimeDBStandaloneStatus := {}
deriving DecidableEq, Repr

/-- Modelled from the spec: the metrics-scrape integration options (declaration not
under src/); `BuildPodMonitor` reads `Enabled`. -/
structure PrometheusMonitorSpec where
  Enabled : Bool := false
deriving DecidableEq, Repr

/-- Modelled from the spec: a "specification-embedded pipeline definition"
(declaration not under src/). -/
structure PipelineSpec where
  Data : String := ""
deriving DecidableEq, Repr

/-- Modelled from the spec: the logs collection options of the monitoring sub-cluster
(declaration not under src/). -/
structure LogsCollectionSpec where
  Pipeline : Option PipelineSpec := none
deriving DecidableEq, Repr

/-- Modelled from the spec: the options of the log shipper sidecar (declaration not
under src/); the sources test it for nil only. -/
structure VectorSpec where
  Image : String := ""
deriving DecidableEq, Repr

/-- Modelled from the spec: the "monitoring options" of the cluster spec (declaration
not under src/): the switch, the standalone that stores the monitoring data, the logs
collection and the log shipper. -/
structure MonitoringSpec where
  Enabled : Bool := false
  Standalone : Option GreptimeDBStandaloneSpec := none
  LogsCollection : Option LogsCollectionSpec := none
  Vector : Option VectorSpec := none
deriving DecidableEq, Repr

/-- Modelled from the spec: `GreptimeDBClusterSpec` (declaration not under src/): "holds
zero-or-one sub-spec per role (meta, frontend, frontend-groups, datanode,
datanode-groups, flow-processing), a WAL-provider selector, an object-storage-provider
selector, monitoring options, and TLS/metrics options". The group collections are Go
slices of pointers. -/
structure GreptimeDBClusterSpec where
  Frontend : Option FrontendSpec := none
  FrontendGroups : List (Option FrontendSpec) := []
  Meta : Option MetaSpec := none
  Datanode : Option DatanodeSpec := none
  DatanodeGroups : List (Option DatanodeSpec) := []
  Flownode : Option FlownodeSpec := none
  WALProvider : Option WALProviderSpec := none
  ObjectStorageProvider : Option ObjectStorageProviderSpec := none
  PrometheusMonitor : Option PrometheusMonitorSpec := none
  Monitoring : Option MonitoringSpec := none
deriving DecidableEq, Repr

/-- Modelled from the spec: the meta `ComponentStatus` (declaration not under src/):
"desired/ready replica counts, discovered endpoints, a maintenance-mode flag (meta
only)". -/
structure MetaStatus where
  Replicas : Int := 0
  ReadyReplicas : Int := 0
  EtcdEndpoints : List String := []
  MaintenanceMode : Bool := false
deriving DecidableEq, Repr

/-- Modelled from the spec: the status of the monitoring sub-cluster (declaration not
under src/). -/
structure MonitoringStatus where
  InternalDNSName : String := ""
deriving DecidableEq, Repr

/-- Modelled from the spec: `ClusterStatus` (declaration not under src/): it
"aggregates all ComponentStatus plus a cluster-wide phase"; the phase is a string-typed
enumeration in Go. -/
structure GreptimeDBClusterStatus where
  ClusterPhase : String := ""
  Meta : MetaStatus := {}
  Monitoring : MonitoringStatus := {}
deriving DecidableEq, Repr

/-- Modelled from the spec: `GreptimeDBCluster` (declaration not under src/): the
namespaced object that carries the cluster spec and the cluster status. -/
structure GreptimeDBCluster where
  Namespace : String := ""
  Name : String := ""
  Spec : GreptimeDBClusterSpec := {}
  Status : GreptimeDBClusterStatus := {}
deriving DecidableEq, Repr

/-- Modelled from the spec: the phase constants (declaration not under src/): "Phase is
a finite enum {Starting, Running, ...}". -/
def PhaseStarting : String := "Starting"

/-- Modelled from the spec: see `PhaseStarting`. -/
def PhaseRunning : String := "Running"

/-! ### Nil-safe getters -/

def FileStorage.GetName (fs : Option FileStorage) : String :=
  match fs with
  | some f => f.Name
  | none => ""

def FileStorage.GetMountPath (fs : Option FileStorage) : String :=
  match fs with
  | some f => f.MountPath
  | none => ""

def FileStorage.GetSize (fs : Option FileStorage) : String :=
  match fs with
  | some f => f.StorageSize
  | none => ""

def RaftEngineWAL.GetFileStorage (w : Option RaftEngineWAL) :
    Option V1alpha1.FileStorage :=
  match w with
  | some r => r.FileStorage
  | none => none

def KafkaWAL.GetBrokerEndpoints (k : Option KafkaWAL) : List String :=
  match k with
  | some w => w.BrokerEndpoints
  | none => []

def WALProviderSpec.GetRaftEngineWAL (w : Option WALProviderSpec) :
    Option V1alpha1.RaftEngineWAL :=
  match w with
  | some p => p.RaftEngineWAL
  | none => none

def WALProviderSpec.GetKafkaWAL (w : Option WALProviderSpec) :
    Option V1alpha1.KafkaWAL :=
  match w with
  | some p => p.KafkaWAL
  | none => none

def ObjectStorageProviderSpec.GetS3Storage (o : Option ObjectStorageProviderSpec) :
    Option S3Storage :=
  match o with
  | some p => p.S3
  | none => none

def ObjectStorageProviderSpec.GetOSSStorage (o : Option ObjectStorageProviderSpec) :
    Option OSSStorage :=
  match o with
  | some p => p.OSS
  | none => none

def ObjectStorageProviderSpec.GetGCSStorage (o : Option ObjectStorageProviderSpec) :
    Option GCSStorage :=
  match o with
  | some p => p.GCS
  | none => none

def ObjectStorageProviderSpec.GetAZBlobStorage (o : Option ObjectStorageProviderSpec) :
    Option AZBlobStorage :=
  match o with
  | some p => p.AZBlob
  | none => none

def ObjectStorageProviderSpec.GetCacheFileStorage (o : Option ObjectStorageProviderSpec) :
    Option FileStorage :=
  match o with
  | some p =>
    match p.Cache with
    | some cache => cache.FileStorage
    | none => none
  | none => none

/-- Modelled from the spec: `getSetObjectStorageCount` (helper not under src/), the
number of populated variants among S3, OSS, GCS and Azure-Blob ("at most one variant
populated"). -/
def ObjectStorageProviderSpec.getSetObjectStorageCount (o : ObjectStorageProviderSpec) : Nat :=
  (if o.S3.isSome then 1 else 0) + (if o.OSS.isSome then 1 else 0)
    + (if o.GCS.isSome then 1 else 0) + (if o.AZBlob.isSome then 1 else 0)

def LoggingSpec.IsOnlyLogToStdout (l : Option LoggingSpec) : Bool :=
  match l with
  | some s =>
    match s.OnlyLogToStdout with
    | some b => b
    | none => false
  | none => false

def FrontendSpec.GetName (f : Option FrontendSpec) : String :=
  match f with
  | some s => s.Name
  | none => ""

def FrontendSpec.GetConfig (f : Option FrontendSpec) : String :=
  match f with
  | some s => s.Config
  | none => ""

def FrontendSpec.GetLogging (f : Option FrontendSpec) : Option LoggingSpec :=
  match f with
  | some s => s.Logging
  | none => none

def MetaSpec.GetBackendStorage (m : Option MetaSpec) : Option V1alpha1.BackendStorage :=
  match m with
  | some s => s.BackendStorage
  | none => none

def BackendStorage.GetMySQLStorage (b : Option BackendStorage) :
    Option V1alpha1.MySQLStorage :=
  match b with
  | some s => s.MySQLStorage
  | none => none

def BackendStorage.GetPostgreSQLStorage (b : Option BackendStorage) :
    Option V1alpha1.PostgreSQLStorage :=
  match b with
  | some s => s.PostgreSQLStorage
  | none => none

/-- Modelled from the spec: `backendStorageCount` (helper not under src/), the number of
populated backends of the meta backend storage. -/
def BackendStorage.backendStorageCount (b : BackendStorage) : Nat :=
  (if b.MySQLStorage.isSome then 1 else 0) + (if b.PostgreSQLStorage.isSome then 1 else 0)

def MetaSpec.GetConfig (m : Option MetaSpec) : String :=
  match m with
  | some s => s.Config
  | none => ""

def DatanodeSpec.GetName (d : Option DatanodeSpec) : String :=
  match d with
  | some s => s.Name
  | none => ""

def DatanodeSpec.GetConfig (d : Option DatanodeSpec) : String :=
  match d with
  | some s => s.Config
  | none => ""

def DatanodeSpec.GetDataHome (d : Option DatanodeSpec) : String :=
  match d with
  | some s => s.DataHome
  | none => ""

def DatanodeSpec.GetLogging (d : Option DatanodeSpec) : Option LoggingSpec :=
  match d with
  | some s => s.Logging
  | none => none

def FlownodeSpec.GetConfig (f : Option FlownodeSpec) : String :=
  match f with
  | some s => s.Config
  | none => ""

def GreptimeDBCluster.GetNamespace (c : Option GreptimeDBCluster) : String :=
  match c with
  | some x => x.Namespace
  | none => ""

def GreptimeDBCluster.GetFrontend (c : Option GreptimeDBCluster) : Option FrontendSpec :=
  match c with
  | some x => x.Spec.Frontend
  | none => none

def GreptimeDBCluster.GetFrontendGroups (c : Option GreptimeDBCluster) :
    List (Option FrontendSpec) :=
  match c with
  | some x => x.Spec.FrontendGroups
  | none => []

def GreptimeDBCluster.GetMeta (c : Option GreptimeDBCluster) : Option MetaSpec :=
  match c with
  | some x => x.Spec.Meta
  | none => none

def GreptimeDBCluster.GetDatanode (c : Option GreptimeDBCluster) : Option DatanodeSpec :=
  match c with
  | some x => x.Spec.Datanode
  | none => none

def GreptimeDBCluster.GetDatanodeGroups (c : Option GreptimeDBCluster) :
    List (Option DatanodeSpec) :=
  match c with
  | some x => x.Spec.DatanodeGroups
  | none => []

def GreptimeDBCluster.GetFlownode (c : Option GreptimeDBCluster) : Option FlownodeSpec :=
  match c with
  | some x => x.Spec.Flownode
  | none => none

def GreptimeDBCluster.GetWALProvider (c : Option GreptimeDBCluster) : Option WALProviderSpec :=
  match c with
  | some x => x.Spec.WALProvider
  | none => none

def GreptimeDBCluster.GetObjectStorageProvider (c : Option GreptimeDBCluster) :
    Option ObjectStorageProviderSpec :=
  match c with
  | some x => x.Spec.ObjectStorageProvider
  | none => none

def GreptimeDBCluster.GetMonitoring (c : Option GreptimeDBCluster) : Option MonitoringSpec :=
  match c with
  | some x => x.Spec.Monitoring
  | none => none

def MonitoringSpec.IsEnabled (m : Option MonitoringSpec) : Bool :=
  match m with
  | some x => x.Enabled
  | none => false

def MonitoringSpec.GetStandalone (m : Option MonitoringSpec) :
    Option GreptimeDBStandaloneSpec :=
  match m with
  | some x => x.Standalone
  | none => none

def MonitoringSpec.GetVector (m : Option MonitoringSpec) : Option VectorSpec :=
  match m with
  | some x => x.Vector
  | none => none

def MonitoringSpec.GetLogsCollection (m : Option MonitoringSpec) :
    Option LogsCollectionSpec :=
  match m with
  | some x => x.LogsCollection
  | none => none

def LogsCollectionSpec.GetPipeline (l : Option LogsCollectionSpec) : Option PipelineSpec :=
  match l with
  | some x => x.Pipeline
  | none => none

def PipelineSpec.GetData (p : Option PipelineSpec) : String :=
  match p with
  | some x => x.Data
  | none => ""

def GreptimeDBStandalone.GetConfig (s : Option GreptimeDBStandalone) : String :=
  match s with
  | some x => x.Spec.Config
  | none => ""

def GreptimeDBStandalone.GetWALProvider (s : Option GreptimeDBStandalone) :
    Option WALProviderSpec :=
  match s with
  | some x => x.Spec.WALProvider
  | none => none

def GreptimeDBStandalone.GetObjectStorageProvider (s : Option GreptimeDBStandalone) :
    Option ObjectStorageProviderSpec :=
  match s with
  | some x => x.Spec.ObjectStorageProvider
  | none => none

/-! ## `validate.go`

`toml.Unmarshal` belongs to an external library: every function that reaches it takes
the parser as the parameter `tomlUnmarshal`, which answers `none` when the text parses
and `some cause` with the parse error otherwise. -/

def validateTomlConfig (tomlUnmarshal : String → Error) (input : String) : Error :=
  if input.length > 0 then
    match tomlUnmarshal input with
    | some err => some err
    | none => none
  else none

def validateFileStorage (input : Option FileStorage) : Error :=
  match input with
  | none => none
  | some _ =>
    if FileStorage.GetName input = "" then
      some "name is required in file storage"
    else if FileStorage.GetMountPath input = "" then
      some "mountPath is required in file storage"
    else if FileStorage.GetSize input = "" then
      some "storageSize is required in file storage"
    else none

def validateWALProvider (input : Option WALProviderSpec) : Error :=
  match input with
  | none => none
  | some _ =>
    if (WALProviderSpec.GetRaftEngineWAL input).isSome
        ∧ (WALProviderSpec.GetKafkaWAL input).isSome then
      some "only one of 'raftEngine' or 'kafka' can be set"
    else
      match RaftEngineWAL.GetFileStorage (WALProviderSpec.GetRaftEngineWAL input) with
      | some fs => validateFileStorage (some fs)
      | none => none

def validateObjectStorageProvider (input : Option ObjectStorageProviderSpec) : Error :=
  match input with
  | none => none
  | some osp =>
    if osp.getSetObjectStorageCount > 1 then
      some "only one storage provider can be set"
    else
      match ObjectStorageProviderSpec.GetCacheFileStorage input with
      | some fs => validateFileStorage (some fs)
      | none => none

def GreptimeDBCluster.validateFrontend (tomlUnmarshal : String → Error)
    (c : Option GreptimeDBCluster) : Error :=
  match validateTomlConfig tomlUnmarshal (FrontendSpec.GetConfig (GetFrontend c)) with
  | some err => some ("invalid frontend toml config: '" ++ err ++ "'")
  | none => none

/-- The body of the `for ... range in.GetFrontendGroups()` loop of
`validateFrontendGroups`, by recursion on the groups still to visit. -/
def validateFrontendGroupsLoop (tomlUnmarshal : String → Error) :
    List (Option FrontendSpec) → Error
  | [] => none
  | frontend :: rest =>
    if (FrontendSpec.GetName frontend).length = 0 then
      some "the frontend name must be specified"
    else
      match validateTomlConfig tomlUnmarshal (FrontendSpec.GetConfig frontend) with
      | some err => some ("invalid frontend toml config: '" ++ err ++ "'")
      | none => validateFrontendGroupsLoop tomlUnmarshal rest

def GreptimeDBCluster.validateFrontendGroups (tomlUnmarshal : String → Error)
    (c : Option GreptimeDBCluster) : Error :=
  validateFrontendGroupsLoop tomlUnmarshal (GetFrontendGroups c)

/-- The body of the `for ... range in.GetDatanodeGroups()` loop of
`validateDatanodeGroups`, by recursion on the groups still to visit. -/
def validateDatanodeGroupsLoop (tomlUnmarshal : String → Error) :
    List (Option DatanodeSpec) → Error
  | [] => none
  | datanode :: rest =>
    if (DatanodeSpec.GetName datanode).length = 0 then
      some "the datanode group name must be specified"
    else
      match validateTomlConfig tomlUnmarshal (DatanodeSpec.GetConfig datanode) with
      | some err => some ("invalid datanode toml config: '" ++ err ++ "'")
      | none => validateDatanodeGroupsLoop tomlUnmarshal rest

def GreptimeDBCluster.validateDatanodeGroups (tomlUnmarshal : String → Error)
    (c : Option GreptimeDBCluster) : Error :=
  validateDatanodeGroupsLoop tomlUnmarshal (GetDatanodeGroups c)

def GreptimeDBCluster.validateMeta (tomlUnmarshal : String → Error)
    (c : Option GreptimeDBCluster) : Error :=
  match validateTomlConfig tomlUnmarshal (MetaSpec.GetConfig (GetMeta c)) with
  | some err => some ("invalid meta toml config: '" ++ err ++ "'")
  | none => none

def GreptimeDBCluster.validateMetaBackendStorage (c : Option GreptimeDBCluster) : Error :=
  match MetaSpec.GetBackendStorage (GetMeta c) with
  | none => none
  | some backendStorage =>
    -- Only one of the backend storage can be set.
    if backendStorage.backendStorageCount > 1 then
      some "only one of the backend storage can be set"
    else none

def GreptimeDBCluster.validateDatanode (tomlUnmarshal : String → Error)
    (c : Option GreptimeDBCluster) : Error :=
  match validateTomlConfig tomlUnmarshal (DatanodeSpec.GetConfig (GetDatanode c)) with
  | some err => some ("invalid datanode toml config: '" ++ err ++ "'")
  | none => none

def GreptimeDBCluster.validateFlownode (tomlUnmarshal : String → Error)
    (c : Option GreptimeDBCluster) : Error :=
  match validateTomlConfig tomlUnmarshal (FlownodeSpec.GetConfig (GetFlownode c)) with
  | some err => some ("invalid flownode toml config: '" ++ err ++ "'")
  | none => none

/-- `Validate` checks the GreptimeDBCluster and returns an error if it is invalid. -/
def GreptimeDBCluster.Validate (tomlUnmarshal : String → Error)
    (c : Option GreptimeDBCluster) : Error :=
  match c with
  | none => none
  | some _ =>
  match validateFrontend tomlUnmarshal c with
  | some err => some err
  | none =>
  match validateFrontendGroups tomlUnmarshal c with
  | some err => some err
  | none =>
  match validateMeta tomlUnmarshal c with
  | some err => some err
  | none =>
  if (GetDatanode c).isSome ∧ (GetDatanodeGroups c).length > 0 then
    some "datanode and datanodeGroups cannot be set at the same time"
  else
  match validateDatanode tomlUnmarshal c with
  | some err => some err
  | none =>
  match validateDatanodeGroups tomlUnmarshal c with
  | some err => some err
  | none =>
  match (if (GetFlownode c).isSome then validateFlownode tomlUnmarshal c else none) with
  | some err => some err
  | none =>
  match (match GetWALProvider c with
         | some wal => validateWALProvider (some wal)
         | none => none) with
  | some err => some err
  | none =>
  match (match GetObjectStorageProvider c with
         | some osp => validateObjectStorageProvider (some osp)
         | none => none) with
  | some err => some err
  | none => none

/-- `Validate` checks the GreptimeDBStandalone and returns an error if it is invalid. -/
def GreptimeDBStandalone.Validate (tomlUnmarshal : String → Error)
    (s : Option GreptimeDBStandalone) : Error :=
  match s with
  | none => none
  | some _ =>
  match validateTomlConfig tomlUnmarshal (GetConfig s) with
  | some err => some ("invalid standalone toml config: '" ++ err ++ "'")
  | none =>
  match (match GetWALProvider s with
         | some wal => validateWALProvider (some wal)
         | none => none) with
  | some err => some err
  | none =>
  match (match GetObjectStorageProvider s with
         | some osp => validateObjectStorageProvider (some osp)
         | none => none) with
  | some err => some err
  | none => none

/-! ### Secrets

`client.Get` belongs to the platform client: `checkSecretData` takes it as the parameter
`clientGet`, which answers the secret stored under a namespace and a name, or the error
of the lookup. -/

/-- One byte. -/
abbrev Byte := Fin 256

/-- A Go `[]byte`. -/
abbrev Bytes := List Byte

/-- The part of `corev1.Secret` that the checks read: its `Data` map, `none` when the
map is nil, else the key-value pairs (a key is looked up from the front). -/
structure Secret where
  Data : Option (List (String × Bytes)) := none
deriving DecidableEq, Repr

/-- Modelled from the spec: the secret key constants of `apis/v1alpha1` (declaration
not under src/): "TLS secret requires {cert, key}". -/
def TLSCrtSecretKey : String := "tls.crt"

/-- Modelled from the spec: see `TLSCrtSecretKey`. -/
def TLSKeySecretKey : String := "tls.key"

/-- Modelled from the spec: "S3-style credential secret requires {access-key-id,
secret-access-key}" (declaration not under src/). -/
def AccessKeyIDSecretKey : String := "access-key-id"

/-- Modelled from the spec: see `AccessKeyIDSecretKey`. -/
def SecretAccessKeySecretKey : String := "secret-access-key"

/-- Modelled from the spec: the OSS counterpart of the secret access key (declaration
not under src/); named after the `storage.access_key_secret` field it feeds. -/
def AccessKeySecretSecretKey : String := "access-key-secret"

/-- Modelled from the spec: "GCS requires {service-account-blob}", the key under
which the service-account blob is stored (declaration not under src/). -/
def ServiceAccountKey : String := "service-account-key"

/-- Modelled from the spec: "Azure-blob requires {account-name, account-key}"
(declaration not under src/). -/
def AccountName : String := "account-name"

/-- Modelled from the spec: see `AccountName`. -/
def AccountKey : String := "account-key"

/-- Modelled from the spec: "database-backend credential secret requires {username,
password}" (declaration not under src/). -/
def MetaDatabaseUsernameKey : String := "username"

/-- Modelled from the spec: see `MetaDatabaseUsernameKey`. -/
def MetaDatabasePasswordKey : String := "password"

/-- The `for _, key := range keys` loop of `checkSecretData` over the secret's non-nil
data, by recursion on the keys still to visit. -/
def checkSecretKeys (ns name : String) (data : List (String × Bytes)) :
    List String → Error
  | [] => none
  | key :: rest =>
    if (data.lookup key).isSome then checkSecretKeys ns name data rest
    else some ("secret '" ++ ns ++ "/" ++ name ++ "' does not have key '" ++ key ++ "'")

/-- `checkSecretData` checks if the secret exists and contains the required keys. -/
def checkSecretData (clientGet : String → String → Except String Secret)
    (ns name : String) (keys : List String) : Error :=
  match clientGet ns name with
  | .error err => some err
  | .ok secret =>
    match secret.Data with
    | none => some ("the data of secret '" ++ ns ++ "/" ++ name ++ "' is empty")
    | some data => checkSecretKeys ns name data keys

/-- `checkTLSSecret` checks if the secret exists and contains the required keys. -/
def checkTLSSecret (clientGet : String → String → Except String Secret)
    (ns name : String) : Error :=
  checkSecretData clientGet ns name [TLSCrtSecretKey, TLSKeySecretKey]

def checkGCSCredentialsSecret (clientGet : String → String → Except String Secret)
    (ns name : String) : Error :=
  checkSecretData clientGet ns name [ServiceAccountKey]

def checkOSSCredentialsSecret (clientGet : String → String → Except String Secret)
    (ns name : String) : Error :=
  checkSecretData clientGet ns name [AccessKeyIDSecretKey, AccessKeySecretSecretKey]

def checkS3CredentialsSecret (clientGet : String → String → Except String Secret)
    (ns name : String) : Error :=
  checkSecretData clientGet ns name [AccessKeyIDSecretKey, SecretAccessKeySecretKey]

def checkAZBlobCredentialsSecret (clientGet : String → String → Except String Secret)
    (ns name : String) : Error :=
  checkSecretData clientGet ns name [AccountName, AccountKey]

end V1alpha1

namespace Dbconfig

open V1alpha1

/-! ## `pkg/dbconfig/common.go`

`k8sutil.GetSecretsData` resolves a secret through the platform: the configure
functions take it as the parameter `getSecretsData`, which answers the values stored
under the requested keys, in the order of the keys, or the error of the lookup. -/

/-- `StorageConfig` is the configuration for the storage. -/
structure StorageConfig where
  StorageType : Option String := none
  StorageDataHome : Option String := none
  StorageAccessKeyID : Option String := none
  StorageSecretAccessKey : Option String := none
  StorageAccessKeySecret : Option String := none
  StorageBucket : Option String := none
  StorageRoot : Option String := none
  StorageRegion : Option String := none
  StorageEndpoint : Option String := none
  StorageScope : Option String := none
  StorageCredential : Option String := none
deriving DecidableEq, Repr

/-- `WALConfig` is the configuration for the WAL. -/
structure WALConfig where
  WalDir : Option String := none
  WalProvider : Option String := none
  WalBrokerEndpoints : List String := []
deriving DecidableEq, Repr

/-- A `float64` as the configuration holds it: a finite value, an infinity or NaN. -/
inductive Float64 where
  | finite (q : ℚ)
  | posInf
  | negInf
  | nan
deriving DecidableEq

/-- `LoggingConfig` is the configuration for the logging. -/
structure LoggingConfig where
  Dir : Option String := none
  Level : Option String := none
  LogFormat : Option String := none
  EnableSlowQuery : Option Bool := none
  SlowQueryThreshold : Option String := none
  SlowQuerySampleRatio : Option Float64 := none
deriving DecidableEq

/-- The Go conversion `string(b)` of a byte slice. A Go string is a sequence of bytes:
here each byte is kept as the character of the same code, so the conversion is
one-to-one, and a byte from 0x80 on stands for itself, not for a part of a UTF-8
sequence. -/
def bytesToString (b : Bytes) : String :=
  String.mk (b.map fun x => Char.ofNat x.val)

/-- The alphabet of `base64.StdEncoding` (RFC 4648). -/
def encodeStd : List Char :=
  "ABCDEFGHIJKLMNOPQRSTUVWXYZabcdefghijklmnopqrstuvwxyz0123456789+/".toList

/-- The character of a six-bit group. -/
def base64Digit (n : Nat) : Char :=
  encodeStd.getD n '='

/-- The standard base64 encoding of a byte sequence, three bytes to four characters,
the last group padded with `=`. -/
def base64Encode : Bytes → List Char
  | a :: b :: c :: rest =>
    base64Digit (a.val / 4) :: base64Digit (a.val % 4 * 16 + b.val / 16)
      :: base64Digit (b.val % 16 * 4 + c.val / 64) :: base64Digit (c.val % 64)
      :: base64Encode rest
  | [a, b] =>
    [base64Digit (a.val / 4), base64Digit (a.val % 4 * 16 + b.val / 16),
      base64Digit (b.val % 16 * 4), '=']
  | [a] => [base64Digit (a.val / 4), base64Digit (a.val % 4 * 16), '=', '=']
  | [] => []

/-- `base64.StdEncoding.EncodeToString`. -/
def EncodeToString (src : Bytes) : String :=
  String.mk (base64Encode src)

/-- Modelled from the spec: `k8sutil.GetSecretsData` (pkg/util/k8s, not under src/): the
synthesizer "re-resolves them independently and must tolerate absence by returning an
error"; on success it answers the value of every requested key, in the order of the
keys. -/
def GetSecretsData (clientGet : String → String → Except String Secret)
    (ns name : String) (keys : List String) : Except String (List Bytes) :=
  match clientGet ns name with
  | .error err => .error err
  | .ok secret =>
    match secret.Data with
    | none => .error ("secret '" ++ ns ++ "/" ++ name ++ "' is empty")
    | some data =>
      keys.mapM fun key =>
        match data.lookup key with
        | some v => .ok v
        | none =>
          .error ("secret '" ++ ns ++ "/" ++ name ++ "' does not have key '" ++ key ++ "'")

/-- `configureS3`: the storage config and the error it returns. The helper answers one
value per requested key, so `data[0]` and `data[1]` are in range. -/
def StorageConfig.configureS3
    (getSecretsData : String → String → List String → Except String (List Bytes))
    (ns : String) (s3 : Option S3Storage) (c : StorageConfig) : StorageConfig × Error :=
  match s3 with
  | none => (c, none)
  | some s3 =>
    let c := { c with
      StorageType := some "S3"
      StorageBucket := some s3.Bucket
      StorageRoot := some s3.Root
      StorageEndpoint := some s3.Endpoint
      StorageRegion := some s3.Region }
    if s3.SecretName ≠ "" then
      match getSecretsData ns s3.SecretName [AccessKeyIDSecretKey, SecretAccessKeySecretKey] with
      | .error err => (c, some err)
      | .ok data =>
        ({ c with
            StorageAccessKeyID := some (bytesToString (data.getD 0 []))
            StorageSecretAccessKey := some (bytesToString (data.getD 1 [])) }, none)
    else (c, none)

/-- `configureOSS`: the storage config and the error it returns. -/
def StorageConfig.configureOSS
    (getSecretsData : String → String → List String → Except String (List Bytes))
    (ns : String) (oss : Option OSSStorage) (c : StorageConfig) : StorageConfig × Error :=
  match oss with
  | none => (c, none)
  | some oss =>
    let c := { c with
      StorageType := some "Oss"
      StorageBucket := some oss.Bucket
      StorageRoot := some oss.Root
      StorageEndpoint := some oss.Endpoint
      StorageRegion := some oss.Region }
    if oss.SecretName ≠ "" then
      match getSecretsData ns oss.SecretName [AccessKeyIDSecretKey, SecretAccessKeySecretKey] with
      | .error err => (c, some err)
      | .ok data =>
        ({ c with
            StorageAccessKeyID := some (bytesToString (data.getD 0 []))
            StorageAccessKeySecret := some (bytesToString (data.getD 1 [])) }, none)
    else (c, none)

/-- `configureGCS`: the storage config and the error it returns. -/
def StorageConfig.configureGCS
    (getSecretsData : String → String → List String → Except String (List Bytes))
    (ns : String) (gcs : Option GCSStorage) (c : StorageConfig) : StorageConfig × Error :=
  match gcs with
  | none => (c, none)
  | some gcs =>
    let c := { c with
      StorageType := some "Gcs"
      StorageBucket := some gcs.Bucket
      StorageRoot := some gcs.Root
      StorageEndpoint := some gcs.Endpoint
      StorageScope := some gcs.Scope }
    if gcs.SecretName ≠ "" then
      match getSecretsData ns gcs.SecretName [ServiceAccountKey] with
      | .error err => (c, some err)
      | .ok data =>
        let serviceAccountKey := data.getD 0 []
        if serviceAccountKey.length ≠ 0 then
          ({ c with StorageCredential := some (EncodeToString serviceAccountKey) }, none)
        else (c, none)
    else (c, none)

/-- `ConfigureObjectStorage` configures the storage config by the given object storage
provider accessor. -/
def StorageConfig.ConfigureObjectStorage
    (getSecretsData : String → String → List String → Except String (List Bytes))
    (ns : String) (accessor : Option ObjectStorageProviderSpec) (c : StorageConfig) :
    StorageConfig × Error :=
  match ObjectStorageProviderSpec.GetS3Storage accessor with
  | some s3 => configureS3 getSecretsData ns (some s3) c
  | none =>
    match ObjectStorageProviderSpec.GetOSSStorage accessor with
    | some oss => configureOSS getSecretsData ns (some oss) c
    | none =>
      match ObjectStorageProviderSpec.GetGCSStorage accessor with
      | some gcs => configureGCS getSecretsData ns (some gcs) c
      | none => (c, none)

/-- `levelWithFilters` returns the level with filters. For example, it will output
"info,mito2=debug" if the level is "info" and the filters are ["mito2=debug"].
`strings.Join` is `String.intercalate`. -/
def LoggingConfig.levelWithFilters (level : String) (filters : List String) : String :=
  if filters.length > 0 then
    level ++ "," ++ String.intercalate "," filters
  else level

/-- `ConfigureLogging` configures the logging config with the given logging spec.
`strconv.ParseFloat` is the parameter `parseFloat`, `none` when the text does not
parse; the warning written to the log on that path is not part of the result. -/
def LoggingConfig.ConfigureLogging (parseFloat : String → Option Float64)
    (spec : Option LoggingSpec) (c : LoggingConfig) : LoggingConfig :=
  match spec with
  | none => c
  | some spec =>
    let c :=
      if LoggingSpec.IsOnlyLogToStdout (some spec) then { c with Dir := none }
      else if spec.LogsDir ≠ "" then { c with Dir := some spec.LogsDir }
      else c
    let c := { c with
      Level := some (levelWithFilters spec.Level spec.Filters)
      LogFormat := some spec.Format }
    match spec.SlowQuery with
    | some slowQuery =>
      let ration :=
        match parseFloat slowQuery.SampleRatio with
        | some r => r
        | none => Float64.finite 1
      { c with
        EnableSlowQuery := some slowQuery.Enabled
        SlowQueryThreshold := some slowQuery.Threshold
        SlowQuerySampleRatio := some ration }
    | none => c

/-- The six-bit group of a character of the alphabet, `none` for any other character. -/
def decodeDigit (ch : Char) : Option Nat :=
  if encodeStd.indexOf ch < 64 then some (encodeStd.indexOf ch) else none

/-- The decoding of `base64.StdEncoding` on a text without line breaks: four characters
to three bytes, the last group with one or two `=` to two bytes or one byte; `none` is
a corrupt input. -/
def base64Decode : List Char → Option Bytes
  | [] => some []
  | c0 :: c1 :: c2 :: c3 :: rest =>
    match decodeDigit c0, decodeDigit c1, decodeDigit c2, decodeDigit c3 with
    | some d0, some d1, some d2, some d3 =>
      match base64Decode rest with
      | some bs =>
        some (Fin.ofNat (d0 * 4 + d1 / 16) :: Fin.ofNat (d1 % 16 * 16 + d2 / 4)
          :: Fin.ofNat (d2 % 4 * 64 + d3) :: bs)
      | none => none
    | some d0, some d1, some d2, none =>
      if c3 = '=' ∧ rest = [] then
        some [Fin.ofNat (d0 * 4 + d1 / 16), Fin.ofNat (d1 % 16 * 16 + d2 / 4)]
      else none
    | some d0, some d1, none, none =>
      if c2 = '=' ∧ c3 = '=' ∧ rest = [] then some [Fin.ofNat (d0 * 4 + d1 / 16)] else none
    | _, _, _, _ => none
  | _ => none

/-- `base64.StdEncoding.DecodeString`, `none` when it returns an error. -/
def DecodeString (s : String) : Option Bytes :=
  base64Decode s.toList

/-! ## `pkg/dbconfig/datanode_config.go` -/

/-- `DatanodeConfig` is the configuration for the datanode. The three embedded structs
are the parent structures. -/
structure DatanodeConfig extends StorageConfig, WALConfig, LoggingConfig where
  NodeID : Option Nat := none
  RPCBindAddr : Option String := none
  RPCServerAddr : Option String := none
  InputConfig : String := ""
deriving DecidableEq

/-- `SetInputConfig` sets the input config. -/
def DatanodeConfig.SetInputConfig (input : String) (c : DatanodeConfig) :
    DatanodeConfig × Error :=
  ({ c with InputConfig := input }, none)

/-- `ConfigureByCluster` configures the datanode config by the given cluster.
`GetWALDir` is a getter of the cluster that is not under src/: it is the parameter
`GetWALDir`. -/
def DatanodeConfig.ConfigureByCluster
    (getSecretsData : String → String → List String → Except String (List Bytes))
    (parseFloat : String → Option Float64)
    (GetWALDir : Option GreptimeDBCluster → String)
    (cluster : Option GreptimeDBCluster) (c : DatanodeConfig) : DatanodeConfig × Error :=
  let stored :=
    match GreptimeDBCluster.GetObjectStorageProvider cluster with
    | some objectStorage =>
      StorageConfig.ConfigureObjectStorage getSecretsData
        (GreptimeDBCluster.GetNamespace cluster) (some objectStorage) c.toStorageConfig
    | none => (c.toStorageConfig, none)
  let c := { c with toStorageConfig := stored.1 }
  match stored.2 with
  | some err => (c, some err)
  | none =>
    let c :=
      if (WALProviderSpec.GetKafkaWAL (GreptimeDBCluster.GetWALProvider cluster)).isNone
          ∧ GetWALDir cluster ≠ "" then
        { c with WalDir := some (GetWALDir cluster) }
      else c
    let dataHome := DatanodeSpec.GetDataHome (GreptimeDBCluster.GetDatanode cluster)
    let c := if dataHome ≠ "" then { c with StorageDataHome := some dataHome } else c
    let cfg := DatanodeSpec.GetConfig (GreptimeDBCluster.GetDatanode cluster)
    let configured := if cfg ≠ "" then SetInputConfig cfg c else (c, none)
    match configured.2 with
    | some err => (configured.1, some err)
    | none =>
      let c := configured.1
      let c :=
        match WALProviderSpec.GetKafkaWAL (GreptimeDBCluster.GetWALProvider cluster) with
        | some kafka =>
          { c with
            WalProvider := some "kafka"
            WalBrokerEndpoints := KafkaWAL.GetBrokerEndpoints (some kafka) }
        | none => c
      ({ c with
          toLoggingConfig :=
            LoggingConfig.ConfigureLogging parseFloat
              (DatanodeSpec.GetLogging (GreptimeDBCluster.GetDatanode cluster))
              c.toLoggingConfig }, none)

end Dbconfig

namespace V1alpha1

/-- The error of the first failing check in a sequence of check results, `nil` when
every check passes. -/
def firstError : List Error → Error
  | [] => none
  | some err :: _ => some err
  | none :: rest => firstError rest

end V1alpha1

/-! ## `controllers/greptimedbcluster/deployers`: the builders

The orchestration objects (`client.Object`) are values of a type `Obj`. The object
literals of the build steps and the helpers of `CommonBuilder`, `dbconfig` and `util`
that the steps call are not under src/: they are the fields of `BuilderDeps`. A Go call
that dereferences a nil pointer panics: such a call has the outcome `panicked`. -/

namespace Deployers

open V1alpha1

/-- The outcome of a Go call: it returns a value, or it panics on a nil pointer. -/
inductive Outcome (α : Type) where
  | returned (value : α)
  | panicked
deriving DecidableEq, Repr

/-- The next call of a chain runs on the value the previous call returned. -/
def Outcome.andThen {α β : Type} (o : Outcome α) (f : α → Outcome β) : Outcome β :=
  match o with
  | .returned value => f value
  | .panicked => .panicked

/-- Modelled from the spec: `CommonBuilder` (declaration not under src/): "a builder
accumulates target objects for one role ... each step checked against, and able to
set, a single sticky error field". `Cluster` is a pointer. -/
structure CommonBuilder (Obj : Type) where
  Cluster : Option GreptimeDBCluster := none
  RoleKind : String := ""
  Objects : List Obj := []
  Err : Error := none
deriving DecidableEq, Repr

/-- The collaborators of the build steps that are not under src/. -/
structure BuilderDeps (Obj : Type) where
  /-- `common.ResourceName(name, roleKind)`. -/
  ResourceName : String → String → String
  /-- `common.MonitoringServiceName(name)`. -/
  MonitoringServiceName : String → String
  /-- The `corev1.Service` literal of `BuildService`, of a cluster and a role kind. -/
  service : GreptimeDBCluster → String → Obj
  /-- The `appsv1.Deployment` literal of `BuildDeployment`, of a cluster and a role kind.
  Building it calls `generatePodTemplateSpec`, which dereferences
  `Spec.Meta.Template` and its `MainContainer` and panics when one of them is nil; the
  literal that is built takes the config hash stamped on its pod template. -/
  deployment : GreptimeDBCluster → String → Outcome (String → Obj)
  /-- `dbconfig.FromCluster(cluster, cluster.GetMeta())`. -/
  FromCluster : GreptimeDBCluster → Except String String
  /-- `util.CalculateConfigHash`. -/
  CalculateConfigHash : String → String
  /-- `CommonBuilder.GenerateConfigMap`, of the cluster and the role kind. -/
  GenerateConfigMap : Option GreptimeDBCluster → String → Except String Obj
  /-- `CommonBuilder.GeneratePodMonitor(namespace, resourceName)`. -/
  GeneratePodMonitor : String → String → Except String Obj
  /-- The `GreptimeDBStandalone` literal of `BuildGreptimeDBStandalone` as an object. -/
  standalone : GreptimeDBStandalone → Obj
  /-- `CommonBuilder.GenerateVectorConfigMap`, of the cluster. -/
  GenerateVectorConfigMap : Option GreptimeDBCluster → Except String Obj

def metaBuilder.BuildService {Obj : Type} (deps : BuilderDeps Obj) (b : CommonBuilder Obj) :
    Outcome (CommonBuilder Obj) :=
  if b.Err.isSome then .returned b
  else
    match b.Cluster with
    | none => .panicked
    | some cluster =>
      if cluster.Spec.Meta.isNone then .returned b
      else
        .returned { b with Objects := b.Objects ++ [deps.service cluster b.RoleKind] }

def metaBuilder.BuildDeployment {Obj : Type} (deps : BuilderDeps Obj)
    (b : CommonBuilder Obj) : Outcome (CommonBuilder Obj) :=
  if b.Err.isSome then .returned b
  else
    match b.Cluster with
    | none => .panicked
    | some cluster =>
      if cluster.Spec.Meta.isNone then .returned b
      else
        match deps.deployment cluster b.RoleKind with
        | .panicked => .panicked
        | .returned deployment =>
          match deps.FromCluster cluster with
          | .error err => .returned { b with Err := some err }
          | .ok configData =>
            .returned { b with
              Objects := b.Objects ++ [deployment (deps.CalculateConfigHash configData)] }

def metaBuilder.BuildConfigMap {Obj : Type} (deps : BuilderDeps Obj)
    (b : CommonBuilder Obj) : Outcome (CommonBuilder Obj) :=
  if b.Err.isSome then .returned b
  else if (GreptimeDBCluster.GetMeta b.Cluster).isNone then .returned b
  else
    match deps.GenerateConfigMap b.Cluster b.RoleKind with
    | .error err => .returned { b with Err := some err }
    | .ok cm => .returned { b with Objects := b.Objects ++ [cm] }

def metaBuilder.BuildPodMonitor {Obj : Type} (deps : BuilderDeps Obj)
    (b : CommonBuilder Obj) : Outcome (CommonBuilder Obj) :=
  if b.Err.isSome then .returned b
  else
    match b.Cluster with
    | none => .panicked
    | some cluster =>
      if cluster.Spec.Meta.isNone then .returned b
      else
        match cluster.Spec.PrometheusMonitor with
        | none => .returned b
        | some monitor =>
          if !monitor.Enabled then .returned b
          else
            match deps.GeneratePodMonitor cluster.Namespace
                (deps.ResourceName cluster.Name b.RoleKind) with
            | .error err => .returned { b with Err := some err }
            | .ok pm => .returned { b with Objects := b.Objects ++ [pm] }

def metaBuilder.Generate {Obj : Type} (b : CommonBuilder Obj) : List Obj × Error :=
  (b.Objects, b.Err)

def monitoringBuilder.BuildGreptimeDBStandalone {Obj : Type} (deps : BuilderDeps Obj)
    (b : CommonBuilder Obj) : Outcome (CommonBuilder Obj) :=
  if !MonitoringSpec.IsEnabled (GreptimeDBCluster.GetMonitoring b.Cluster)
      || (MonitoringSpec.GetStandalone (GreptimeDBCluster.GetMonitoring b.Cluster)).isNone then
    .returned b
  else if b.Err.isSome then .returned b
  else
    match b.Cluster, MonitoringSpec.GetStandalone (GreptimeDBCluster.GetMonitoring b.Cluster) with
    | some cluster, some spec =>
      .returned { b with
        Objects := b.Objects
          ++ [deps.standalone
                { Name := deps.MonitoringServiceName cluster.Name
                  Namespace := cluster.Namespace
                  Spec := spec }] }
    | _, _ => .panicked

def monitoringBuilder.BuildConfigMap {Obj : Type} (deps : BuilderDeps Obj)
    (b : CommonBuilder Obj) : Outcome (CommonBuilder Obj) :=
  if !MonitoringSpec.IsEnabled (GreptimeDBCluster.GetMonitoring b.Cluster)
      || (MonitoringSpec.GetVector (GreptimeDBCluster.GetMonitoring b.Cluster)).isNone then
    .returned b
  else if b.Err.isSome then .returned b
  else
    match deps.GenerateVectorConfigMap b.Cluster with
    | .error err => .returned { b with Err := some err }
    | .ok cm => .returned { b with Objects := b.Objects ++ [cm] }

def monitoringBuilder.Generate {Obj : Type} (b : CommonBuilder Obj) : List Obj × Error :=
  (b.Objects, b.Err)

/-- The build steps of `metaBuilder` that are under src/. -/
inductive MetaStep where
  | BuildService
  | BuildConfigMap
  | BuildDeployment
  | BuildPodMonitor
deriving DecidableEq, Repr

/-- The build steps of `monitoringBuilder` that are under src/. -/
inductive MonitoringStep where
  | BuildGreptimeDBStandalone
  | BuildConfigMap
deriving DecidableEq, Repr

/-- One step of a `metaBuilder` call chain. -/
def MetaStep.run {Obj : Type} (deps : BuilderDeps Obj) (step : MetaStep)
    (b : CommonBuilder Obj) : Outcome (CommonBuilder Obj) :=
  match step with
  | .BuildService => metaBuilder.BuildService deps b
  | .BuildConfigMap => metaBuilder.BuildConfigMap deps b
  | .BuildDeployment => metaBuilder.BuildDeployment deps b
  | .BuildPodMonitor => metaBuilder.BuildPodMonitor deps b

/-- One step of a `monitoringBuilder` call chain. -/
def MonitoringStep.run {Obj : Type} (deps : BuilderDeps Obj) (step : MonitoringStep)
    (b : CommonBuilder Obj) : Outcome (CommonBuilder Obj) :=
  match step with
  | .BuildGreptimeDBStandalone => monitoringBuilder.BuildGreptimeDBStandalone deps b
  | .BuildConfigMap => monitoringBuilder.BuildConfigMap deps b

/-- A call chain `b.Step1().Step2()...` of `metaBuilder` steps, left to right. -/
def metaChain {Obj : Type} (deps : BuilderDeps Obj) :
    List MetaStep → CommonBuilder Obj → Outcome (CommonBuilder Obj)
  | [], b => .returned b
  | step :: rest, b => (step.run deps b).andThen (metaChain deps rest)

/-- A call chain of `monitoringBuilder` steps, left to right. -/
def monitoringChain {Obj : Type} (deps : BuilderDeps Obj) :
    List MonitoringStep → CommonBuilder Obj → Outcome (CommonBuilder Obj)
  | [], b => .returned b
  | step :: rest, b => (step.run deps b).andThen (monitoringChain deps rest)

/-! ## `controllers/greptimedbcluster/deployers`: status reconciliation

The platform client, the management endpoint of the meta role, the SQL connection and
the HTTP client are collaborators outside the repository, and the helpers of
`controllers/common`, `pkg/util/k8s` and `CommonDeployer` are not under src/: a pass
takes them as the fields of `MetaDeps` or `MonitoringDeps`. A pass answers its two
return values together with the cluster object as it leaves it and the calls it
issued, in order. -/

/-- The object a reconcile pass is invoked with (`client.Object`). -/
inductive ClientObject where
  | cluster (c : GreptimeDBCluster)
  | standalone (s : GreptimeDBStandalone)
  | other (kind : String)
deriving DecidableEq, Repr

/-- A non-nil error of `client.Get`: its text and what `errors.IsNotFound` answers on
it. -/
structure GetError where
  NotFound : Bool := false
  Message : String := ""
deriving DecidableEq, Repr

/-- The part of `appsv1.Deployment` that the meta pass reads. `Replicas` is the pointer
`Spec.Replicas`; the other fields are of `Status`, except `Generation` of the object
metadata. -/
structure Deployment where
  Replicas : Option Int := none
  Generation : Int := 0
  ObservedGeneration : Int := 0
  StatusReplicas : Int := 0
  UpdatedReplicas : Int := 0
  ReadyReplicas : Int := 0
  AvailableReplicas : Int := 0
deriving DecidableEq, Repr

/-- A call that a pass issues to a collaborator. -/
inductive Call where
  /-- `d.Get(ctx, objectKey, object)`. -/
  | Get (ns name : String)
  /-- `common.SetMaintenanceMode(url, enabled)`. -/
  | SetMaintenanceMode (url : String) (enabled : Bool)
  /-- `UpdateStatus(ctx, cluster, d.Client)`: the cluster whose status is persisted. -/
  | UpdateStatus (cluster : GreptimeDBCluster)
  /-- `d.getPipeline(ctx, cluster, pipelineName)`. -/
  | getPipeline (pipelineName : String)
  /-- `d.createPipeline(cluster, pipeline, pipelineName)`. -/
  | createPipeline (pipeline pipelineName : String)
deriving DecidableEq, Repr

/-- The call is a `SetMaintenanceMode` call. -/
def Call.isSetMaintenanceMode : Call → Bool
  | .SetMaintenanceMode _ _ => true
  | _ => false

/-- The call is an `UpdateStatus` call. -/
def Call.isUpdateStatus : Call → Bool
  | .UpdateStatus _ => true
  | _ => false

/-- The call is a `getPipeline` call. -/
def Call.isGetPipeline : Call → Bool
  | .getPipeline _ => true
  | _ => false

/-- The call is a `createPipeline` call. -/
def Call.isCreatePipeline : Call → Bool
  | .createPipeline _ _ => true
  | _ => false

/-- What a `CheckAndUpdateStatus` pass leaves behind: the two return values, the cluster
object after the pass (`none` when `GetCluster` failed), the calls issued and the
messages written with `klog`. -/
structure Pass where
  ready : Bool
  err : Error
  cluster : Option GreptimeDBCluster
  calls : List Call
  logs : List String := []
deriving DecidableEq, Repr

/-- The options of `MetaDeployer`. -/
structure MetaDeployer where
  /-- If true, the meta will be in maintenance mode when creating cluster. -/
  maintenanceModeWhenCreateCluster : Bool := false
deriving DecidableEq, Repr

/-- Modelled from the spec: the role kind constant of the meta role (declaration not
under src/). -/
def MetaRoleKind : String := "meta"

/-- Modelled from the spec: the role kind constant of a standalone (declaration not
under src/). -/
def StandaloneRoleKind : String := "standalone"

/-- The collaborators of `MetaDeployer.CheckAndUpdateStatus` during one pass. -/
structure MetaDeps where
  /-- `CommonDeployer.GetCluster`. -/
  GetCluster : ClientObject → Except String GreptimeDBCluster
  /-- `common.ResourceName(name, roleKind)`. -/
  ResourceName : String → String → String
  /-- `common.GetMetaHTTPServiceURL(cluster)`. -/
  GetMetaHTTPServiceURL : GreptimeDBCluster → String
  /-- `k8sutil.IsDeploymentReady(deployment)`. -/
  IsDeploymentReady : Deployment → Bool
  /-- `d.Get` of a deployment by namespace and name: the deployment it fills in and the
  error it returns. -/
  Get : String → String → Deployment × Option GetError
  /-- `common.SetMaintenanceMode(url, enabled)`. -/
  SetMaintenanceMode : String → Bool → Error
  /-- `UpdateStatus(ctx, cluster, d.Client)`. -/
  UpdateStatus : GreptimeDBCluster → Error

/-- `MetaDeployer.CheckAndUpdateStatus`. -/
def MetaDeployer.CheckAndUpdateStatus (d : MetaDeployer) (deps : MetaDeps)
    (highLevelObject : ClientObject) : Outcome Pass :=
  match deps.GetCluster highLevelObject with
  | .error err => .returned { ready := false, err := some err, cluster := none, calls := [] }
  | .ok cluster =>
    let name := deps.ResourceName cluster.Name MetaRoleKind
    let got := deps.Get cluster.Namespace name
    let deployment := got.1
    let calls := [Call.Get cluster.Namespace name]
    match got.2 with
    | some err =>
      if err.NotFound then
        .returned { ready := false, err := none, cluster := some cluster, calls := calls }
      else
        .returned
          { ready := false, err := some err.Message, cluster := some cluster, calls := calls }
    | none =>
      match deployment.Replicas, cluster.Spec.Meta with
      | some replicas, some metaSpec =>
        let cluster := { cluster with
          Status := { cluster.Status with
            Meta := { cluster.Status.Meta with
              Replicas := replicas
              ReadyReplicas := deployment.ReadyReplicas
              EtcdEndpoints := metaSpec.EtcdEndpoints } } }
        let ready := deps.IsDeploymentReady deployment
        let toggled : Except Pass (GreptimeDBCluster × List Call) :=
          if d.maintenanceModeWhenCreateCluster
              && cluster.Status.ClusterPhase == PhaseStarting
              && ready && !cluster.Status.Meta.MaintenanceMode then
            let url := deps.GetMetaHTTPServiceURL cluster
            let calls := calls ++ [Call.SetMaintenanceMode url true]
            match deps.SetMaintenanceMode url true with
            | some err =>
              .error { ready := false, err := some err, cluster := some cluster, calls := calls }
            | none =>
              .ok ({ cluster with
                      Status := { cluster.Status with
                        Meta := { cluster.Status.Meta with MaintenanceMode := true } } },
                    calls)
          else .ok (cluster, calls)
        match toggled with
        | .error pass => .returned pass
        | .ok (cluster, calls) =>
          let logs :=
            match deps.UpdateStatus cluster with
            | some err => ["Failed to update status: " ++ err]
            | none => []
          .returned
            { ready := ready, err := none, cluster := some cluster,
              calls := calls ++ [Call.UpdateStatus cluster], logs := logs }
      | _, _ => .panicked

/-- The cluster object after the three assignments to `cluster.Status.Meta` that follow
the read of the deployment (lines 137-139 of `meta.go`). -/
def MetaDeployer.recordReplicas (cluster : GreptimeDBCluster) (deployment : Deployment)
    (replicas : Int) (metaSpec : MetaSpec) : GreptimeDBCluster :=
  { cluster with
    Status := { cluster.Status with
      Meta := { cluster.Status.Meta with
        Replicas := replicas
        ReadyReplicas := deployment.ReadyReplicas
        EtcdEndpoints := metaSpec.EtcdEndpoints } } }

/-- The cluster object after `cluster.Status.Meta.MaintenanceMode = true` (line 154 of
`meta.go`). -/
def MetaDeployer.recordMaintenanceMode (cluster : GreptimeDBCluster) : GreptimeDBCluster :=
  { cluster with
    Status := { cluster.Status with
      Meta := { cluster.Status.Meta with MaintenanceMode := true } } }

/-- The condition under which the meta pass turns on maintenance mode (lines 147-149 of
`meta.go`). -/
def MetaDeployer.turnsOnMaintenanceMode (d : MetaDeployer) (cluster : GreptimeDBCluster)
    (ready : Bool) : Bool :=
  d.maintenanceModeWhenCreateCluster
    && cluster.Status.ClusterPhase == PhaseStarting
    && ready && !cluster.Status.Meta.MaintenanceMode

/-- The message that a pass writes when `UpdateStatus` returns the given error. -/
def updateStatusLogs (err : Error) : List String :=
  match err with
  | some err => ["Failed to update status: " ++ err]
  | none => []

/-- Successive passes of `MetaDeployer.CheckAndUpdateStatus`, one per element of the
list of collaborators, the cluster object that a pass leaves being the object of
the next pass; the passes stop at a panic. -/
def MetaDeployer.passes (d : MetaDeployer) : List MetaDeps → GreptimeDBCluster → List Pass
  | [], _ => []
  | deps :: rest, cluster =>
    match d.CheckAndUpdateStatus deps (.cluster cluster) with
    | .returned pass => pass :: passes d rest (pass.cluster.getD cluster)
    | .panicked => []

/-- One upload attempt of `createPipeline` as the HTTP client answers it. -/
inductive Attempt where
  /-- `http.NewRequest` returns an error. -/
  | requestError (err : String)
  /-- `hc.Do(req)` returns an error. -/
  | transportError (err : String)
  /-- A response arrives and `io.ReadAll(resp.Body)` returns an error. -/
  | readError (statusCode : Nat) (err : String)
  /-- A response arrives and its body is read. -/
  | response (statusCode : Nat) (responseBody : String)
deriving DecidableEq, Repr

/-- What `createPipeline` leaves behind: the error it returns, the number of upload
attempts it made and the warnings it wrote with `klog`. -/
structure Upload where
  err : Error
  attempts : Nat
  logs : List String := []
deriving DecidableEq, Repr

/-- The type `pipeline` of `monitoring.go`. -/
structure pipeline where
  name : String
  data : String
deriving DecidableEq, Repr

/-- The collaborators of `MonitoringDeployer.CheckAndUpdateStatus` during one pass. -/
structure MonitoringDeps where
  /-- `CommonDeployer.GetCluster`. -/
  GetCluster : ClientObject → Except String GreptimeDBCluster
  /-- `common.ResourceName(name, roleKind)`. -/
  ResourceName : String → String → String
  /-- `common.MonitoringServiceName(name)`. -/
  MonitoringServiceName : String → String
  /-- `common.LogsPipelineName(namespace, name)`. -/
  LogsPipelineName : String → String → String
  /-- `d.Get` of a standalone by namespace and name: the standalone as the call leaves
  it and the error it returns. -/
  Get : String → String → GreptimeDBStandalone × Option GetError
  /-- `fs.ReadFile(config.DefaultLogsPipeline, name)`. -/
  ReadFile : String → Except String Bytes
  /-- `sql.Open`: the error it returns. -/
  sqlOpen : Error
  /-- The query `SELECT 1 FROM pipelines LIMIT 1`: the error it returns. -/
  queryTable : Error
  /-- The query `SELECT pipeline FROM pipelines WHERE name = ? LIMIT 1`: its error, or no
  row (`rows.Next()` is false), or the row with the outcome of `rows.Scan`. -/
  queryPipeline : String → Except String (Option (Except String String))
  /-- The upload request of a pipeline name at the attempt of the given index (from 0),
  and its answer. The pipeline text is what `createPipeline` writes to its form buffer
  before the first attempt: every attempt builds its request on that one buffer, which
  a transmitted request drains, so what an attempt posts is what the earlier attempts
  left of the text. -/
  Do : String → String → Nat → Attempt
  /-- `UpdateStatus(ctx, cluster, d.Client)`. -/
  UpdateStatus : GreptimeDBCluster → Error

/-- `strings.Contains`. -/
def stringsContains (s substr : String) : Bool :=
  s.toList.tails.any fun t => substr.toList.isPrefixOf t

/-- The function `operation` of `createPipeline` on the answer of one attempt: the error
it returns and the warning it writes. -/
def MonitoringDeployer.operation (attempt : Attempt) : Error × List String :=
  match attempt with
  | .requestError err => (some err, [])
  | .transportError err => (some err, ["failed to create pipeline: " ++ err])
  | .readError _ err => (some err, [])
  | .response statusCode responseBody =>
    if statusCode ≠ 200 then
      (some ("failed to create pipeline: '" ++ responseBody ++ "'"), [])
    else (none, [])

/-- The text of the error that `retry.Do` returns when every attempt failed. -/
def retryErrorText (errorLog : List String) : String :=
  "All attempts fail:\n"
    ++ String.intercalate "\n"
        (errorLog.enum.map fun entry => "#" ++ toString (entry.1 + 1) ++ ": " ++ entry.2)

/-- The loop of `retry.Do` (avast/retry-go) with a fixed delay and errors that are all
retryable: `remaining` attempts are left, `n` were made, `errorLog` holds their
errors. -/
def retryLoop (operation : Nat → Error × List String) :
    (remaining n : Nat) → (errorLog logs : List String) → Upload
  | 0, n, errorLog, logs => { err := some (retryErrorText errorLog), attempts := n, logs := logs }
  | remaining + 1, n, errorLog, logs =>
    match (operation n).1 with
    | none => { err := none, attempts := n + 1, logs := logs ++ (operation n).2 }
    | some err =>
      retryLoop operation remaining (n + 1) (errorLog ++ [err]) (logs ++ (operation n).2)

/-- `retry.Do(operation, retry.Attempts(attempts), ...)`. -/
def retryDo (operation : Nat → Error × List String) (attempts : Nat) : Upload :=
  retryLoop operation attempts 0 [] []

/-- `MonitoringDeployer.createPipeline`. The form file is written to a `bytes.Buffer`,
whose writes return no error, so `CreateFormFile` and `io.Copy` do not fail; every
attempt builds its request on that buffer, and `deps.Do` answers the attempt of each
index. -/
def MonitoringDeployer.createPipeline (deps : MonitoringDeps) (cluster : GreptimeDBCluster)
    (pipeline pipelineName : String) : Upload :=
  let p := PipelineSpec.GetData (LogsCollectionSpec.GetPipeline
    (MonitoringSpec.GetLogsCollection (GreptimeDBCluster.GetMonitoring (some cluster))))
  let pipeline := if p ≠ "" then p else pipeline
  retryDo (fun n => operation (deps.Do pipelineName pipeline n)) 10

/-- `defaultLogsPipeline` returns the default pipeline that will be used by the
standalone greptimedb instance to collect greptimedb logs. -/
def MonitoringDeployer.defaultLogsPipeline (deps : MonitoringDeps) : Except String String :=
  match deps.ReadFile "logs-pipeline.yaml" with
  | .error err => .error err
  | .ok data => .ok (Dbconfig.bytesToString data)

/-- `MonitoringDeployer.pipelines`. -/
def MonitoringDeployer.pipelines (deps : MonitoringDeps) (cluster : GreptimeDBCluster) :
    Except String (List pipeline) :=
  match defaultLogsPipeline deps with
  | .error err => .error err
  | .ok logsPipeline =>
    .ok [{ name := deps.LogsPipelineName cluster.Namespace cluster.Name, data := logsPipeline }]

/-- `MonitoringDeployer.getPipeline`: the pipeline text and the error it returns. -/
def MonitoringDeployer.getPipeline (deps : MonitoringDeps) (pipelineName : String) :
    String × Error :=
  match deps.sqlOpen with
  | some err => ("", some err)
  | none =>
    match deps.queryTable with
    | some err =>
      if stringsContains err "TableNotFound" then ("", none) else ("", some err)
    | none =>
      match deps.queryPipeline pipelineName with
      | .error err => ("", some err)
      | .ok (some (.error err)) => ("", some err)
      | .ok (some (.ok text)) => (text, none)
      | .ok none => ("", none)

/-- The `for _, p := range pipelines` loop of `MonitoringDeployer.CheckAndUpdateStatus`
and the `return true, nil` after it, by recursion on the pipelines still to visit. -/
def MonitoringDeployer.pipelineLoop (deps : MonitoringDeps) :
    List pipeline → GreptimeDBCluster → List Call → List String → Pass
  | [], cluster, calls, logs =>
    { ready := true, err := none, cluster := some cluster, calls := calls, logs := logs }
  | p :: rest, cluster, calls, logs =>
    let got := getPipeline deps p.name
    let calls := calls ++ [Call.getPipeline p.name]
    match got.2 with
    | some err =>
      { ready := false, err := some err, cluster := some cluster, calls := calls,
        logs := logs ++ ["Failed to get pipeline for standalone, err: '" ++ err ++ "'"] }
    | none =>
      let created : Upload × List Call × List String :=
        if got.1 = "" then
          let upload := createPipeline deps cluster p.data p.name
          (upload, calls ++ [Call.createPipeline p.data p.name],
            logs ++ ["Create pipeline '" ++ p.name ++ "' for standalone monitoring"]
              ++ upload.logs)
        else ({ err := none, attempts := 0 }, calls, logs)
      match created.1.err with
      | some err =>
        { ready := false, err := some err, cluster := some cluster, calls := created.2.1,
          logs := created.2.2
            ++ ["Failed to create pipeline '" ++ p.name ++ "' for standalone, err: '"
                  ++ err ++ "'"] }
      | none =>
        let cluster := { cluster with
          Status := { cluster.Status with
            Monitoring := { cluster.Status.Monitoring with
              InternalDNSName :=
                deps.ResourceName (deps.MonitoringServiceName cluster.Name) StandaloneRoleKind
                  ++ "." ++ cluster.Namespace ++ ".svc.cluster.local" } } }
        let logs :=
          match deps.UpdateStatus cluster with
          | some err => created.2.2 ++ ["Failed to update status: " ++ err]
          | none => created.2.2
        pipelineLoop deps rest cluster (created.2.1 ++ [Call.UpdateStatus cluster]) logs

/-- `MonitoringDeployer.CheckAndUpdateStatus`. -/
def MonitoringDeployer.CheckAndUpdateStatus (deps : MonitoringDeps)
    (crdObject : ClientObject) : Pass :=
  match deps.GetCluster crdObject with
  | .error err => { ready := false, err := some err, cluster := none, calls := [] }
  | .ok cluster =>
    if !MonitoringSpec.IsEnabled (GreptimeDBCluster.GetMonitoring (some cluster))
        || (MonitoringSpec.GetStandalone
              (GreptimeDBCluster.GetMonitoring (some cluster))).isNone then
      { ready := true, err := none, cluster := some cluster, calls := [] }
    else
      let name := deps.MonitoringServiceName cluster.Name
      let got := deps.Get cluster.Namespace name
      let standalone := got.1
      let calls := [Call.Get cluster.Namespace name]
      let isNotFound :=
        match got.2 with
        | some err => err.NotFound
        | none => false
      if isNotFound then
        { ready := false, err := none, cluster := some cluster, calls := calls }
      else if MonitoringSpec.IsEnabled (GreptimeDBCluster.GetMonitoring (some cluster))
          && standalone.Status.StandalonePhase == PhaseRunning then
        match pipelines deps cluster with
        | .error err =>
          { ready := false, err := some err, cluster := some cluster, calls := calls,
            logs := ["Failed to get pipelines for standalone, err: '" ++ err ++ "'"] }
        | .ok ps => pipelineLoop deps ps cluster calls []
      else
        { ready := false, err := none, cluster := some cluster, calls := calls }

end Deployers

/-! ## Worked inputs

Concrete parsers, specs and secrets on which the theorems below are evaluated. -/

namespace Examples

open V1alpha1

/-- A stand-in for the TOML parser: it rejects the text `=` and accepts every other
text. -/
def tomlUnmarshal : String → Error :=
  fun input => if input = "=" then some "parse error" else none

/-- A cluster with a datanode spec and one datanode group. -/
def datanodeAndGroup : GreptimeDBCluster :=
  { Namespace := "default", Name := "db",
    Spec := { Datanode := some {}, DatanodeGroups := [some { Name := "dn-a" }] } }

/-- A cluster with a datanode spec whose config fragment does not parse, and one
datanode group. -/
def badDatanodeAndGroup : GreptimeDBCluster :=
  { Namespace := "default", Name := "db",
    Spec := { Datanode := some { Config := "=" }, DatanodeGroups := [some { Name := "dn-a" }] } }

/-- A cluster whose frontend groups share one name and whose datanode groups share
one name. -/
def sameNames : GreptimeDBCluster :=
  { Namespace := "default", Name := "db",
    Spec := { FrontendGroups := [some { Name := "read" }, some { Name := "read" }],
              DatanodeGroups := [some { Name := "hot" }, some { Name := "hot" }] } }

/-- A cluster with a frontend group without a name. -/
def unnamedGroup : GreptimeDBCluster :=
  { Namespace := "default", Name := "db",
    Spec := { FrontendGroups := [some { Name := "read" }, some { Name := "" }] } }

/-- An object storage provider with the S3 and the GCS variant populated. -/
def twoStorages : ObjectStorageProviderSpec :=
  { S3 := some { Bucket := "b" }, GCS := some { Bucket := "b" } }

/-- A WAL provider with the raft-engine and the kafka variant populated. -/
def twoWALs : WALProviderSpec :=
  { RaftEngineWAL := some {}, KafkaWAL := some { BrokerEndpoints := ["kafka:9092"] } }

/-- A file storage without a mount path. -/
def noMountPath : FileStorage :=
  { Name := "wal", MountPath := "", StorageSize := "10Gi" }

/-- A cluster whose raft-engine WAL uses the file storage without a mount path. -/
def walWithoutMountPath : GreptimeDBCluster :=
  { Namespace := "default", Name := "db",
    Spec := { WALProvider := some { RaftEngineWAL := some { FileStorage := some noMountPath } } } }

/-- A standalone whose object-storage cache uses the file storage without a mount
path. -/
def cacheWithoutMountPath : GreptimeDBStandalone :=
  { Namespace := "default", Name := "db",
    Spec := { ObjectStorageProvider :=
                some { S3 := some { Bucket := "b" },
                       Cache := some { FileStorage := some noMountPath } } } }

/-- A cluster with two storage variants populated. -/
def clusterTwoStorages : GreptimeDBCluster :=
  { Namespace := "default", Name := "db",
    Spec := { ObjectStorageProvider := some twoStorages } }

/-- A standalone with two WAL variants populated. -/
def standaloneTwoWALs : GreptimeDBStandalone :=
  { Namespace := "default", Name := "db", Spec := { WALProvider := some twoWALs } }

/-- A platform with two secrets in the namespace `default`: `db-cred` holds the key
`username` only, `oss-cred` holds the two keys that `checkOSSCredentialsSecret`
requires; every other lookup fails. -/
def clientGet : String → String → Except String Secret :=
  fun ns name =>
    if ns = "default" ∧ name = "db-cred" then
      .ok { Data := some [("username", [114, 111, 111, 116])] }
    else if ns = "default" ∧ name = "oss-cred" then
      .ok { Data := some [("access-key-id", [105, 100]), ("access-key-secret", [107, 101, 121])] }
    else .error ("secrets \"" ++ name ++ "\" not found")

/-- An OSS storage whose credentials are in the secret `oss-cred`. -/
def ossStorage : OSSStorage :=
  { Bucket := "b", Region := "r", SecretName := "oss-cred", Root := "/", Endpoint := "e" }

/-- An Azure Blob storage. -/
def azblobStorage : AZBlobStorage :=
  { Container := "c", SecretName := "az-cred", Root := "/", Endpoint := "e" }

/-- A stand-in for `strconv.ParseFloat`: it parses the texts `1.0` and `0.5` and rejects
every other text. -/
def parseFloat : String → Option Dbconfig.Float64 :=
  fun text =>
    if text = "1.0" then some (.finite 1)
    else if text = "0.5" then some (.finite (1 / 2))
    else none

/-- A logging spec with a slow-query sample ratio that is not a number, logs in
`/data/logs`. -/
def loggingBadRatio : LoggingSpec :=
  { Level := "info", Filters := ["mito2=debug"], LogsDir := "/data/logs", Format := "text",
    SlowQuery := some { Enabled := true, Threshold := "10s", SampleRatio := "abc" } }

/-- A logging spec that asks for stdout only and names a logs directory. -/
def loggingStdout : LoggingSpec :=
  { Level := "info", LogsDir := "/data/logs", OnlyLogToStdout := some true, Format := "text" }

/-- A cluster with a datanode and a Kafka WAL. -/
def kafkaCluster : GreptimeDBCluster :=
  { Namespace := "default", Name := "db",
    Spec := { Datanode := some {},
              WALProvider := some { KafkaWAL := some { BrokerEndpoints := ["kafka:9092"] } } } }

/-- A stand-in for `GetWALDir`: every cluster keeps its WAL in `/data/greptimedb/wal`. -/
def GetWALDir : Option GreptimeDBCluster → String :=
  fun _ => "/data/greptimedb/wal"

/-- A platform without secrets. -/
def noSecrets : String → String → List String → Except String (List Bytes) :=
  fun _ name _ => .error ("secrets \"" ++ name ++ "\" not found")

/-- A platform whose secret `gcs-cred` holds the service-account key `{"a":1}`. -/
def gcsSecrets : String → String → List String → Except String (List Bytes) :=
  fun _ name _ =>
    if name = "gcs-cred" then .ok [[123, 34, 97, 34, 58, 49, 125]]
    else .error ("secrets \"" ++ name ++ "\" not found")

/-- A GCS storage whose credentials are in the secret `gcs-cred`. -/
def gcsStorage : GCSStorage :=
  { Bucket := "b", Root := "/", SecretName := "gcs-cred", Scope := "s", Endpoint := "e" }

/-- Builder collaborators over objects written as text: `FromCluster` rejects the meta
config fragment `=`, the other helpers succeed, and the deployment literal is built
(the pod template of the meta spec is set). -/
def builderDeps : Deployers.BuilderDeps String where
  ResourceName := fun name roleKind => name ++ "-" ++ roleKind
  MonitoringServiceName := fun name => name ++ "-monitor"
  service := fun cluster roleKind =>
    "Service/" ++ cluster.Namespace ++ "/" ++ cluster.Name ++ "-" ++ roleKind
  deployment := fun cluster roleKind => .returned fun hash =>
    "Deployment/" ++ cluster.Namespace ++ "/" ++ cluster.Name ++ "-" ++ roleKind ++ "#" ++ hash
  FromCluster := fun cluster =>
    if MetaSpec.GetConfig cluster.Spec.Meta = "=" then .error "invalid meta config"
    else .ok (MetaSpec.GetConfig cluster.Spec.Meta)
  CalculateConfigHash := fun configData => configData
  GenerateConfigMap := fun cluster roleKind =>
    .ok ("ConfigMap/" ++ GreptimeDBCluster.GetNamespace cluster ++ "/" ++ roleKind)
  GeneratePodMonitor := fun ns name => .ok ("PodMonitor/" ++ ns ++ "/" ++ name)
  standalone := fun s => "GreptimeDBStandalone/" ++ s.Namespace ++ "/" ++ s.Name
  GenerateVectorConfigMap := fun cluster =>
    .ok ("ConfigMap/" ++ GreptimeDBCluster.GetNamespace cluster ++ "/vector")

/-- A cluster in the `Starting` phase with a meta role whose config fragment is `=`. -/
def startingCluster : GreptimeDBCluster :=
  { Namespace := "default", Name := "db",
    Spec := { Meta := some { Config := "=", EtcdEndpoints := ["etcd:2379"] } },
    Status := { ClusterPhase := PhaseStarting } }

/-- A ready meta deployment with one replica. -/
def readyDeployment : Deployers.Deployment :=
  { Replicas := some 1, Generation := 1, ObservedGeneration := 1, StatusReplicas := 1,
    UpdatedReplicas := 1, ReadyReplicas := 1, AvailableReplicas := 1 }

/-- Meta collaborators of a pass in which the deployment `db-meta` is present and
ready, the maintenance-mode call succeeds and persisting the status fails. -/
def metaDeps : Deployers.MetaDeps where
  GetCluster := fun object =>
    match object with
    | .cluster c => .ok c
    | _ => .error "the object is not GreptimeDBCluster"
  ResourceName := fun name roleKind => name ++ "-" ++ roleKind
  GetMetaHTTPServiceURL := fun cluster =>
    "http://" ++ cluster.Name ++ "-meta." ++ cluster.Namespace ++ ":4000"
  IsDeploymentReady := fun deployment => deployment.Replicas = some deployment.ReadyReplicas
  Get := fun _ name =>
    if name = "db-meta" then (readyDeployment, none)
    else ({}, some { NotFound := true, Message := "deployments \"" ++ name ++ "\" not found" })
  SetMaintenanceMode := fun _ _ => none
  UpdateStatus := fun _ => some "conflict"

/-- A cluster whose meta deployment does not exist, with monitoring enabled. -/
def monitoredCluster : GreptimeDBCluster :=
  { Namespace := "default", Name := "mon",
    Spec := { Meta := some {}, Monitoring := some { Enabled := true, Standalone := some {} } },
    Status := { ClusterPhase := PhaseStarting } }

/-- Monitoring collaborators of a pass in which the standalone `db-monitor` is running,
the table of pipelines does not exist yet, and the upload is refused twice before it is
answered with 200; the standalone of any other cluster is not found. -/
def monitoringDeps : Deployers.MonitoringDeps where
  GetCluster := fun object =>
    match object with
    | .cluster c => .ok c
    | _ => .error "the object is not GreptimeDBCluster"
  ResourceName := fun name roleKind => name ++ "-" ++ roleKind
  MonitoringServiceName := fun name => name ++ "-monitor"
  LogsPipelineName := fun ns name => ns ++ "-" ++ name ++ "-logs"
  Get := fun ns name =>
    if name = "db-monitor" then
      ({ Namespace := ns, Name := name, Status := { StandalonePhase := PhaseRunning } }, none)
    else ({}, some { NotFound := true, Message := "standalone \"" ++ name ++ "\" not found" })
  ReadFile := fun _ => .ok [112]
  sqlOpen := none
  queryTable := some "Error 1146: TableNotFound: pipelines"
  queryPipeline := fun _ => .ok none
  Do := fun _ _ n =>
    if n < 2 then .transportError "connection refused" else .response 200 "ok"
  UpdateStatus := fun _ => none

/-- A cluster in the `Starting` phase with monitoring enabled. -/
def dbCluster : GreptimeDBCluster :=
  { Namespace := "default", Name := "db",
    Spec := { Meta := some {}, Monitoring := some { Enabled := true, Standalone := some {} } },
    Status := { ClusterPhase := PhaseStarting } }

/-- A meta backend storage with the MySQL and the PostgreSQL backend populated. -/
def twoBackendStorages : BackendStorage :=
  { MySQLStorage := some { Host := "mysql", CredentialsSecretName := "m" },
    PostgreSQLStorage := some { Host := "pg", CredentialsSecretName := "p" } }

/-- A cluster whose meta backend storage has the MySQL and the PostgreSQL backend
populated. -/
def twoBackends : GreptimeDBCluster :=
  { Namespace := "default", Name := "db",
    Spec := { Meta := some { BackendStorage := some twoBackendStorages },
              Datanode := some {} } }

/-- Monitoring collaborators of a pass in which the read of the standalone fails with
an error that is not not-found and leaves the standalone at its zero value. -/
def monitoringDepsReadFails : Deployers.MonitoringDeps :=
  { monitoringDeps with
    Get := fun _ _ => ({}, some { NotFound := false, Message := "connection refused" }) }

/-- A cluster whose second frontend group has no name and a config fragment that does
not parse, and whose first datanode group has no name and a config fragment that does
not parse. -/
def unnamedBadGroups : GreptimeDBCluster :=
  { Namespace := "default", Name := "db",
    Spec := { FrontendGroups := [some { Name := "read" }, some { Name := "", Config := "=" }],
              DatanodeGroups := [some { Name := "", Config := "=" }, some { Name := "dn-b" }] } }

/-- A cluster in the `Starting` phase without meta spec, its maintenance-mode flag not
recorded. -/
def startingClusterNoMeta : GreptimeDBCluster :=
  { Namespace := "default", Name := "db",
    Spec := { Meta := none },
    Status := { ClusterPhase := PhaseStarting } }

end Examples

/-! ## Auxiliary facts about the validation functions -/

namespace V1alpha1

theorem string_length_eq_zero_iff (s : String) : s.length = 0 ↔ s = "" := by
  constructor
  · intro h
    cases s with
    | mk data =>
      have hd : data = [] := List.length_eq_zero.mp h
      subst hd
      rfl
  · intro h
    subst h
    rfl

theorem validateWALProvider_match (w : Option WALProviderSpec) :
    (match w with
     | some wal => validateWALProvider (some wal)
     | none => none) = validateWALProvider w := by
  cases w <;> rfl

theorem validateObjectStorageProvider_match (o : Option ObjectStorageProviderSpec) :
    (match o with
     | some osp => validateObjectStorageProvider (some osp)
     | none => none) = validateObjectStorageProvider o := by
  cases o <;> rfl

theorem validateFrontendGroupsLoop_eq_none_iff (tomlUnmarshal : String → Error)
    (gs : List (Option FrontendSpec)) :
    validateFrontendGroupsLoop tomlUnmarshal gs = none ↔
      ∀ g ∈ gs, FrontendSpec.GetName g ≠ ""
        ∧ validateTomlConfig tomlUnmarshal (FrontendSpec.GetConfig g) = none := by
  induction gs with
  | nil => simp [validateFrontendGroupsLoop]
  | cons g rest ih =>
    unfold validateFrontendGroupsLoop
    by_cases hn : FrontendSpec.GetName g = ""
    · simp [hn]
    · have hl : ¬ (FrontendSpec.GetName g).length = 0 := fun h =>
        hn ((string_length_eq_zero_iff _).mp h)
      cases hc : validateTomlConfig tomlUnmarshal (FrontendSpec.GetConfig g) with
      | none => simp [hl, hn, hc, ih]
      | some e => simp [hl, hc]

theorem validateDatanodeGroupsLoop_eq_none_iff (tomlUnmarshal : String → Error)
    (gs : List (Option DatanodeSpec)) :
    validateDatanodeGroupsLoop tomlUnmarshal gs = none ↔
      ∀ g ∈ gs, DatanodeSpec.GetName g ≠ ""
        ∧ validateTomlConfig tomlUnmarshal (DatanodeSpec.GetConfig g) = none := by
  induction gs with
  | nil => simp [validateDatanodeGroupsLoop]
  | cons g rest ih =>
    unfold validateDatanodeGroupsLoop
    by_cases hn : DatanodeSpec.GetName g = ""
    · simp [hn]
    · have hl : ¬ (DatanodeSpec.GetName g).length = 0 := fun h =>
        hn ((string_length_eq_zero_iff _).mp h)
      cases hc : validateTomlConfig tomlUnmarshal (DatanodeSpec.GetConfig g) with
      | none => simp [hl, hn, hc, ih]
      | some e => simp [hl, hc]

/-- The cluster is accepted exactly when every check of `Validate` passes. -/
theorem cluster_Validate_eq_none_iff (tomlUnmarshal : String → Error) (c : GreptimeDBCluster) :
    GreptimeDBCluster.Validate tomlUnmarshal (some c) = none ↔
      GreptimeDBCluster.validateFrontend tomlUnmarshal (some c) = none
      ∧ GreptimeDBCluster.validateFrontendGroups tomlUnmarshal (some c) = none
      ∧ GreptimeDBCluster.validateMeta tomlUnmarshal (some c) = none
      ∧ ¬ (c.Spec.Datanode.isSome ∧ c.Spec.DatanodeGroups.length > 0)
      ∧ GreptimeDBCluster.validateDatanode tomlUnmarshal (some c) = none
      ∧ GreptimeDBCluster.validateDatanodeGroups tomlUnmarshal (some c) = none
      ∧ (c.Spec.Flownode.isSome →
          GreptimeDBCluster.validateFlownode tomlUnmarshal (some c) = none)
      ∧ validateWALProvider c.Spec.WALProvider = none
      ∧ validateObjectStorageProvider c.Spec.ObjectStorageProvider = none := by
  unfold GreptimeDBCluster.Validate
  simp only [validateWALProvider_match, validateObjectStorageProvider_match,
    GreptimeDBCluster.GetDatanode, GreptimeDBCluster.GetDatanodeGroups,
    GreptimeDBCluster.GetFlownode, GreptimeDBCluster.GetWALProvider,
    GreptimeDBCluster.GetObjectStorageProvider]
  cases h1 : GreptimeDBCluster.validateFrontend tomlUnmarshal (some c) <;>
  cases h2 : GreptimeDBCluster.validateFrontendGroups tomlUnmarshal (some c) <;>
  cases h3 : GreptimeDBCluster.validateMeta tomlUnmarshal (some c) <;>
  cases h4 : GreptimeDBCluster.validateDatanode tomlUnmarshal (some c) <;>
  cases h5 : GreptimeDBCluster.validateDatanodeGroups tomlUnmarshal (some c) <;>
  cases h6 : validateWALProvider c.Spec.WALProvider <;>
  cases h7 : validateObjectStorageProvider c.Spec.ObjectStorageProvider <;>
  by_cases hx : (c.Spec.Datanode.isSome ∧ c.Spec.DatanodeGroups.length > 0) <;>
  by_cases hf : c.Spec.Flownode.isSome = true <;>
  cases h8 : GreptimeDBCluster.validateFlownode tomlUnmarshal (some c) <;>
  simp [hx, hf]

/-- The standalone is accepted exactly when every check of `Validate` passes. -/
theorem standalone_Validate_eq_none_iff (tomlUnmarshal : String → Error)
    (s : GreptimeDBStandalone) :
    GreptimeDBStandalone.Validate tomlUnmarshal (some s) = none ↔
      validateTomlConfig tomlUnmarshal s.Spec.Config = none
      ∧ validateWALProvider s.Spec.WALProvider = none
      ∧ validateObjectStorageProvider s.Spec.ObjectStorageProvider = none := by
  unfold GreptimeDBStandalone.Validate
  simp only [validateWALProvider_match, validateObjectStorageProvider_match,
    GreptimeDBStandalone.GetConfig, GreptimeDBStandalone.GetWALProvider,
    GreptimeDBStandalone.GetObjectStorageProvider]
  cases h1 : validateTomlConfig tomlUnmarshal s.Spec.Config <;>
  cases h2 : validateWALProvider s.Spec.WALProvider <;>
  cases h3 : validateObjectStorageProvider s.Spec.ObjectStorageProvider <;>
  simp

theorem validateFrontend_eq_none_iff (tomlUnmarshal : String → Error) (c : GreptimeDBCluster) :
    GreptimeDBCluster.validateFrontend tomlUnmarshal (some c) = none ↔
      validateTomlConfig tomlUnmarshal (FrontendSpec.GetConfig c.Spec.Frontend) = none := by
  unfold GreptimeDBCluster.validateFrontend
  simp only [GreptimeDBCluster.GetFrontend]
  cases validateTomlConfig tomlUnmarshal (FrontendSpec.GetConfig c.Spec.Frontend) <;> simp

theorem validateMeta_eq_none_iff (tomlUnmarshal : String → Error) (c : GreptimeDBCluster) :
    GreptimeDBCluster.validateMeta tomlUnmarshal (some c) = none ↔
      validateTomlConfig tomlUnmarshal (MetaSpec.GetConfig c.Spec.Meta) = none := by
  unfold GreptimeDBCluster.validateMeta
  simp only [GreptimeDBCluster.GetMeta]
  cases validateTomlConfig tomlUnmarshal (MetaSpec.GetConfig c.Spec.Meta) <;> simp

theorem validateFileStorage_eq_none_iff (fs : FileStorage) :
    validateFileStorage (some fs) = none ↔
      fs.Name ≠ "" ∧ fs.MountPath ≠ "" ∧ fs.StorageSize ≠ "" := by
  unfold validateFileStorage
  simp only [FileStorage.GetName, FileStorage.GetMountPath, FileStorage.GetSize]
  by_cases h1 : fs.Name = "" <;> by_cases h2 : fs.MountPath = "" <;>
    by_cases h3 : fs.StorageSize = "" <;> simp [h1, h2, h3]

theorem validateWALProvider_ne_none_of_both (w : WALProviderSpec)
    (hr : w.RaftEngineWAL.isSome) (hk : w.KafkaWAL.isSome) :
    validateWALProvider (some w) ≠ none := by
  simp [validateWALProvider, WALProviderSpec.GetRaftEngineWAL, WALProviderSpec.GetKafkaWAL,
    hr, hk]

theorem validateWALProvider_ne_none_of_fileStorage (w : Option WALProviderSpec)
    (fs : FileStorage)
    (hfs : RaftEngineWAL.GetFileStorage (WALProviderSpec.GetRaftEngineWAL w) = some fs)
    (hbad : validateFileStorage (some fs) ≠ none) :
    validateWALProvider w ≠ none := by
  cases w with
  | none => simp [WALProviderSpec.GetRaftEngineWAL, RaftEngineWAL.GetFileStorage] at hfs
  | some wal =>
    unfold validateWALProvider
    simp only [hfs]
    split
    · simp
    · exact hbad

theorem validateObjectStorageProvider_ne_none_of_count (osp : ObjectStorageProviderSpec)
    (h : osp.getSetObjectStorageCount > 1) :
    validateObjectStorageProvider (some osp) ≠ none := by
  simp [validateObjectStorageProvider, h]

theorem validateObjectStorageProvider_ne_none_of_fileStorage
    (o : Option ObjectStorageProviderSpec) (fs : FileStorage)
    (hfs : ObjectStorageProviderSpec.GetCacheFileStorage o = some fs)
    (hbad : validateFileStorage (some fs) ≠ none) :
    validateObjectStorageProvider o ≠ none := by
  cases o with
  | none => simp [ObjectStorageProviderSpec.GetCacheFileStorage] at hfs
  | some osp =>
    unfold validateObjectStorageProvider
    simp only [hfs]
    split
    · simp
    · exact hbad

/-- The count of populated variants, read off the four fields. -/
theorem getSetObjectStorageCount_eq_count (osp : ObjectStorageProviderSpec) :
    osp.getSetObjectStorageCount
      = [osp.S3.isSome, osp.OSS.isSome, osp.GCS.isSome, osp.AZBlob.isSome].count true := by
  unfold ObjectStorageProviderSpec.getSetObjectStorageCount
  cases osp.S3.isSome <;> cases osp.OSS.isSome <;> cases osp.GCS.isSome <;>
    cases osp.AZBlob.isSome <;> rfl

end V1alpha1

/-! ## The spec validator -/

namespace V1alpha1

/-- C1: a cluster with both the datanode spec and at least one datanode group populated
is rejected by `Validate`; and when the checks that run before the exclusivity check
pass (the frontend fragment parses, every frontend group has a non-empty name and a
fragment that parses, the meta fragment parses), the error is exactly the
mutual-exclusivity error. -/
theorem Validate_datanode_and_datanodeGroups (tomlUnmarshal : String → Error)
    (c : GreptimeDBCluster) (hd : c.Spec.Datanode.isSome)
    (hg : c.Spec.DatanodeGroups.length > 0) :
    GreptimeDBCluster.Validate tomlUnmarshal (some c) ≠ none
    ∧ (validateTomlConfig tomlUnmarshal (FrontendSpec.GetConfig c.Spec.Frontend) = none →
        (∀ g ∈ c.Spec.FrontendGroups, FrontendSpec.GetName g ≠ ""
          ∧ validateTomlConfig tomlUnmarshal (FrontendSpec.GetConfig g) = none) →
        validateTomlConfig tomlUnmarshal (MetaSpec.GetConfig c.Spec.Meta) = none →
        GreptimeDBCluster.Validate tomlUnmarshal (some c)
          = some "datanode and datanodeGroups cannot be set at the same time") := by
  constructor
  · intro h
    exact ((cluster_Validate_eq_none_iff tomlUnmarshal c).mp h).2.2.2.1 ⟨hd, hg⟩
  · intro hf hfg hm
    have h1 := (validateFrontend_eq_none_iff tomlUnmarshal c).mpr hf
    have h2 : GreptimeDBCluster.validateFrontendGroups tomlUnmarshal (some c) = none :=
      (validateFrontendGroupsLoop_eq_none_iff tomlUnmarshal c.Spec.FrontendGroups).mpr hfg
    have h3 := (validateMeta_eq_none_iff tomlUnmarshal c).mpr hm
    have hx : (GreptimeDBCluster.GetDatanode (some c)).isSome = true
        ∧ (GreptimeDBCluster.GetDatanodeGroups (some c)).length > 0 := ⟨hd, hg⟩
    unfold GreptimeDBCluster.Validate
    simp only [h1, h2, h3, hx, and_self, if_true]

/-- C1, evaluated on a cluster with a datanode spec and one datanode group. -/
theorem Validate_datanode_and_datanodeGroups_witness :
    Examples.datanodeAndGroup.Spec.Datanode.isSome
    ∧ Examples.datanodeAndGroup.Spec.DatanodeGroups.length > 0
    ∧ GreptimeDBCluster.Validate Examples.tomlUnmarshal (some Examples.datanodeAndGroup)
        = some "datanode and datanodeGroups cannot be set at the same time" :=
  ⟨by decide, by decide,
    (Validate_datanode_and_datanodeGroups Examples.tomlUnmarshal Examples.datanodeAndGroup
      (by decide) (by decide)).2 (by decide) (by decide) (by decide)⟩

/-- C3: `Validate`, of a cluster and of a standalone, returns an error for every spec
whose object storage provider has more than one of the four storage variants populated
and for every spec whose WAL provider has both the raft-engine and the kafka variant
populated. -/
theorem Validate_rejects_several_variants (tomlUnmarshal : String → Error)
    (c : GreptimeDBCluster) (s : GreptimeDBStandalone) :
    ((∃ osp, c.Spec.ObjectStorageProvider = some osp
        ∧ 1 < [osp.S3.isSome, osp.OSS.isSome, osp.GCS.isSome, osp.AZBlob.isSome].count true)
      ∨ (∃ w, c.Spec.WALProvider = some w ∧ w.RaftEngineWAL.isSome ∧ w.KafkaWAL.isSome) →
      GreptimeDBCluster.Validate tomlUnmarshal (some c) ≠ none)
    ∧ ((∃ osp, s.Spec.ObjectStorageProvider = some osp
        ∧ 1 < [osp.S3.isSome, osp.OSS.isSome, osp.GCS.isSome, osp.AZBlob.isSome].count true)
      ∨ (∃ w, s.Spec.WALProvider = some w ∧ w.RaftEngineWAL.isSome ∧ w.KafkaWAL.isSome) →
      GreptimeDBStandalone.Validate tomlUnmarshal (some s) ≠ none) := by
  have key : ∀ (o : Option ObjectStorageProviderSpec) (w : Option WALProviderSpec),
      ((∃ osp, o = some osp
        ∧ 1 < [osp.S3.isSome, osp.OSS.isSome, osp.GCS.isSome, osp.AZBlob.isSome].count true)
      ∨ (∃ wal, w = some wal ∧ wal.RaftEngineWAL.isSome ∧ wal.KafkaWAL.isSome)) →
      ¬ (validateWALProvider w = none ∧ validateObjectStorageProvider o = none) := by
    intro o w h hnone
    rcases h with ⟨osp, ho, hcount⟩ | ⟨wal, hw, hr, hk⟩
    · rw [← getSetObjectStorageCount_eq_count] at hcount
      rw [ho] at hnone
      exact validateObjectStorageProvider_ne_none_of_count osp hcount hnone.2
    · rw [hw] at hnone
      exact validateWALProvider_ne_none_of_both wal hr hk hnone.1
  constructor
  · intro h hv
    have hall := (cluster_Validate_eq_none_iff tomlUnmarshal c).mp hv
    exact key _ _ h ⟨hall.2.2.2.2.2.2.2.1, hall.2.2.2.2.2.2.2.2⟩
  · intro h hv
    have hall := (standalone_Validate_eq_none_iff tomlUnmarshal s).mp hv
    exact key _ _ h ⟨hall.2.1, hall.2.2⟩

/-- C3, evaluated on a cluster with two storage variants and on a standalone with two
WAL variants. -/
theorem Validate_rejects_several_variants_witness :
    1 < [Examples.twoStorages.S3.isSome, Examples.twoStorages.OSS.isSome,
          Examples.twoStorages.GCS.isSome, Examples.twoStorages.AZBlob.isSome].count true
    ∧ GreptimeDBCluster.Validate Examples.tomlUnmarshal
        (some Examples.clusterTwoStorages) ≠ none
    ∧ (Examples.twoWALs.RaftEngineWAL.isSome ∧ Examples.twoWALs.KafkaWAL.isSome)
    ∧ GreptimeDBStandalone.Validate Examples.tomlUnmarshal
        (some Examples.standaloneTwoWALs) ≠ none :=
  ⟨by decide,
   (Validate_rejects_several_variants Examples.tomlUnmarshal
      Examples.clusterTwoStorages {}).1
      (Or.inl ⟨Examples.twoStorages, rfl, by decide⟩),
   by decide,
   (Validate_rejects_several_variants Examples.tomlUnmarshal {}
      Examples.standaloneTwoWALs).2
      (Or.inr ⟨Examples.twoWALs, rfl, by decide, by decide⟩)⟩

/-- C4, as stated, fails: a cluster whose two frontend groups share a name and whose two
datanode groups share a name is accepted by `Validate`. -/
theorem Validate_accepts_repeated_group_names :
    ¬ (Examples.sameNames.Spec.FrontendGroups.map FrontendSpec.GetName).Nodup
    ∧ ¬ (Examples.sameNames.Spec.DatanodeGroups.map DatanodeSpec.GetName).Nodup
    ∧ GreptimeDBCluster.Validate Examples.tomlUnmarshal (some Examples.sameNames) = none := by
  decide

/-- C4, amended: the group checks look at each group on its own and never compare two
names. `validateFrontendGroups` and `validateDatanodeGroups` accept a collection exactly
when every group of it has a non-empty name and a config fragment that parses, so a
repeated name is not a reason for rejection. -/
theorem validateGroups_each_group_alone (tomlUnmarshal : String → Error)
    (c : GreptimeDBCluster) :
    (GreptimeDBCluster.validateFrontendGroups tomlUnmarshal (some c) = none ↔
      ∀ g ∈ c.Spec.FrontendGroups, FrontendSpec.GetName g ≠ ""
        ∧ validateTomlConfig tomlUnmarshal (FrontendSpec.GetConfig g) = none)
    ∧ (GreptimeDBCluster.validateDatanodeGroups tomlUnmarshal (some c) = none ↔
      ∀ g ∈ c.Spec.DatanodeGroups, DatanodeSpec.GetName g ≠ ""
        ∧ validateTomlConfig tomlUnmarshal (DatanodeSpec.GetConfig g) = none) :=
  ⟨validateFrontendGroupsLoop_eq_none_iff tomlUnmarshal c.Spec.FrontendGroups,
   validateDatanodeGroupsLoop_eq_none_iff tomlUnmarshal c.Spec.DatanodeGroups⟩

/-- C5: `Validate` returns an error for every cluster with a frontend group or a
datanode group whose name is empty; and on a collection whose config fragments all
parse, `validateFrontendGroups` / `validateDatanodeGroups` return nil if and only if
every group's name is non-empty. -/
theorem Validate_group_names_nonempty (tomlUnmarshal : String → Error)
    (c : GreptimeDBCluster) :
    ((∃ g ∈ c.Spec.FrontendGroups, FrontendSpec.GetName g = "")
      ∨ (∃ g ∈ c.Spec.DatanodeGroups, DatanodeSpec.GetName g = "") →
      GreptimeDBCluster.Validate tomlUnmarshal (some c) ≠ none)
    ∧ ((∀ g ∈ c.Spec.FrontendGroups,
          validateTomlConfig tomlUnmarshal (FrontendSpec.GetConfig g) = none) →
        (GreptimeDBCluster.validateFrontendGroups tomlUnmarshal (some c) = none ↔
          ∀ g ∈ c.Spec.FrontendGroups, FrontendSpec.GetName g ≠ ""))
    ∧ ((∀ g ∈ c.Spec.DatanodeGroups,
          validateTomlConfig tomlUnmarshal (DatanodeSpec.GetConfig g) = none) →
        (GreptimeDBCluster.validateDatanodeGroups tomlUnmarshal (some c) = none ↔
          ∀ g ∈ c.Spec.DatanodeGroups, DatanodeSpec.GetName g ≠ "")) := by
  refine ⟨?_, ?_, ?_⟩
  · intro h hv
    have hall := (cluster_Validate_eq_none_iff tomlUnmarshal c).mp hv
    rcases h with ⟨g, hg, hname⟩ | ⟨g, hg, hname⟩
    · exact ((validateFrontendGroupsLoop_eq_none_iff tomlUnmarshal _).mp hall.2.1 g hg).1 hname
    · exact ((validateDatanodeGroupsLoop_eq_none_iff tomlUnmarshal _).mp
        hall.2.2.2.2.2.1 g hg).1 hname
  · intro hcfg
    constructor
    · intro h g hg
      exact ((validateFrontendGroupsLoop_eq_none_iff tomlUnmarshal _).mp h g hg).1
    · intro h
      exact (validateFrontendGroupsLoop_eq_none_iff tomlUnmarshal _).mpr
        fun g hg => ⟨h g hg, hcfg g hg⟩
  · intro hcfg
    constructor
    · intro h g hg
      exact ((validateDatanodeGroupsLoop_eq_none_iff tomlUnmarshal _).mp h g hg).1
    · intro h
      exact (validateDatanodeGroupsLoop_eq_none_iff tomlUnmarshal _).mpr
        fun g hg => ⟨h g hg, hcfg g hg⟩

/-- C5, evaluated on a cluster whose second frontend group has no name. -/
theorem Validate_group_names_nonempty_witness :
    (∃ g ∈ Examples.unnamedGroup.Spec.FrontendGroups, FrontendSpec.GetName g = "")
    ∧ GreptimeDBCluster.Validate Examples.tomlUnmarshal (some Examples.unnamedGroup) ≠ none
    ∧ (GreptimeDBCluster.validateFrontendGroups Examples.tomlUnmarshal
          (some Examples.unnamedGroup) = none ↔
        ∀ g ∈ Examples.unnamedGroup.Spec.FrontendGroups, FrontendSpec.GetName g ≠ "") :=
  ⟨by decide,
   (Validate_group_names_nonempty Examples.tomlUnmarshal Examples.unnamedGroup).1
     (Or.inl (by decide)),
   (Validate_group_names_nonempty Examples.tomlUnmarshal Examples.unnamedGroup).2.1
     (by decide)⟩

/-- C6, as stated, fails: on a cluster that sets both datanode and datanodeGroups and
whose datanode config fragment does not parse, `Validate` returns the
mutual-exclusivity error, although the datanode fragment check fails too. -/
theorem Validate_exclusivity_before_datanode_config :
    Examples.badDatanodeAndGroup.Spec.Datanode.isSome
    ∧ Examples.badDatanodeAndGroup.Spec.DatanodeGroups.length > 0
    ∧ GreptimeDBCluster.validateDatanode Examples.tomlUnmarshal
        (some Examples.badDatanodeAndGroup)
        = some "invalid datanode toml config: 'parse error'"
    ∧ GreptimeDBCluster.Validate Examples.tomlUnmarshal (some Examples.badDatanodeAndGroup)
        = some "datanode and datanodeGroups cannot be set at the same time" := by
  decide

theorem validateFlownode_guard (tomlUnmarshal : String → Error) (c : GreptimeDBCluster) :
    (if (GreptimeDBCluster.GetFlownode (some c)).isSome then
        GreptimeDBCluster.validateFlownode tomlUnmarshal (some c)
      else none) = GreptimeDBCluster.validateFlownode tomlUnmarshal (some c) := by
  cases hf : c.Spec.Flownode with
  | none =>
    simp [GreptimeDBCluster.GetFlownode, hf, GreptimeDBCluster.validateFlownode,
      FlownodeSpec.GetConfig, validateTomlConfig]
  | some f => simp [GreptimeDBCluster.GetFlownode, hf]

/-- The loop of `validateFrontendGroups` returns the first error of the checks it runs:
for each group in the order of the collection, the name check and then the fragment
check. -/
theorem validateFrontendGroupsLoop_eq_firstError (tomlUnmarshal : String → Error)
    (groups : List (Option FrontendSpec)) :
    validateFrontendGroupsLoop tomlUnmarshal groups = firstError
      (groups.foldr (fun g checks =>
        (if (FrontendSpec.GetName g).length = 0 then
          some "the frontend name must be specified" else none)
        :: (validateTomlConfig tomlUnmarshal (FrontendSpec.GetConfig g)).map
            (fun err => "invalid frontend toml config: '" ++ err ++ "'")
        :: checks) []) := by
  induction groups with
  | nil => rfl
  | cons g rest ih =>
    unfold validateFrontendGroupsLoop
    by_cases hname : (FrontendSpec.GetName g).length = 0
    · simp only [hname, if_true, List.foldr_cons, firstError]
    · cases hcfg : validateTomlConfig tomlUnmarshal (FrontendSpec.GetConfig g) with
      | none => simp only [hname, if_false, List.foldr_cons, firstError, hcfg, Option.map_none', ih]
      | some err => simp only [hname, if_false, List.foldr_cons, firstError, hcfg, Option.map_some']

/-- The loop of `validateDatanodeGroups` returns the first error of the checks it runs:
for each group in the order of the collection, the name check and then the fragment
check. -/
theorem validateDatanodeGroupsLoop_eq_firstError (tomlUnmarshal : String → Error)
    (groups : List (Option DatanodeSpec)) :
    validateDatanodeGroupsLoop tomlUnmarshal groups = firstError
      (groups.foldr (fun g checks =>
        (if (DatanodeSpec.GetName g).length = 0 then
          some "the datanode group name must be specified" else none)
        :: (validateTomlConfig tomlUnmarshal (DatanodeSpec.GetConfig g)).map
            (fun err => "invalid datanode toml config: '" ++ err ++ "'")
        :: checks) []) := by
  induction groups with
  | nil => rfl
  | cons g rest ih =>
    unfold validateDatanodeGroupsLoop
    by_cases hname : (DatanodeSpec.GetName g).length = 0
    · simp only [hname, if_true, List.foldr_cons, firstError]
    · cases hcfg : validateTomlConfig tomlUnmarshal (DatanodeSpec.GetConfig g) with
      | none => simp only [hname, if_false, List.foldr_cons, firstError, hcfg, Option.map_none', ih]
      | some err => simp only [hname, if_false, List.foldr_cons, firstError, hcfg, Option.map_some']

/-- C6, amended: `Validate` returns the error of the first failing check in the order of
the code: frontend fragment, frontend groups, meta fragment, datanode/datanodeGroups
exclusivity, datanode fragment, datanode groups, flownode fragment, WAL provider
(variant exclusivity, then the raft-engine file storage), object storage provider
(variant exclusivity, then the cache file storage). The check of the frontend groups
and the check of the datanode groups return the first error of, for each group in the
order of the collection, the name check and then the fragment check. In particular, on
a cluster that sets both datanode and datanodeGroups and passes the frontend,
frontend-group and meta checks, the error is the mutual-exclusivity error, whether or
not the datanode fragment parses. -/
theorem Validate_first_failing_check (tomlUnmarshal : String → Error)
    (c : GreptimeDBCluster) (w : WALProviderSpec) (osp : ObjectStorageProviderSpec) :
    GreptimeDBCluster.Validate tomlUnmarshal (some c) = firstError
      [ GreptimeDBCluster.validateFrontend tomlUnmarshal (some c),
        GreptimeDBCluster.validateFrontendGroups tomlUnmarshal (some c),
        GreptimeDBCluster.validateMeta tomlUnmarshal (some c),
        (if c.Spec.Datanode.isSome ∧ c.Spec.DatanodeGroups.length > 0 then
          some "datanode and datanodeGroups cannot be set at the same time" else none),
        GreptimeDBCluster.validateDatanode tomlUnmarshal (some c),
        GreptimeDBCluster.validateDatanodeGroups tomlUnmarshal (some c),
        GreptimeDBCluster.validateFlownode tomlUnmarshal (some c),
        validateWALProvider c.Spec.WALProvider,
        validateObjectStorageProvider c.Spec.ObjectStorageProvider ]
    ∧ validateWALProvider (some w) = firstError
      [ (if w.RaftEngineWAL.isSome ∧ w.KafkaWAL.isSome then
          some "only one of 'raftEngine' or 'kafka' can be set" else none),
        validateFileStorage (RaftEngineWAL.GetFileStorage w.RaftEngineWAL) ]
    ∧ validateObjectStorageProvider (some osp) = firstError
      [ (if 1 < [osp.S3.isSome, osp.OSS.isSome, osp.GCS.isSome, osp.AZBlob.isSome].count true
          then some "only one storage provider can be set" else none),
        validateFileStorage (ObjectStorageProviderSpec.GetCacheFileStorage (some osp)) ]
    ∧ (c.Spec.Datanode.isSome → c.Spec.DatanodeGroups.length > 0 →
        GreptimeDBCluster.validateFrontend tomlUnmarshal (some c) = none →
        GreptimeDBCluster.validateFrontendGroups tomlUnmarshal (some c) = none →
        GreptimeDBCluster.validateMeta tomlUnmarshal (some c) = none →
        GreptimeDBCluster.Validate tomlUnmarshal (some c)
          = some "datanode and datanodeGroups cannot be set at the same time")
    ∧ GreptimeDBCluster.validateFrontendGroups tomlUnmarshal (some c) = firstError
      (c.Spec.FrontendGroups.foldr (fun g checks =>
        (if (FrontendSpec.GetName g).length = 0 then
          some "the frontend name must be specified" else none)
        :: (validateTomlConfig tomlUnmarshal (FrontendSpec.GetConfig g)).map
            (fun err => "invalid frontend toml config: '" ++ err ++ "'")
        :: checks) [])
    ∧ GreptimeDBCluster.validateDatanodeGroups tomlUnmarshal (some c) = firstError
      (c.Spec.DatanodeGroups.foldr (fun g checks =>
        (if (DatanodeSpec.GetName g).length = 0 then
          some "the datanode group name must be specified" else none)
        :: (validateTomlConfig tomlUnmarshal (DatanodeSpec.GetConfig g)).map
            (fun err => "invalid datanode toml config: '" ++ err ++ "'")
        :: checks) []) := by
  have horder : GreptimeDBCluster.Validate tomlUnmarshal (some c) = firstError
      [ GreptimeDBCluster.validateFrontend tomlUnmarshal (some c),
        GreptimeDBCluster.validateFrontendGroups tomlUnmarshal (some c),
        GreptimeDBCluster.validateMeta tomlUnmarshal (some c),
        (if c.Spec.Datanode.isSome ∧ c.Spec.DatanodeGroups.length > 0 then
          some "datanode and datanodeGroups cannot be set at the same time" else none),
        GreptimeDBCluster.validateDatanode tomlUnmarshal (some c),
        GreptimeDBCluster.validateDatanodeGroups tomlUnmarshal (some c),
        GreptimeDBCluster.validateFlownode tomlUnmarshal (some c),
        validateWALProvider c.Spec.WALProvider,
        validateObjectStorageProvider c.Spec.ObjectStorageProvider ] := by
    unfold GreptimeDBCluster.Validate
    simp only [validateWALProvider_match, validateObjectStorageProvider_match,
      validateFlownode_guard]
    simp only [GreptimeDBCluster.GetDatanode, GreptimeDBCluster.GetDatanodeGroups,
      GreptimeDBCluster.GetWALProvider, GreptimeDBCluster.GetObjectStorageProvider]
    cases h1 : GreptimeDBCluster.validateFrontend tomlUnmarshal (some c) <;>
    cases h2 : GreptimeDBCluster.validateFrontendGroups tomlUnmarshal (some c) <;>
    cases h3 : GreptimeDBCluster.validateMeta tomlUnmarshal (some c) <;>
    cases h4 : GreptimeDBCluster.validateDatanode tomlUnmarshal (some c) <;>
    cases h5 : GreptimeDBCluster.validateDatanodeGroups tomlUnmarshal (some c) <;>
    cases h6 : GreptimeDBCluster.validateFlownode tomlUnmarshal (some c) <;>
    cases h7 : validateWALProvider c.Spec.WALProvider <;>
    cases h8 : validateObjectStorageProvider c.Spec.ObjectStorageProvider <;>
    by_cases hx : (c.Spec.Datanode.isSome ∧ c.Spec.DatanodeGroups.length > 0) <;>
    simp [hx, firstError]
  refine ⟨horder, ?_, ?_, ?_,
    validateFrontendGroupsLoop_eq_firstError tomlUnmarshal c.Spec.FrontendGroups,
    validateDatanodeGroupsLoop_eq_firstError tomlUnmarshal c.Spec.DatanodeGroups⟩
  · unfold validateWALProvider
    simp only [WALProviderSpec.GetRaftEngineWAL, WALProviderSpec.GetKafkaWAL]
    by_cases hx : (w.RaftEngineWAL.isSome ∧ w.KafkaWAL.isSome)
    · simp [hx, firstError]
    · have hone : ∀ e : Error, firstError [e] = e := fun e => by cases e <;> rfl
      cases hfs : RaftEngineWAL.GetFileStorage w.RaftEngineWAL with
      | none => simp [hx, firstError, validateFileStorage]
      | some fs => simp only [hx, if_false, firstError, hone]
  · unfold validateObjectStorageProvider
    rw [← getSetObjectStorageCount_eq_count]
    by_cases hx : osp.getSetObjectStorageCount > 1
    · simp [hx, firstError]
    · have hone : ∀ e : Error, firstError [e] = e := fun e => by cases e <;> rfl
      cases hfs : ObjectStorageProviderSpec.GetCacheFileStorage (some osp) with
      | none => simp [hx, firstError, validateFileStorage]
      | some fs => simp only [hx, if_false, firstError, hone]
  · intro hd hg h1 h2 h3
    have hx : c.Spec.Datanode.isSome = true ∧ c.Spec.DatanodeGroups.length > 0 := ⟨hd, hg⟩
    rw [horder, h1, h2, h3]
    simp only [firstError, hx, and_self, if_true]

/-- C6 amended, evaluated on the cluster whose datanode fragment does not parse, and on
a cluster with a group that has no name and a fragment that does not parse. -/
theorem Validate_first_failing_check_witness :
    GreptimeDBCluster.validateDatanode Examples.tomlUnmarshal
        (some Examples.badDatanodeAndGroup) ≠ none
    ∧ GreptimeDBCluster.Validate Examples.tomlUnmarshal (some Examples.badDatanodeAndGroup)
        = some "datanode and datanodeGroups cannot be set at the same time"
    ∧ GreptimeDBCluster.validateFrontendGroups Examples.tomlUnmarshal
        (some Examples.unnamedBadGroups) = some "the frontend name must be specified"
    ∧ GreptimeDBCluster.validateDatanodeGroups Examples.tomlUnmarshal
        (some Examples.unnamedBadGroups) = some "the datanode group name must be specified" :=
  ⟨by decide,
   (Validate_first_failing_check Examples.tomlUnmarshal Examples.badDatanodeAndGroup
      {} {}).2.2.2.1 (by decide) (by decide) (by decide) (by decide) (by decide),
   (Validate_first_failing_check Examples.tomlUnmarshal Examples.unnamedBadGroups
      {} {}).2.2.2.2.1.trans (by decide),
   (Validate_first_failing_check Examples.tomlUnmarshal Examples.unnamedBadGroups
      {} {}).2.2.2.2.2.trans (by decide)⟩

/-- C7: `validateFileStorage` accepts a non-nil file storage if and only if its name,
mount path and size are all non-empty; the fields are checked in that order and the
error names the first empty one. Consequently `Validate`, of a cluster and of a
standalone, rejects every spec whose WAL raft-engine file storage or object-storage
cache file storage has one of the three fields empty. -/
theorem validateFileStorage_complete (tomlUnmarshal : String → Error) (fs : FileStorage)
    (c : GreptimeDBCluster) (s : GreptimeDBStandalone) :
    (validateFileStorage (some fs) = none ↔
      fs.Name ≠ "" ∧ fs.MountPath ≠ "" ∧ fs.StorageSize ≠ "")
    ∧ (fs.Name = "" →
        validateFileStorage (some fs) = some "name is required in file storage")
    ∧ (fs.Name ≠ "" → fs.MountPath = "" →
        validateFileStorage (some fs) = some "mountPath is required in file storage")
    ∧ (fs.Name ≠ "" → fs.MountPath ≠ "" → fs.StorageSize = "" →
        validateFileStorage (some fs) = some "storageSize is required in file storage")
    ∧ (fs.Name = "" ∨ fs.MountPath = "" ∨ fs.StorageSize = "" →
        RaftEngineWAL.GetFileStorage (WALProviderSpec.GetRaftEngineWAL c.Spec.WALProvider)
            = some fs
          ∨ ObjectStorageProviderSpec.GetCacheFileStorage c.Spec.ObjectStorageProvider
            = some fs →
        GreptimeDBCluster.Validate tomlUnmarshal (some c) ≠ none)
    ∧ (fs.Name = "" ∨ fs.MountPath = "" ∨ fs.StorageSize = "" →
        RaftEngineWAL.GetFileStorage (WALProviderSpec.GetRaftEngineWAL s.Spec.WALProvider)
            = some fs
          ∨ ObjectStorageProviderSpec.GetCacheFileStorage s.Spec.ObjectStorageProvider
            = some fs →
        GreptimeDBStandalone.Validate tomlUnmarshal (some s) ≠ none) := by
  have hbad : fs.Name = "" ∨ fs.MountPath = "" ∨ fs.StorageSize = "" →
      validateFileStorage (some fs) ≠ none := by
    intro h hv
    have hall := (validateFileStorage_eq_none_iff fs).mp hv
    rcases h with h | h | h
    · exact hall.1 h
    · exact hall.2.1 h
    · exact hall.2.2 h
  have key : ∀ (w : Option WALProviderSpec) (o : Option ObjectStorageProviderSpec),
      fs.Name = "" ∨ fs.MountPath = "" ∨ fs.StorageSize = "" →
      RaftEngineWAL.GetFileStorage (WALProviderSpec.GetRaftEngineWAL w) = some fs
        ∨ ObjectStorageProviderSpec.GetCacheFileStorage o = some fs →
      ¬ (validateWALProvider w = none ∧ validateObjectStorageProvider o = none) := by
    intro w o hempty hwhere hnone
    rcases hwhere with hw | ho
    · exact validateWALProvider_ne_none_of_fileStorage w fs hw (hbad hempty) hnone.1
    · exact validateObjectStorageProvider_ne_none_of_fileStorage o fs ho (hbad hempty) hnone.2
  refine ⟨validateFileStorage_eq_none_iff fs, ?_, ?_, ?_, ?_, ?_⟩
  · intro h1
    simp [validateFileStorage, FileStorage.GetName, h1]
  · intro h1 h2
    simp [validateFileStorage, FileStorage.GetName, FileStorage.GetMountPath, h1, h2]
  · intro h1 h2 h3
    simp [validateFileStorage, FileStorage.GetName, FileStorage.GetMountPath,
      FileStorage.GetSize, h1, h2, h3]
  · intro hempty hwhere hv
    have hall := (cluster_Validate_eq_none_iff tomlUnmarshal c).mp hv
    exact key _ _ hempty hwhere ⟨hall.2.2.2.2.2.2.2.1, hall.2.2.2.2.2.2.2.2⟩
  · intro hempty hwhere hv
    have hall := (standalone_Validate_eq_none_iff tomlUnmarshal s).mp hv
    exact key _ _ hempty hwhere ⟨hall.2.1, hall.2.2⟩

/-- C7, evaluated on a file storage without a mount path, used as the raft-engine file
storage of a cluster and as the cache file storage of a standalone. -/
theorem validateFileStorage_complete_witness :
    validateFileStorage (some Examples.noMountPath)
        = some "mountPath is required in file storage"
    ∧ GreptimeDBCluster.Validate Examples.tomlUnmarshal
        (some Examples.walWithoutMountPath) ≠ none
    ∧ GreptimeDBStandalone.Validate Examples.tomlUnmarshal
        (some Examples.cacheWithoutMountPath) ≠ none :=
  ⟨(validateFileStorage_complete Examples.tomlUnmarshal Examples.noMountPath {} {}).2.2.1
      (by decide) (by decide),
   (validateFileStorage_complete Examples.tomlUnmarshal Examples.noMountPath
      Examples.walWithoutMountPath {}).2.2.2.2.1
      (Or.inr (Or.inl (by decide))) (Or.inl rfl),
   (validateFileStorage_complete Examples.tomlUnmarshal Examples.noMountPath {}
      Examples.cacheWithoutMountPath).2.2.2.2.2
      (Or.inr (Or.inl (by decide))) (Or.inr rfl)⟩

end V1alpha1

/-! ## The cross-resource checker -/

namespace V1alpha1

theorem lookup_isSome_iff (data : List (String × Bytes)) (key : String) :
    (data.lookup key).isSome ↔ key ∈ data.map Prod.fst := by
  induction data with
  | nil => simp
  | cons kv rest ih =>
    obtain ⟨k, v⟩ := kv
    by_cases h : key = k
    · subst h
      simp [List.lookup]
    · have hb : (key == k) = false := by simpa using h
      simp [List.lookup, hb, ih, h]

theorem checkSecretKeys_eq_none_iff (ns name : String) (data : List (String × Bytes))
    (keys : List String) :
    checkSecretKeys ns name data keys = none ↔ ∀ k ∈ keys, k ∈ data.map Prod.fst := by
  induction keys with
  | nil => simp [checkSecretKeys]
  | cons key rest ih =>
    unfold checkSecretKeys
    by_cases h : key ∈ data.map Prod.fst
    · have hl := (lookup_isSome_iff data key).mpr h
      simp only [hl, if_true, ih, List.forall_mem_cons]
      exact ⟨fun hr => ⟨h, hr⟩, fun hr => hr.2⟩
    · have hl : ¬ (data.lookup key).isSome = true := fun hl =>
        h ((lookup_isSome_iff data key).mp hl)
      simp only [hl, if_false, List.forall_mem_cons]
      constructor
      · intro hne
        cases hne
      · intro hr
        exact absurd hr.1 h

theorem checkSecretKeys_first_absent (ns name : String) (data : List (String × Bytes))
    (pre : List String) (k : String) (post : List String)
    (hpre : ∀ k' ∈ pre, k' ∈ data.map Prod.fst) (hk : k ∉ data.map Prod.fst) :
    checkSecretKeys ns name data (pre ++ k :: post)
      = some ("secret '" ++ ns ++ "/" ++ name ++ "' does not have key '" ++ k ++ "'") := by
  induction pre with
  | nil =>
    have hl : ¬ (data.lookup k).isSome = true := fun hl =>
      hk ((lookup_isSome_iff data k).mp hl)
    rw [List.nil_append, checkSecretKeys, if_neg hl]
  | cons key rest ih =>
    have hl := (lookup_isSome_iff data key).mpr (hpre key (List.mem_cons_self _ _))
    rw [List.cons_append, checkSecretKeys, if_pos hl]
    exact ih fun k' hk' => hpre k' (List.mem_cons_of_mem _ hk')

/-- C8: `checkSecretData` returns nil if and only if the lookup of the secret succeeds,
the data map of the secret is non-nil and every required key is in the data; and when
the secret exists with non-nil data and a required key is absent, the error names the
secret as namespace/name and names the first absent key in the order of the keys. -/
theorem checkSecretData_spec (clientGet : String → String → Except String Secret)
    (ns name : String) (keys : List String) :
    (checkSecretData clientGet ns name keys = none ↔
      ∃ data, clientGet ns name = .ok { Data := some data }
        ∧ ∀ k ∈ keys, k ∈ data.map Prod.fst)
    ∧ (∀ (data : List (String × Bytes)) (pre : List String) (k : String)
        (post : List String),
        clientGet ns name = .ok { Data := some data } →
        keys = pre ++ k :: post →
        (∀ k' ∈ pre, k' ∈ data.map Prod.fst) →
        k ∉ data.map Prod.fst →
        checkSecretData clientGet ns name keys
          = some ("secret '" ++ ns ++ "/" ++ name ++ "' does not have key '" ++ k ++ "'")) := by
  constructor
  · unfold checkSecretData
    cases hget : clientGet ns name with
    | error err => simp
    | ok secret =>
      obtain ⟨d⟩ := secret
      cases d with
      | none => simp
      | some data => simp [checkSecretKeys_eq_none_iff]
  · intro data pre k post hget hkeys hpre hk
    unfold checkSecretData
    rw [hget, hkeys]
    exact checkSecretKeys_first_absent ns name data pre k post hpre hk

/-- C8, evaluated on a secret that holds `username` only while `username` and
`password` are required. -/
theorem checkSecretData_spec_witness :
    Examples.clientGet "default" "db-cred"
        = .ok { Data := some [("username", [114, 111, 111, 116])] }
    ∧ checkSecretData Examples.clientGet "default" "db-cred"
        [MetaDatabaseUsernameKey, MetaDatabasePasswordKey]
        = some "secret 'default/db-cred' does not have key 'password'" :=
  ⟨rfl,
   (checkSecretData_spec Examples.clientGet "default" "db-cred"
      [MetaDatabaseUsernameKey, MetaDatabasePasswordKey]).2
      [("username", [114, 111, 111, 116])] [MetaDatabaseUsernameKey]
      MetaDatabasePasswordKey [] rfl (by decide) (by decide) (by decide)⟩

end V1alpha1

/-! ## The config synthesizer -/

namespace Dbconfig

open V1alpha1

/-- The error of `configureS3` with a secret reference is the error of the lookup of
the keys `AccessKeyIDSecretKey`, `SecretAccessKeySecretKey`: the keys that
`checkS3CredentialsSecret` requires. -/
theorem configureS3_error
    (getSecretsData : String → String → List String → Except String (List Bytes))
    (ns : String) (s3 : S3Storage) (c : StorageConfig) (h : s3.SecretName ≠ "") :
    (StorageConfig.configureS3 getSecretsData ns (some s3) c).2
      = match getSecretsData ns s3.SecretName
          [AccessKeyIDSecretKey, SecretAccessKeySecretKey] with
        | .error err => some err
        | .ok _ => none := by
  unfold StorageConfig.configureS3
  simp only [h, ne_eq, not_false_eq_true, if_true]
  cases getSecretsData ns s3.SecretName [AccessKeyIDSecretKey, SecretAccessKeySecretKey] <;> rfl

/-- The error of `configureOSS` with a secret reference is the error of the lookup of
the keys `AccessKeyIDSecretKey`, `SecretAccessKeySecretKey`. -/
theorem configureOSS_error
    (getSecretsData : String → String → List String → Except String (List Bytes))
    (ns : String) (oss : OSSStorage) (c : StorageConfig) (h : oss.SecretName ≠ "") :
    (StorageConfig.configureOSS getSecretsData ns (some oss) c).2
      = match getSecretsData ns oss.SecretName
          [AccessKeyIDSecretKey, SecretAccessKeySecretKey] with
        | .error err => some err
        | .ok _ => none := by
  unfold StorageConfig.configureOSS
  simp only [h, ne_eq, not_false_eq_true, if_true]
  cases getSecretsData ns oss.SecretName [AccessKeyIDSecretKey, SecretAccessKeySecretKey] <;> rfl

/-- The error of `configureGCS` with a secret reference is the error of the lookup of
the key `ServiceAccountKey`: the key that `checkGCSCredentialsSecret` requires. -/
theorem configureGCS_error
    (getSecretsData : String → String → List String → Except String (List Bytes))
    (ns : String) (gcs : GCSStorage) (c : StorageConfig) (h : gcs.SecretName ≠ "") :
    (StorageConfig.configureGCS getSecretsData ns (some gcs) c).2
      = match getSecretsData ns gcs.SecretName [ServiceAccountKey] with
        | .error err => some err
        | .ok _ => none := by
  unfold StorageConfig.configureGCS
  simp only [h, ne_eq, not_false_eq_true, if_true]
  cases hget : getSecretsData ns gcs.SecretName [ServiceAccountKey] with
  | error err => rfl
  | ok data =>
    simp only
    split <;> rfl

/-- On success, `ConfigureObjectStorage` leaves the storage type at the tag of the
first populated variant among S3, OSS and GCS. -/
theorem ConfigureObjectStorage_type
    (getSecretsData : String → String → List String → Except String (List Bytes))
    (ns : String) (osp : ObjectStorageProviderSpec) (c c' : StorageConfig)
    (h : StorageConfig.ConfigureObjectStorage getSecretsData ns (some osp) c = (c', none)) :
    (osp.S3.isSome → c'.StorageType = some "S3")
    ∧ (osp.S3 = none → osp.OSS.isSome → c'.StorageType = some "Oss")
    ∧ (osp.S3 = none → osp.OSS = none → osp.GCS.isSome → c'.StorageType = some "Gcs") := by
  unfold StorageConfig.ConfigureObjectStorage at h
  simp only [ObjectStorageProviderSpec.GetS3Storage, ObjectStorageProviderSpec.GetOSSStorage,
    ObjectStorageProviderSpec.GetGCSStorage] at h
  refine ⟨?_, ?_, ?_⟩
  · intro hs3
    obtain ⟨s3, hs⟩ := Option.isSome_iff_exists.mp hs3
    rw [hs] at h
    simp only [StorageConfig.configureS3] at h
    split at h
    · split at h
      · simp at h
      · simp only [Prod.mk.injEq, and_true] at h
        rw [← h]
    · simp only [Prod.mk.injEq, and_true] at h
      rw [← h]
  · intro hs3 hoss
    obtain ⟨oss, hs⟩ := Option.isSome_iff_exists.mp hoss
    rw [hs3, hs] at h
    simp only [StorageConfig.configureOSS] at h
    split at h
    · split at h
      · simp at h
      · simp only [Prod.mk.injEq, and_true] at h
        rw [← h]
    · simp only [Prod.mk.injEq, and_true] at h
      rw [← h]
  · intro hs3 hoss hgcs
    obtain ⟨gcs, hs⟩ := Option.isSome_iff_exists.mp hgcs
    rw [hs3, hoss, hs] at h
    simp only [StorageConfig.configureGCS] at h
    split at h
    · split at h
      · simp at h
      · split at h <;>
        · simp only [Prod.mk.injEq, and_true] at h
          rw [← h]
    · simp only [Prod.mk.injEq, and_true] at h
      rw [← h]

/-- C2: an object storage provider with the Azure-Blob variant as its one populated
variant passes `validateObjectStorageProvider`, and `ConfigureObjectStorage` succeeds on
the empty storage config without changing it, so `storage.type` is left unset. -/
theorem ConfigureObjectStorage_azblob_type_unset
    (getSecretsData : String → String → List String → Except String (List Bytes))
    (ns : String) (az : AZBlobStorage) :
    ObjectStorageProviderSpec.getSetObjectStorageCount { AZBlob := some az } = 1
    ∧ validateObjectStorageProvider (some { AZBlob := some az }) = none
    ∧ StorageConfig.ConfigureObjectStorage getSecretsData ns
        (some { AZBlob := some az }) {} = ({}, none)
    ∧ (StorageConfig.ConfigureObjectStorage getSecretsData ns
        (some { AZBlob := some az }) {}).1.StorageType = none :=
  ⟨rfl, rfl, rfl, rfl⟩

/-- C9: a secret with the two keys that `checkOSSCredentialsSecret` requires is accepted
by the check, and `configureOSS` fails on it: the synthesizer looks up the key
`SecretAccessKeySecretKey`, the check requires `AccessKeySecretSecretKey`. -/
theorem configureOSS_fails_on_checked_secret :
    checkOSSCredentialsSecret Examples.clientGet "default" Examples.ossStorage.SecretName
        = none
    ∧ (StorageConfig.configureOSS (GetSecretsData Examples.clientGet) "default"
        (some Examples.ossStorage) {}).2
        = some "secret 'default/oss-cred' does not have key 'secret-access-key'"
    ∧ [AccessKeyIDSecretKey, SecretAccessKeySecretKey]
        ≠ [AccessKeyIDSecretKey, AccessKeySecretSecretKey] := by
  refine ⟨by decide, by decide, by decide⟩

theorem intercalate_go_eq_foldl (sep : String) (rest : List String) (acc : String) :
    String.intercalate.go acc sep rest = rest.foldl (fun a f => a ++ sep ++ f) acc := by
  induction rest generalizing acc with
  | nil => rfl
  | cons f rest ih => simp only [String.intercalate.go, List.foldl_cons, ih]

theorem append_foldl_sep (sep : String) (rest : List String) (pre acc : String) :
    pre ++ rest.foldl (fun a f => a ++ sep ++ f) acc
      = rest.foldl (fun a f => a ++ sep ++ f) (pre ++ acc) := by
  induction rest generalizing acc with
  | nil => rfl
  | cons f rest ih =>
    rw [List.foldl_cons, List.foldl_cons, ih]
    simp only [String.append_assoc]

/-- C10: `levelWithFilters` returns the level unchanged when there is no filter and
otherwise the level followed by `,` and the filters joined by `,` in their order, that
is the level with `,` and the filter appended for each filter in turn; level `info`
with filters `mito2=debug`, `index=warn` gives `info,mito2=debug,index=warn`; and
`ConfigureLogging` with a non-nil spec sets `logging.level` to exactly that string. -/
theorem levelWithFilters_spec (parseFloat : String → Option Float64) (level : String)
    (filters : List String) (spec : LoggingSpec) (c : LoggingConfig) :
    LoggingConfig.levelWithFilters level [] = level
    ∧ LoggingConfig.levelWithFilters level filters
        = (if filters = [] then level else level ++ "," ++ String.intercalate "," filters)
    ∧ LoggingConfig.levelWithFilters level filters
        = filters.foldl (fun acc f => acc ++ "," ++ f) level
    ∧ LoggingConfig.levelWithFilters "info" ["mito2=debug", "index=warn"]
        = "info,mito2=debug,index=warn"
    ∧ (LoggingConfig.ConfigureLogging parseFloat (some spec) c).Level
        = some (LoggingConfig.levelWithFilters spec.Level spec.Filters) := by
  refine ⟨rfl, ?_, ?_, by decide, ?_⟩
  · cases filters with
    | nil => rfl
    | cons f rest => simp [LoggingConfig.levelWithFilters]
  · cases filters with
    | nil => rfl
    | cons f rest =>
      simp only [LoggingConfig.levelWithFilters, List.length_cons, gt_iff_lt,
        Nat.zero_lt_succ, if_true, String.intercalate, intercalate_go_eq_foldl,
        List.foldl_cons]
      rw [String.append_assoc, append_foldl_sep, append_foldl_sep, String.append_assoc]
  · simp only [LoggingConfig.ConfigureLogging]
    split <;> rfl

/-- On success, `ConfigureByCluster` changes the WAL part of the config by the WAL
provider and the WAL directory of the cluster alone. -/
theorem ConfigureByCluster_ok
    (getSecretsData : String → String → List String → Except String (List Bytes))
    (parseFloat : String → Option Float64)
    (GetWALDir : Option GreptimeDBCluster → String)
    (cluster : Option GreptimeDBCluster) (c c' : DatanodeConfig)
    (h : DatanodeConfig.ConfigureByCluster getSecretsData parseFloat GetWALDir cluster c
          = (c', none)) :
    c'.toWALConfig =
      (match WALProviderSpec.GetKafkaWAL (GreptimeDBCluster.GetWALProvider cluster) with
       | some kafka =>
         { c.toWALConfig with
           WalProvider := some "kafka", WalBrokerEndpoints := kafka.BrokerEndpoints }
       | none =>
         if GetWALDir cluster ≠ "" then { c.toWALConfig with WalDir := some (GetWALDir cluster) }
         else c.toWALConfig) := by
  unfold DatanodeConfig.ConfigureByCluster at h
  simp only [DatanodeConfig.SetInputConfig] at h
  split at h
  · simp at h
  · split at h
    · rename_i herr
      split at herr <;> simp at herr
    · simp only [Prod.mk.injEq, and_true] at h
      subst h
      cases hk : WALProviderSpec.GetKafkaWAL (GreptimeDBCluster.GetWALProvider cluster) with
      | none =>
        simp only [Option.isNone_none, true_and]
        split <;> split <;> split <;> rfl
      | some kafka =>
        simp only [Option.isNone_some, Bool.false_eq_true, false_and, if_false,
          KafkaWAL.GetBrokerEndpoints]
        split <;> split <;> rfl

/-- C11: after `ConfigureByCluster` succeeds on a fresh `DatanodeConfig`: if the Kafka
WAL of the cluster is populated then `wal.provider` is `kafka`, `wal.broker_endpoints`
are the broker endpoints of the Kafka spec and `wal.dir` is unset; otherwise
`wal.provider` is unset and `wal.dir` is set, to the WAL directory of the cluster, if
and only if that directory is non-empty. The two are never both set. -/
theorem ConfigureByCluster_wal
    (getSecretsData : String → String → List String → Except String (List Bytes))
    (parseFloat : String → Option Float64)
    (GetWALDir : Option GreptimeDBCluster → String)
    (cluster : Option GreptimeDBCluster) (c' : DatanodeConfig)
    (h : DatanodeConfig.ConfigureByCluster getSecretsData parseFloat GetWALDir cluster {}
          = (c', none)) :
    (∀ kafka, WALProviderSpec.GetKafkaWAL (GreptimeDBCluster.GetWALProvider cluster)
          = some kafka →
        c'.WalProvider = some "kafka" ∧ c'.WalBrokerEndpoints = kafka.BrokerEndpoints
          ∧ c'.WalDir = none)
    ∧ (WALProviderSpec.GetKafkaWAL (GreptimeDBCluster.GetWALProvider cluster) = none →
        c'.WalProvider = none
          ∧ (c'.WalDir.isSome ↔ GetWALDir cluster ≠ "")
          ∧ (GetWALDir cluster ≠ "" → c'.WalDir = some (GetWALDir cluster)))
    ∧ ¬ (c'.WalDir.isSome ∧ c'.WalProvider.isSome) := by
  have hwal := ConfigureByCluster_ok getSecretsData parseFloat GetWALDir cluster {} c' h
  have hdir : c'.WalDir = c'.toWALConfig.WalDir := rfl
  have hprov : c'.WalProvider = c'.toWALConfig.WalProvider := rfl
  have hbrok : c'.WalBrokerEndpoints = c'.toWALConfig.WalBrokerEndpoints := rfl
  rw [hdir, hprov, hbrok, hwal]
  cases hk : WALProviderSpec.GetKafkaWAL (GreptimeDBCluster.GetWALProvider cluster) with
  | none =>
    by_cases hd : GetWALDir cluster = "" <;> simp [hd]
  | some kafka => simp

/-- C11, evaluated on a cluster with a Kafka WAL and a WAL directory. -/
theorem ConfigureByCluster_wal_witness :
    ∃ c', DatanodeConfig.ConfigureByCluster Examples.noSecrets Examples.parseFloat
          Examples.GetWALDir (some Examples.kafkaCluster) {} = (c', none)
      ∧ c'.WalProvider = some "kafka" ∧ c'.WalBrokerEndpoints = ["kafka:9092"]
      ∧ c'.WalDir = none :=
  ⟨_, rfl,
    (ConfigureByCluster_wal Examples.noSecrets Examples.parseFloat Examples.GetWALDir
      (some Examples.kafkaCluster) _ rfl).1 { BrokerEndpoints := ["kafka:9092"] } rfl⟩

/-- C16: with a non-nil logging spec and a non-nil slow-query section,
`ConfigureLogging` sets `logging.slow_query.sample_ratio` to 1.0 when the sample-ratio
text does not parse, and to the parsed value when it parses; it returns no error on
either path. -/
theorem ConfigureLogging_sample_ratio (parseFloat : String → Option Float64)
    (spec : LoggingSpec) (slowQuery : SlowQuery) (c : LoggingConfig)
    (h : spec.SlowQuery = some slowQuery) :
    (parseFloat slowQuery.SampleRatio = none →
      (LoggingConfig.ConfigureLogging parseFloat (some spec) c).SlowQuerySampleRatio
        = some (Float64.finite 1))
    ∧ (∀ ratio, parseFloat slowQuery.SampleRatio = some ratio →
      (LoggingConfig.ConfigureLogging parseFloat (some spec) c).SlowQuerySampleRatio
        = some ratio) := by
  constructor
  · intro hp
    simp only [LoggingConfig.ConfigureLogging, h, hp]
  · intro ratio hp
    simp only [LoggingConfig.ConfigureLogging, h, hp]

/-- C16, evaluated on the sample ratio `abc`. -/
theorem ConfigureLogging_sample_ratio_witness :
    Examples.parseFloat "abc" = none
    ∧ (LoggingConfig.ConfigureLogging Examples.parseFloat (some Examples.loggingBadRatio)
        {}).SlowQuerySampleRatio = some (Float64.finite 1) :=
  ⟨by decide,
   (ConfigureLogging_sample_ratio Examples.parseFloat Examples.loggingBadRatio
      { Enabled := true, Threshold := "10s", SampleRatio := "abc" } {} rfl).1 (by decide)⟩

/-- C18: with a non-nil logging spec, after `ConfigureLogging`: if the spec asks for
stdout-only logging then `logging.dir` is absent, whatever it was before and whatever
the logs directory of the spec; otherwise, when the logs directory of the spec is
non-empty, `logging.dir` is that directory (and when it is empty, `logging.dir` is as
before). -/
theorem ConfigureLogging_dir (parseFloat : String → Option Float64)
    (spec : LoggingSpec) (c : LoggingConfig) :
    (LoggingSpec.IsOnlyLogToStdout (some spec) = true →
      (LoggingConfig.ConfigureLogging parseFloat (some spec) c).Dir = none)
    ∧ (LoggingSpec.IsOnlyLogToStdout (some spec) = false → spec.LogsDir ≠ "" →
      (LoggingConfig.ConfigureLogging parseFloat (some spec) c).Dir = some spec.LogsDir)
    ∧ (LoggingSpec.IsOnlyLogToStdout (some spec) = false → spec.LogsDir = "" →
      (LoggingConfig.ConfigureLogging parseFloat (some spec) c).Dir = c.Dir) := by
  refine ⟨?_, ?_, ?_⟩
  · intro hs
    simp only [LoggingConfig.ConfigureLogging, hs, if_true]
    split <;> rfl
  · intro hs hd
    simp only [LoggingConfig.ConfigureLogging, hs, hd, ne_eq, not_false_eq_true, if_true,
      Bool.false_eq_true, if_false]
    split <;> rfl
  · intro hs hd
    simp only [LoggingConfig.ConfigureLogging, hs, hd, ne_eq, not_true_eq_false, if_false,
      Bool.false_eq_true]
    split <;> rfl

/-- C18, evaluated on a spec that asks for stdout only and names a logs directory, over
a config whose directory was set. -/
theorem ConfigureLogging_dir_witness :
    LoggingSpec.IsOnlyLogToStdout (some Examples.loggingStdout) = true
    ∧ Examples.loggingStdout.LogsDir = "/data/logs"
    ∧ (LoggingConfig.ConfigureLogging Examples.parseFloat (some Examples.loggingStdout)
        { Dir := some "/old" }).Dir = none :=
  ⟨by decide, rfl,
   (ConfigureLogging_dir Examples.parseFloat Examples.loggingStdout
      { Dir := some "/old" }).1 (by decide)⟩

theorem decodeDigit_base64Digit : ∀ n : Fin 64, decodeDigit (base64Digit n.val) = some n.val := by
  decide

theorem decodeDigit_digit (n : Nat) (h : n < 64) : decodeDigit (base64Digit n) = some n :=
  decodeDigit_base64Digit ⟨n, h⟩

theorem decodeDigit_pad : decodeDigit '=' = none := by decide

theorem ofNat_byte (a : Byte) (n : Nat) (h : n = a.val) : (Fin.ofNat n : Fin 256) = a := by
  apply Fin.ext
  subst h
  simp [Fin.ofNat]

/-- Decoding the standard base64 encoding of a byte sequence gives the sequence back. -/
theorem base64Decode_base64Encode (bs : Bytes) : base64Decode (base64Encode bs) = some bs := by
  induction bs using base64Encode.induct with
  | case1 a b c rest ih =>
    have ha := a.isLt
    have hb := b.isLt
    have hc := c.isLt
    simp only [base64Encode, base64Decode]
    rw [decodeDigit_digit _ (by omega), decodeDigit_digit _ (by omega),
      decodeDigit_digit _ (by omega), decodeDigit_digit _ (by omega)]
    simp only [ih]
    rw [ofNat_byte a _ (by omega), ofNat_byte b _ (by omega), ofNat_byte c _ (by omega)]
  | case2 a b =>
    have ha := a.isLt
    have hb := b.isLt
    simp only [base64Encode, base64Decode]
    rw [decodeDigit_digit _ (by omega), decodeDigit_digit _ (by omega),
      decodeDigit_digit _ (by omega), decodeDigit_pad]
    simp only [and_self, if_true]
    rw [ofNat_byte a _ (by omega), ofNat_byte b _ (by omega)]
  | case3 a =>
    have ha := a.isLt
    simp only [base64Encode, base64Decode]
    rw [decodeDigit_digit _ (by omega), decodeDigit_digit _ (by omega), decodeDigit_pad]
    simp only [and_self, if_true]
    rw [ofNat_byte a _ (by omega)]
  | case4 => rfl

theorem DecodeString_EncodeToString (bs : Bytes) :
    DecodeString (EncodeToString bs) = some bs :=
  base64Decode_base64Encode bs

/-- C17: for a GCS storage spec that references a credential secret, `configureGCS` sets
`storage.credential` to the standard base64 encoding of the service-account key of
the secret, which decodes to the key bytes exactly, whenever the key is non-empty;
`storage.credential` is left as it was (unset on a fresh config) when the key is empty
or no secret is referenced; and a failed secret lookup is returned as the error. -/
theorem configureGCS_credential
    (getSecretsData : String → String → List String → Except String (List Bytes))
    (ns : String) (gcs : GCSStorage) (c : StorageConfig) :
    (∀ key : Bytes, gcs.SecretName ≠ "" →
        getSecretsData ns gcs.SecretName [ServiceAccountKey] = .ok [key] → key ≠ [] →
        (StorageConfig.configureGCS getSecretsData ns (some gcs) c).2 = none
        ∧ (StorageConfig.configureGCS getSecretsData ns (some gcs) c).1.StorageCredential
            = some (EncodeToString key)
        ∧ DecodeString (EncodeToString key) = some key)
    ∧ (gcs.SecretName ≠ "" →
        getSecretsData ns gcs.SecretName [ServiceAccountKey] = .ok [[]] →
        (StorageConfig.configureGCS getSecretsData ns (some gcs) c).2 = none
        ∧ (StorageConfig.configureGCS getSecretsData ns (some gcs) c).1.StorageCredential
            = c.StorageCredential)
    ∧ (gcs.SecretName = "" →
        (StorageConfig.configureGCS getSecretsData ns (some gcs) c).2 = none
        ∧ (StorageConfig.configureGCS getSecretsData ns (some gcs) c).1.StorageCredential
            = c.StorageCredential)
    ∧ (∀ err, gcs.SecretName ≠ "" →
        getSecretsData ns gcs.SecretName [ServiceAccountKey] = .error err →
        (StorageConfig.configureGCS getSecretsData ns (some gcs) c).2 = some err) := by
  refine ⟨?_, ?_, ?_, ?_⟩
  · intro key hname hget hkey
    have hlen : ¬ key.length = 0 := fun h => hkey (List.length_eq_zero.mp h)
    refine ⟨?_, ?_, DecodeString_EncodeToString key⟩ <;>
      simp [StorageConfig.configureGCS, hname, hget, hlen, hkey]
  · intro hname hget
    constructor <;> simp [StorageConfig.configureGCS, hname, hget]
  · intro hname
    constructor <;> simp [StorageConfig.configureGCS, hname]
  · intro err hname hget
    simp [StorageConfig.configureGCS, hname, hget]

/-- C17, evaluated on a secret whose service-account key is the seven bytes of
`{"a":1}`. -/
theorem configureGCS_credential_witness :
    Examples.gcsSecrets "default" Examples.gcsStorage.SecretName [ServiceAccountKey]
        = .ok [[123, 34, 97, 34, 58, 49, 125]]
    ∧ (StorageConfig.configureGCS Examples.gcsSecrets "default" (some Examples.gcsStorage)
        {}).1.StorageCredential = some "eyJhIjoxfQ=="
    ∧ DecodeString "eyJhIjoxfQ==" = some [123, 34, 97, 34, 58, 49, 125] :=
  ⟨rfl,
   ((configureGCS_credential Examples.gcsSecrets "default" Examples.gcsStorage {}).1
      [123, 34, 97, 34, 58, 49, 125] (by decide) rfl (by decide)).2.1,
   ((configureGCS_credential Examples.gcsSecrets "default" Examples.gcsStorage {}).1
      [123, 34, 97, 34, 58, 49, 125] (by decide) rfl (by decide)).2.2⟩

end Dbconfig

/-! ## The builder pipeline -/

namespace Deployers

open V1alpha1

theorem metaStep_run_of_err {Obj : Type} (deps : BuilderDeps Obj) (b : CommonBuilder Obj)
    (h : b.Err.isSome) (step : MetaStep) : step.run deps b = .returned b := by
  cases step <;>
    simp [MetaStep.run, metaBuilder.BuildService, metaBuilder.BuildConfigMap,
      metaBuilder.BuildDeployment, metaBuilder.BuildPodMonitor, h]

theorem monitoringStep_run_of_err {Obj : Type} (deps : BuilderDeps Obj)
    (b : CommonBuilder Obj) (h : b.Err.isSome) (step : MonitoringStep) :
    step.run deps b = .returned b := by
  cases step
  · simp only [MonitoringStep.run, monitoringBuilder.BuildGreptimeDBStandalone, h, if_true]
    split <;> rfl
  · simp only [MonitoringStep.run, monitoringBuilder.BuildConfigMap, h, if_true]
    split <;> rfl

theorem metaChain_of_err {Obj : Type} (deps : BuilderDeps Obj) (b : CommonBuilder Obj)
    (h : b.Err.isSome) (steps : List MetaStep) : metaChain deps steps b = .returned b := by
  induction steps with
  | nil => rfl
  | cons step rest ih =>
    simp only [metaChain, metaStep_run_of_err deps b h, Outcome.andThen, ih]

theorem monitoringChain_of_err {Obj : Type} (deps : BuilderDeps Obj) (b : CommonBuilder Obj)
    (h : b.Err.isSome) (steps : List MonitoringStep) :
    monitoringChain deps steps b = .returned b := by
  induction steps with
  | nil => rfl
  | cons step rest ih =>
    simp only [monitoringChain, monitoringStep_run_of_err deps b h, Outcome.andThen, ih]

theorem metaChain_append {Obj : Type} (deps : BuilderDeps Obj) (pre post : List MetaStep)
    (b : CommonBuilder Obj) :
    metaChain deps (pre ++ post) b = (metaChain deps pre b).andThen (metaChain deps post) := by
  induction pre generalizing b with
  | nil => rfl
  | cons step rest ih =>
    simp only [List.cons_append, metaChain]
    cases step.run deps b with
    | returned value => exact ih value
    | panicked => rfl

theorem monitoringChain_append {Obj : Type} (deps : BuilderDeps Obj)
    (pre post : List MonitoringStep) (b : CommonBuilder Obj) :
    monitoringChain deps (pre ++ post) b
      = (monitoringChain deps pre b).andThen (monitoringChain deps post) := by
  induction pre generalizing b with
  | nil => rfl
  | cons step rest ih =>
    simp only [List.cons_append, monitoringChain]
    cases step.run deps b with
    | returned value => exact ih value
    | panicked => rfl

/-- A `metaBuilder` step that sets the error leaves the objects as they were. -/
theorem metaStep_objects_of_failure {Obj : Type} (deps : BuilderDeps Obj)
    (b b' : CommonBuilder Obj) (step : MetaStep) (hb : b.Err = none)
    (hrun : step.run deps b = .returned b') (hfail : b'.Err.isSome) :
    b'.Objects = b.Objects := by
  cases step <;>
    simp only [MetaStep.run, metaBuilder.BuildService, metaBuilder.BuildConfigMap,
      metaBuilder.BuildDeployment, metaBuilder.BuildPodMonitor, hb, Option.isSome_none,
      Bool.false_eq_true, if_false] at hrun <;>
    (repeat' split at hrun) <;>
    simp only [Outcome.returned.injEq, reduceCtorEq] at hrun <;>
    subst hrun <;>
    first
      | rfl
      | (simp [hb] at hfail)

/-- A `monitoringBuilder` step that sets the error leaves the objects as they were. -/
theorem monitoringStep_objects_of_failure {Obj : Type} (deps : BuilderDeps Obj)
    (b b' : CommonBuilder Obj) (step : MonitoringStep) (hb : b.Err = none)
    (hrun : step.run deps b = .returned b') (hfail : b'.Err.isSome) :
    b'.Objects = b.Objects := by
  cases step <;>
    simp only [MonitoringStep.run, monitoringBuilder.BuildGreptimeDBStandalone,
      monitoringBuilder.BuildConfigMap, hb, Option.isSome_none,
      Bool.false_eq_true, if_false] at hrun <;>
    (repeat' split at hrun) <;>
    simp only [Outcome.returned.injEq, reduceCtorEq] at hrun <;>
    subst hrun <;>
    first
      | rfl
      | (simp [hb] at hfail)

/-- C12: on a builder whose sticky error is set, every build step of `metaBuilder`
(`BuildService`, `BuildConfigMap`, `BuildDeployment`, `BuildPodMonitor`) and of
`monitoringBuilder` (`BuildGreptimeDBStandalone`, `BuildConfigMap`) returns the builder
with the objects and the error unchanged, every chain of these steps does so too, and
`Generate` returns exactly the objects and the error. Hence in a chain whose steps
before `step` set no error and whose `step` sets the error, the chain ends in the
builder that `step` left, and `Generate` returns the objects accumulated before `step`
with the error of `step`. -/
theorem builder_sticky_error {Obj : Type} (deps : BuilderDeps Obj) (b : CommonBuilder Obj)
    (err : String) (h : b.Err = some err) :
    (∀ step : MetaStep, step.run deps b = .returned b)
    ∧ (∀ step : MonitoringStep, step.run deps b = .returned b)
    ∧ (∀ steps : List MetaStep, metaChain deps steps b = .returned b)
    ∧ (∀ steps : List MonitoringStep, monitoringChain deps steps b = .returned b)
    ∧ metaBuilder.Generate b = (b.Objects, some err)
    ∧ monitoringBuilder.Generate b = (b.Objects, some err)
    ∧ (∀ (b₀ b₁ : CommonBuilder Obj) (pre post : List MetaStep) (step : MetaStep),
        metaChain deps pre b₀ = .returned b₁ → b₁.Err = none →
        step.run deps b₁ = .returned b →
        metaChain deps (pre ++ step :: post) b₀ = .returned b
        ∧ metaBuilder.Generate b = (b₁.Objects, some err))
    ∧ (∀ (b₀ b₁ : CommonBuilder Obj) (pre post : List MonitoringStep)
        (step : MonitoringStep),
        monitoringChain deps pre b₀ = .returned b₁ → b₁.Err = none →
        step.run deps b₁ = .returned b →
        monitoringChain deps (pre ++ step :: post) b₀ = .returned b
        ∧ monitoringBuilder.Generate b = (b₁.Objects, some err)) := by
  have hs : b.Err.isSome := by simp [h]
  refine ⟨metaStep_run_of_err deps b hs, monitoringStep_run_of_err deps b hs,
    metaChain_of_err deps b hs, monitoringChain_of_err deps b hs, ?_, ?_, ?_, ?_⟩
  · simp only [metaBuilder.Generate, h]
  · simp only [monitoringBuilder.Generate, h]
  · intro b₀ b₁ pre post step hpre hnone hstep
    constructor
    · rw [metaChain_append, hpre]
      simp only [Outcome.andThen, metaChain, hstep]
      exact metaChain_of_err deps b hs post
    · simp only [metaBuilder.Generate, h,
        metaStep_objects_of_failure deps b₁ b step hnone hstep hs]
  · intro b₀ b₁ pre post step hpre hnone hstep
    constructor
    · rw [monitoringChain_append, hpre]
      simp only [Outcome.andThen, monitoringChain, hstep]
      exact monitoringChain_of_err deps b hs post
    · simp only [monitoringBuilder.Generate, h,
        monitoringStep_objects_of_failure deps b₁ b step hnone hstep hs]

/-- C12, evaluated on the chain of `MetaDeployer.Generate` for a cluster whose meta
config cannot be rendered: `BuildDeployment` sets the error after `BuildService` and
`BuildConfigMap` added their objects, and `BuildPodMonitor` passes the builder on. -/
theorem builder_sticky_error_witness :
    metaChain Examples.builderDeps
        [MetaStep.BuildService, MetaStep.BuildConfigMap, MetaStep.BuildDeployment,
          MetaStep.BuildPodMonitor]
        { Cluster := some Examples.startingCluster, RoleKind := MetaRoleKind }
      = .returned
          { Cluster := some Examples.startingCluster, RoleKind := MetaRoleKind,
            Objects := ["Service/default/db-meta", "ConfigMap/default/meta"],
            Err := some "invalid meta config" }
    ∧ metaBuilder.Generate
        ({ Cluster := some Examples.startingCluster, RoleKind := MetaRoleKind,
           Objects := ["Service/default/db-meta", "ConfigMap/default/meta"],
           Err := some "invalid meta config" } : CommonBuilder String)
      = (["Service/default/db-meta", "ConfigMap/default/meta"], some "invalid meta config") :=
  ⟨((builder_sticky_error Examples.builderDeps
      { Cluster := some Examples.startingCluster, RoleKind := MetaRoleKind,
        Objects := ["Service/default/db-meta", "ConfigMap/default/meta"],
        Err := some "invalid meta config" } "invalid meta config" rfl).2.2.2.2.2.2.1
      { Cluster := some Examples.startingCluster, RoleKind := MetaRoleKind }
      { Cluster := some Examples.startingCluster, RoleKind := MetaRoleKind,
        Objects := ["Service/default/db-meta", "ConfigMap/default/meta"] }
      [MetaStep.BuildService, MetaStep.BuildConfigMap] [MetaStep.BuildPodMonitor]
      MetaStep.BuildDeployment (by decide) rfl (by decide)).1,
   (builder_sticky_error Examples.builderDeps
      { Cluster := some Examples.startingCluster, RoleKind := MetaRoleKind,
        Objects := ["Service/default/db-meta", "ConfigMap/default/meta"],
        Err := some "invalid meta config" } "invalid meta config" rfl).2.2.2.2.1⟩

/-! ## Status reconciliation of the meta role -/

/-- The meta pass on a deployment that is read, in terms of the named fragments. -/
theorem MetaDeployer.pass_of_deployment (d : MetaDeployer) (deps : MetaDeps)
    (object : ClientObject) (cluster : GreptimeDBCluster) (replicas : Int)
    (metaSpec : MetaSpec)
    (hc : deps.GetCluster object = .ok cluster)
    (hget : (deps.Get cluster.Namespace (deps.ResourceName cluster.Name MetaRoleKind)).2 = none)
    (hrep : (deps.Get cluster.Namespace (deps.ResourceName cluster.Name MetaRoleKind)).1.Replicas
      = some replicas)
    (hmeta : cluster.Spec.Meta = some metaSpec) :
    d.CheckAndUpdateStatus deps object =
      (if d.turnsOnMaintenanceMode cluster
          (deps.IsDeploymentReady
            (deps.Get cluster.Namespace (deps.ResourceName cluster.Name MetaRoleKind)).1) then
        match deps.SetMaintenanceMode
            (deps.GetMetaHTTPServiceURL
              (MetaDeployer.recordReplicas cluster
                (deps.Get cluster.Namespace (deps.ResourceName cluster.Name MetaRoleKind)).1
                replicas metaSpec)) true with
        | some err =>
          .returned
            { ready := false, err := some err,
              cluster := some (MetaDeployer.recordReplicas cluster
                (deps.Get cluster.Namespace (deps.ResourceName cluster.Name MetaRoleKind)).1
                replicas metaSpec),
              calls :=
                [Call.Get cluster.Namespace (deps.ResourceName cluster.Name MetaRoleKind),
                  Call.SetMaintenanceMode
                    (deps.GetMetaHTTPServiceURL
                      (MetaDeployer.recordReplicas cluster
                        (deps.Get cluster.Namespace
                          (deps.ResourceName cluster.Name MetaRoleKind)).1
                        replicas metaSpec)) true] }
        | none =>
          .returned
            { ready := deps.IsDeploymentReady
                (deps.Get cluster.Namespace (deps.ResourceName cluster.Name MetaRoleKind)).1,
              err := none,
              cluster := some (MetaDeployer.recordMaintenanceMode
                (MetaDeployer.recordReplicas cluster
                  (deps.Get cluster.Namespace (deps.ResourceName cluster.Name MetaRoleKind)).1
                  replicas metaSpec)),
              calls :=
                [Call.Get cluster.Namespace (deps.ResourceName cluster.Name MetaRoleKind),
                  Call.SetMaintenanceMode
                    (deps.GetMetaHTTPServiceURL
                      (MetaDeployer.recordReplicas cluster
                        (deps.Get cluster.Namespace
                          (deps.ResourceName cluster.Name MetaRoleKind)).1
                        replicas metaSpec)) true,
                  Call.UpdateStatus (MetaDeployer.recordMaintenanceMode
                    (MetaDeployer.recordReplicas cluster
                      (deps.Get cluster.Namespace
                        (deps.ResourceName cluster.Name MetaRoleKind)).1
                      replicas metaSpec))],
              logs := updateStatusLogs (deps.UpdateStatus
                (MetaDeployer.recordMaintenanceMode
                  (MetaDeployer.recordReplicas cluster
                    (deps.Get cluster.Namespace
                      (deps.ResourceName cluster.Name MetaRoleKind)).1
                    replicas metaSpec))) }
      else
        .returned
          { ready := deps.IsDeploymentReady
              (deps.Get cluster.Namespace (deps.ResourceName cluster.Name MetaRoleKind)).1,
            err := none,
            cluster := some (MetaDeployer.recordReplicas cluster
              (deps.Get cluster.Namespace (deps.ResourceName cluster.Name MetaRoleKind)).1
              replicas metaSpec),
            calls :=
              [Call.Get cluster.Namespace (deps.ResourceName cluster.Name MetaRoleKind),
                Call.UpdateStatus (MetaDeployer.recordReplicas cluster
                  (deps.Get cluster.Namespace (deps.ResourceName cluster.Name MetaRoleKind)).1
                  replicas metaSpec)],
            logs := updateStatusLogs (deps.UpdateStatus
              (MetaDeployer.recordReplicas cluster
                (deps.Get cluster.Namespace (deps.ResourceName cluster.Name MetaRoleKind)).1
                replicas metaSpec)) }) := by
  unfold MetaDeployer.CheckAndUpdateStatus
  simp only [hc, hget, hrep, hmeta]
  by_cases hcond : d.turnsOnMaintenanceMode cluster
      (deps.IsDeploymentReady
        (deps.Get cluster.Namespace (deps.ResourceName cluster.Name MetaRoleKind)).1) = true
  · rw [if_pos hcond]
    have hcond' := hcond
    unfold MetaDeployer.turnsOnMaintenanceMode at hcond'
    rw [if_pos hcond']
    cases hset : deps.SetMaintenanceMode
        (deps.GetMetaHTTPServiceURL
          (MetaDeployer.recordReplicas cluster
            (deps.Get cluster.Namespace (deps.ResourceName cluster.Name MetaRoleKind)).1
            replicas metaSpec)) true with
    | none =>
      unfold MetaDeployer.recordReplicas at hset
      simp only [hset]
      rfl
    | some err =>
      unfold MetaDeployer.recordReplicas at hset
      simp only [hset]
      rfl
  · rw [if_neg hcond]
    have hcond' := hcond
    unfold MetaDeployer.turnsOnMaintenanceMode at hcond'
    rw [if_neg hcond']
    rfl

theorem MetaDeployer.turnsOnMaintenanceMode_iff (d : MetaDeployer)
    (cluster : GreptimeDBCluster) (ready : Bool) :
    d.turnsOnMaintenanceMode cluster ready = true ↔
      d.maintenanceModeWhenCreateCluster = true
        ∧ cluster.Status.ClusterPhase = PhaseStarting
        ∧ ready = true ∧ cluster.Status.Meta.MaintenanceMode = false := by
  simp [MetaDeployer.turnsOnMaintenanceMode, and_assoc]

/-- A pass on a cluster whose maintenance-mode flag is recorded issues no
`SetMaintenanceMode` call. -/
theorem MetaDeployer.no_call_of_flag (d : MetaDeployer) (deps : MetaDeps)
    (object : ClientObject) (cluster : GreptimeDBCluster) (pass : Pass)
    (hc : deps.GetCluster object = .ok cluster)
    (hflag : cluster.Status.Meta.MaintenanceMode = true)
    (hpass : d.CheckAndUpdateStatus deps object = .returned pass) :
    pass.calls.countP Call.isSetMaintenanceMode = 0 := by
  cases hget : (deps.Get cluster.Namespace (deps.ResourceName cluster.Name MetaRoleKind)).2 with
  | some err =>
    unfold MetaDeployer.CheckAndUpdateStatus at hpass
    simp only [hc, hget] at hpass
    split at hpass <;>
      simp only [Outcome.returned.injEq] at hpass <;>
      subst hpass <;> rfl
  | none =>
    cases hrep : (deps.Get cluster.Namespace
        (deps.ResourceName cluster.Name MetaRoleKind)).1.Replicas with
    | none =>
      unfold MetaDeployer.CheckAndUpdateStatus at hpass
      simp [hc, hget, hrep] at hpass
    | some replicas =>
      cases hmeta : cluster.Spec.Meta with
      | none =>
        unfold MetaDeployer.CheckAndUpdateStatus at hpass
        simp [hc, hget, hrep, hmeta] at hpass
      | some metaSpec =>
        rw [MetaDeployer.pass_of_deployment d deps object cluster replicas metaSpec hc hget
          hrep hmeta] at hpass
        have hoff : ¬ d.turnsOnMaintenanceMode cluster
            (deps.IsDeploymentReady
              (deps.Get cluster.Namespace
                (deps.ResourceName cluster.Name MetaRoleKind)).1) = true := by
          rw [MetaDeployer.turnsOnMaintenanceMode_iff]
          simp [hflag]
        rw [if_neg hoff] at hpass
        simp only [Outcome.returned.injEq] at hpass
        subst hpass
        rfl

/-- The collaborators of a pass in which the cluster object is resolved, the meta
deployment is present and ready, and the maintenance-mode call succeeds. -/
theorem MetaDeployer.pass_of_ready (d : MetaDeployer) (deps : MetaDeps)
    (cluster : GreptimeDBCluster) (metaSpec : MetaSpec)
    (hopt : d.maintenanceModeWhenCreateCluster = true)
    (hphase : cluster.Status.ClusterPhase = PhaseStarting)
    (hmeta : cluster.Spec.Meta = some metaSpec)
    (hc : ∀ c, deps.GetCluster (.cluster c) = .ok c)
    (hget : (deps.Get cluster.Namespace (deps.ResourceName cluster.Name MetaRoleKind)).2
        = none
      ∧ (deps.Get cluster.Namespace
          (deps.ResourceName cluster.Name MetaRoleKind)).1.Replicas.isSome
      ∧ deps.IsDeploymentReady
          (deps.Get cluster.Namespace (deps.ResourceName cluster.Name MetaRoleKind)).1 = true)
    (hset : ∀ url, deps.SetMaintenanceMode url true = none) :
    ∃ pass after, d.CheckAndUpdateStatus deps (.cluster cluster) = .returned pass
      ∧ pass.ready = true ∧ pass.err = none ∧ pass.cluster = some after
      ∧ after.Status.ClusterPhase = PhaseStarting
      ∧ after.Spec.Meta = some metaSpec
      ∧ after.Status.Meta.MaintenanceMode = true
      ∧ pass.calls.countP Call.isSetMaintenanceMode
          = (if cluster.Status.Meta.MaintenanceMode then 0 else 1)
      ∧ after.Namespace = cluster.Namespace ∧ after.Name = cluster.Name := by
  obtain ⟨hgot, hrep, hready⟩ := hget
  obtain ⟨replicas, hrep⟩ := Option.isSome_iff_exists.mp hrep
  rw [MetaDeployer.pass_of_deployment d deps (.cluster cluster) cluster replicas metaSpec
    (hc cluster) hgot hrep hmeta]
  cases hflag : cluster.Status.Meta.MaintenanceMode with
  | true =>
    have hoff : ¬ d.turnsOnMaintenanceMode cluster
        (deps.IsDeploymentReady
          (deps.Get cluster.Namespace
            (deps.ResourceName cluster.Name MetaRoleKind)).1) = true := by
      rw [MetaDeployer.turnsOnMaintenanceMode_iff]
      simp [hflag]
    rw [if_neg hoff]
    exact ⟨_, _, rfl, hready, rfl, rfl, hphase, hmeta, hflag, rfl, rfl, rfl⟩
  | false =>
    have hon : d.turnsOnMaintenanceMode cluster
        (deps.IsDeploymentReady
          (deps.Get cluster.Namespace
            (deps.ResourceName cluster.Name MetaRoleKind)).1) = true := by
      rw [MetaDeployer.turnsOnMaintenanceMode_iff]
      exact ⟨hopt, hphase, hready, hflag⟩
    rw [if_pos hon, hset]
    exact ⟨_, _, rfl, hready, rfl, rfl, hphase, hmeta, rfl, rfl, rfl, rfl⟩

/-- Successive passes that start with the flag recorded issue no `SetMaintenanceMode`
call and keep the flag. -/
theorem MetaDeployer.passes_of_flag (d : MetaDeployer) (envs : List MetaDeps)
    (cluster : GreptimeDBCluster) (metaSpec : MetaSpec)
    (hopt : d.maintenanceModeWhenCreateCluster = true)
    (hphase : cluster.Status.ClusterPhase = PhaseStarting)
    (hflag : cluster.Status.Meta.MaintenanceMode = true)
    (hmeta : cluster.Spec.Meta = some metaSpec)
    (henv : ∀ deps ∈ envs,
      (∀ c, deps.GetCluster (.cluster c) = .ok c)
      ∧ ((deps.Get cluster.Namespace (deps.ResourceName cluster.Name MetaRoleKind)).2 = none
          ∧ (deps.Get cluster.Namespace
              (deps.ResourceName cluster.Name MetaRoleKind)).1.Replicas.isSome
          ∧ deps.IsDeploymentReady
              (deps.Get cluster.Namespace
                (deps.ResourceName cluster.Name MetaRoleKind)).1 = true)
      ∧ (∀ url, deps.SetMaintenanceMode url true = none)) :
    (d.passes envs cluster).map (fun pass => pass.calls.countP Call.isSetMaintenanceMode)
        = List.replicate envs.length 0
    ∧ (∀ pass ∈ d.passes envs cluster, pass.ready = true ∧ pass.err = none
        ∧ ∃ after, pass.cluster = some after ∧ after.Status.Meta.MaintenanceMode = true) := by
  induction envs generalizing cluster with
  | nil => simp [MetaDeployer.passes]
  | cons deps rest ih =>
    obtain ⟨hc, hget, hset⟩ := henv deps (List.mem_cons_self _ _)
    obtain ⟨pass, after, hpass, hready, herr, hcl, hph, hm, hfl, hcount, hns, hname⟩ :=
      MetaDeployer.pass_of_ready d deps cluster metaSpec hopt hphase hmeta hc hget hset
    have hrest := ih after hph hfl hm fun deps' hmem => by
      rw [hns, hname]
      exact henv deps' (List.mem_cons_of_mem _ hmem)
    simp only [MetaDeployer.passes, hpass, hcl, Option.getD_some, List.map_cons,
      List.length_cons, List.replicate_succ, List.mem_cons, hcount, hflag, if_true]
    refine ⟨by rw [hrest.1], ?_⟩
    intro p hp
    rcases hp with hp | hp
    · subst hp
      exact ⟨hready, herr, after, hcl, hfl⟩
    · exact hrest.2 p hp

/-- On a cluster that has a meta spec, with deployments that have their `Spec.Replicas`
set: across successive `MetaDeployer.CheckAndUpdateStatus` passes that start with the
maintenance-mode flag false, with `maintenanceModeWhenCreateCluster` enabled, the
cluster in the `Starting` phase, the meta deployment present and ready in every pass,
the maintenance-mode call succeeding and the cluster object carried from one pass to
the next, the call is issued exactly once, in the first pass, and the flag is true
after every pass; and a pass that starts with the flag true issues no such call. -/
theorem maintenance_mode_once (d : MetaDeployer) (deps : MetaDeps) (envs : List MetaDeps)
    (cluster : GreptimeDBCluster) (metaSpec : MetaSpec)
    (hopt : d.maintenanceModeWhenCreateCluster = true)
    (hphase : cluster.Status.ClusterPhase = PhaseStarting)
    (hflag : cluster.Status.Meta.MaintenanceMode = false)
    (hmeta : cluster.Spec.Meta = some metaSpec)
    (henv : ∀ deps' ∈ deps :: envs,
      (∀ c, deps'.GetCluster (.cluster c) = .ok c)
      ∧ ((deps'.Get cluster.Namespace (deps'.ResourceName cluster.Name MetaRoleKind)).2
            = none
          ∧ (deps'.Get cluster.Namespace
              (deps'.ResourceName cluster.Name MetaRoleKind)).1.Replicas.isSome
          ∧ deps'.IsDeploymentReady
              (deps'.Get cluster.Namespace
                (deps'.ResourceName cluster.Name MetaRoleKind)).1 = true)
      ∧ (∀ url, deps'.SetMaintenanceMode url true = none)) :
    (d.passes (deps :: envs) cluster).length = envs.length + 1
    ∧ (d.passes (deps :: envs) cluster).map
          (fun pass => pass.calls.countP Call.isSetMaintenanceMode)
        = 1 :: List.replicate envs.length 0
    ∧ (∀ pass ∈ d.passes (deps :: envs) cluster, pass.ready = true ∧ pass.err = none
        ∧ ∃ after, pass.cluster = some after ∧ after.Status.Meta.MaintenanceMode = true)
    ∧ (∀ (d' : MetaDeployer) (deps' : MetaDeps) (object : ClientObject)
        (c : GreptimeDBCluster) (pass : Pass),
        deps'.GetCluster object = .ok c → c.Status.Meta.MaintenanceMode = true →
        d'.CheckAndUpdateStatus deps' object = .returned pass →
        pass.calls.countP Call.isSetMaintenanceMode = 0) := by
  obtain ⟨hc, hget, hset⟩ := henv deps (List.mem_cons_self _ _)
  obtain ⟨pass, after, hpass, hready, herr, hcl, hph, hm, hfl, hcount, hns, hname⟩ :=
    MetaDeployer.pass_of_ready d deps cluster metaSpec hopt hphase hmeta hc hget hset
  have hrest := MetaDeployer.passes_of_flag d envs after metaSpec hopt hph hfl hm
    fun deps' hmem => by
      rw [hns, hname]
      exact henv deps' (List.mem_cons_of_mem _ hmem)
  have hmap : (d.passes (deps :: envs) cluster).map
        (fun pass => pass.calls.countP Call.isSetMaintenanceMode)
      = 1 :: List.replicate envs.length 0 := by
    simp only [MetaDeployer.passes, hpass, hcl, Option.getD_some, List.map_cons, hcount,
      hflag, hrest.1]
    rfl
  refine ⟨?_, hmap, ?_, ?_⟩
  · have hlen := congrArg List.length hmap
    simpa using hlen
  · intro p hp
    simp only [MetaDeployer.passes, hpass, hcl, Option.getD_some, List.mem_cons] at hp
    rcases hp with hp | hp
    · subst hp
      exact ⟨hready, herr, after, hcl, hfl⟩
    · exact hrest.2 p hp
  · intro d' deps' object c pass hc' hflag' hpass'
    exact MetaDeployer.no_call_of_flag d' deps' object c pass hc' hflag' hpass'

/-- Three passes over a starting cluster that has a meta spec. -/
theorem maintenance_mode_once_witness :
    ((MetaDeployer.passes { maintenanceModeWhenCreateCluster := true }
        [Examples.metaDeps, Examples.metaDeps, Examples.metaDeps]
        Examples.startingCluster).map
          fun pass => pass.calls.countP Call.isSetMaintenanceMode) = [1, 0, 0] :=
  (maintenance_mode_once { maintenanceModeWhenCreateCluster := true } Examples.metaDeps
    [Examples.metaDeps, Examples.metaDeps] Examples.startingCluster
    { Config := "=", EtcdEndpoints := ["etcd:2379"] } rfl rfl rfl rfl
    (by
      intro deps' hmem
      have h : deps' = Examples.metaDeps := by
        simp only [List.mem_cons, List.mem_singleton, or_self, List.not_mem_nil,
          or_false] at hmem
        exact hmem
      subst h
      exact ⟨fun _ => rfl, by decide, fun _ => rfl⟩)).2.1

/-- C19: when the read of the live object answers not-found, the meta pass (on the meta
deployment) and the monitoring pass (with monitoring enabled and a standalone
specified) return `(false, nil)`, leave the cluster object as it was and issue no call
besides the read: no `UpdateStatus`, no `SetMaintenanceMode`, no pipeline call. -/
theorem CheckAndUpdateStatus_not_found (d : MetaDeployer) (metaDeps : MetaDeps)
    (monitoringDeps : MonitoringDeps) (object : ClientObject) (cluster : GreptimeDBCluster)
    (err : GetError) (hnf : err.NotFound = true) :
    (metaDeps.GetCluster object = .ok cluster →
      (metaDeps.Get cluster.Namespace (metaDeps.ResourceName cluster.Name MetaRoleKind)).2
        = some err →
      d.CheckAndUpdateStatus metaDeps object
        = .returned
            { ready := false, err := none, cluster := some cluster,
              calls := [Call.Get cluster.Namespace
                (metaDeps.ResourceName cluster.Name MetaRoleKind)],
              logs := [] })
    ∧ (monitoringDeps.GetCluster object = .ok cluster →
      MonitoringSpec.IsEnabled cluster.Spec.Monitoring = true →
      (MonitoringSpec.GetStandalone cluster.Spec.Monitoring).isSome →
      (monitoringDeps.Get cluster.Namespace
        (monitoringDeps.MonitoringServiceName cluster.Name)).2 = some err →
      MonitoringDeployer.CheckAndUpdateStatus monitoringDeps object
        = { ready := false, err := none, cluster := some cluster,
            calls := [Call.Get cluster.Namespace
              (monitoringDeps.MonitoringServiceName cluster.Name)],
            logs := [] }) := by
  constructor
  · intro hc hget
    unfold MetaDeployer.CheckAndUpdateStatus
    simp only [hc, hget, hnf, if_true]
  · intro hc hen hst hget
    unfold MonitoringDeployer.CheckAndUpdateStatus
    simp only [hc, hget, hnf, GreptimeDBCluster.GetMonitoring, hen, hst, Bool.not_true,
      Option.isNone_iff_eq_none, Bool.false_or, if_true]
    have hst' : ¬ MonitoringSpec.GetStandalone cluster.Spec.Monitoring = none := by
      intro h
      rw [h] at hst
      cases hst
    simp [hst']

/-- C19, evaluated on a cluster whose meta deployment and monitoring standalone do not
exist. -/
theorem CheckAndUpdateStatus_not_found_witness :
    MetaDeployer.CheckAndUpdateStatus { maintenanceModeWhenCreateCluster := true }
        Examples.metaDeps (.cluster Examples.monitoredCluster)
      = .returned
          { ready := false, err := none, cluster := some Examples.monitoredCluster,
            calls := [Call.Get "default" "mon-meta"], logs := [] }
    ∧ MonitoringDeployer.CheckAndUpdateStatus Examples.monitoringDeps
        (.cluster Examples.monitoredCluster)
      = { ready := false, err := none, cluster := some Examples.monitoredCluster,
          calls := [Call.Get "default" "mon-monitor"], logs := [] } :=
  ⟨(CheckAndUpdateStatus_not_found { maintenanceModeWhenCreateCluster := true }
      Examples.metaDeps Examples.monitoringDeps (.cluster Examples.monitoredCluster)
      Examples.monitoredCluster
      { NotFound := true, Message := "deployments \"mon-meta\" not found" } rfl).1 rfl rfl,
   (CheckAndUpdateStatus_not_found { maintenanceModeWhenCreateCluster := true }
      Examples.metaDeps Examples.monitoringDeps (.cluster Examples.monitoredCluster)
      Examples.monitoredCluster
      { NotFound := true, Message := "standalone \"mon-monitor\" not found" } rfl).2
      rfl rfl rfl rfl⟩

/-- On a cluster that has a meta spec, with a deployment that has its `Spec.Replicas`
set: in a pass in which the deployment is read and no maintenance-mode call fails,
`MetaDeployer.CheckAndUpdateStatus` returns the readiness of the deployment and no
error, whatever `UpdateStatus` returns: the outcome of persisting the status shows in
the log only. -/
theorem CheckAndUpdateStatus_ignores_UpdateStatus (d : MetaDeployer) (deps : MetaDeps)
    (object : ClientObject) (cluster : GreptimeDBCluster) (replicas : Int)
    (metaSpec : MetaSpec) (updateStatus : GreptimeDBCluster → Error)
    (hc : deps.GetCluster object = .ok cluster)
    (hget : (deps.Get cluster.Namespace (deps.ResourceName cluster.Name MetaRoleKind)).2 = none)
    (hrep : (deps.Get cluster.Namespace (deps.ResourceName cluster.Name MetaRoleKind)).1.Replicas
      = some replicas)
    (hmeta : cluster.Spec.Meta = some metaSpec)
    (hset : d.maintenanceModeWhenCreateCluster = true →
      cluster.Status.ClusterPhase = PhaseStarting →
      deps.IsDeploymentReady
        (deps.Get cluster.Namespace (deps.ResourceName cluster.Name MetaRoleKind)).1 = true →
      cluster.Status.Meta.MaintenanceMode = false →
      ∀ url, deps.SetMaintenanceMode url true = none) :
    ∃ pass after,
      d.CheckAndUpdateStatus { deps with UpdateStatus := updateStatus } object = .returned pass
      ∧ pass.ready = deps.IsDeploymentReady
          (deps.Get cluster.Namespace (deps.ResourceName cluster.Name MetaRoleKind)).1
      ∧ pass.err = none
      ∧ pass.cluster = some after
      ∧ pass.calls.countP Call.isUpdateStatus = 1
      ∧ pass.logs = updateStatusLogs (updateStatus after) := by
  rw [MetaDeployer.pass_of_deployment d { deps with UpdateStatus := updateStatus } object
    cluster replicas metaSpec hc hget hrep hmeta]
  by_cases hcond : d.turnsOnMaintenanceMode cluster
      (deps.IsDeploymentReady
        (deps.Get cluster.Namespace (deps.ResourceName cluster.Name MetaRoleKind)).1) = true
  · obtain ⟨h1, h2, h3, h4⟩ := (MetaDeployer.turnsOnMaintenanceMode_iff d cluster _).mp hcond
    rw [if_pos hcond]
    simp only [hset h1 h2 h3 h4]
    exact ⟨_, _, rfl, rfl, rfl, rfl, rfl, rfl⟩
  · rw [if_neg hcond]
    exact ⟨_, _, rfl, rfl, rfl, rfl, rfl, rfl⟩

/-- A pass over the starting cluster that has a meta spec, with an `UpdateStatus` that
fails and with one that succeeds. -/
theorem CheckAndUpdateStatus_ignores_UpdateStatus_witness :
    (∃ pass, MetaDeployer.CheckAndUpdateStatus { maintenanceModeWhenCreateCluster := true }
          { Examples.metaDeps with UpdateStatus := fun _ => some "conflict" }
          (.cluster Examples.startingCluster) = .returned pass
        ∧ pass.ready = true ∧ pass.err = none
        ∧ pass.logs = ["Failed to update status: conflict"])
    ∧ (∃ pass, MetaDeployer.CheckAndUpdateStatus { maintenanceModeWhenCreateCluster := true }
          { Examples.metaDeps with UpdateStatus := fun _ => none }
          (.cluster Examples.startingCluster) = .returned pass
        ∧ pass.ready = true ∧ pass.err = none ∧ pass.logs = []) := by
  obtain ⟨pass, after, h1, h2, h3, _, _, h6⟩ :=
    CheckAndUpdateStatus_ignores_UpdateStatus { maintenanceModeWhenCreateCluster := true }
      Examples.metaDeps (.cluster Examples.startingCluster) Examples.startingCluster 1
      { Config := "=", EtcdEndpoints := ["etcd:2379"] } (fun _ => some "conflict")
      rfl rfl rfl rfl (fun _ _ _ _ _ => rfl)
  obtain ⟨pass', after', h1', h2', h3', _, _, h6'⟩ :=
    CheckAndUpdateStatus_ignores_UpdateStatus { maintenanceModeWhenCreateCluster := true }
      Examples.metaDeps (.cluster Examples.startingCluster) Examples.startingCluster 1
      { Config := "=", EtcdEndpoints := ["etcd:2379"] } (fun _ => none)
      rfl rfl rfl rfl (fun _ _ _ _ _ => rfl)
  exact ⟨⟨pass, h1, h2, h3, h6⟩, ⟨pass', h1', h2', h3', h6'⟩⟩

/-! ## Pipeline bootstrap of the monitoring role -/

theorem retryLoop_attempts_le (operation : Nat → Error × List String)
    (remaining n : Nat) (errorLog logs : List String) :
    (retryLoop operation remaining n errorLog logs).attempts ≤ n + remaining := by
  induction remaining generalizing n errorLog logs with
  | zero => simp [retryLoop]
  | succ k ih =>
    unfold retryLoop
    split
    · simp only
      omega
    · rename_i err herr
      have := ih (n + 1) (errorLog ++ [err]) (logs ++ (operation n).2)
      omega

theorem retryLoop_all_fail (operation : Nat → Error × List String)
    (remaining n : Nat) (errorLog logs : List String)
    (h : ∀ i, i < remaining → (operation (n + i)).1 ≠ none) :
    (retryLoop operation remaining n errorLog logs).err ≠ none
    ∧ (retryLoop operation remaining n errorLog logs).attempts = n + remaining := by
  induction remaining generalizing n errorLog logs with
  | zero => simp [retryLoop]
  | succ k ih =>
    unfold retryLoop
    have h0 := h 0 (Nat.succ_pos k)
    split
    · rename_i hnone
      exact absurd hnone h0
    · rename_i err herr
      have hrest := ih (n + 1) (errorLog ++ [err]) (logs ++ (operation n).2) (fun i hi => by
        have := h (i + 1) (Nat.succ_lt_succ hi)
        rwa [show n + 1 + i = n + (i + 1) by omega])
      refine ⟨hrest.1, ?_⟩
      rw [hrest.2]
      omega

theorem retryLoop_first_success (operation : Nat → Error × List String)
    (remaining n : Nat) (errorLog logs : List String) (j : Nat) (hj : j < remaining)
    (hok : (operation (n + j)).1 = none)
    (hbefore : ∀ i, i < j → (operation (n + i)).1 ≠ none) :
    (retryLoop operation remaining n errorLog logs).err = none
    ∧ (retryLoop operation remaining n errorLog logs).attempts = n + j + 1 := by
  induction remaining generalizing n errorLog logs j with
  | zero => omega
  | succ k ih =>
    unfold retryLoop
    cases j with
    | zero =>
      simp only [Nat.add_zero] at hok
      simp [hok]
    | succ j =>
      have h0 := hbefore 0 (Nat.succ_pos j)
      split
      · rename_i hnone
        exact absurd hnone h0
      · rename_i err herr
        have hrest := ih (n + 1) (errorLog ++ [err]) (logs ++ (operation n).2) j
          (Nat.lt_of_succ_lt_succ hj)
          (by rwa [show n + 1 + j = n + (j + 1) by omega])
          (fun i hi => by
            have := hbefore (i + 1) (Nat.succ_lt_succ hi)
            rwa [show n + 1 + i = n + (i + 1) by omega])
        refine ⟨hrest.1, ?_⟩
        rw [hrest.2]
        omega

/-- An attempt passes the function `operation` exactly when it is answered with the
status 200 and the body of the answer is read. -/
theorem MonitoringDeployer.operation_eq_none_iff (attempt : Attempt) :
    (MonitoringDeployer.operation attempt).1 = none ↔
      ∃ responseBody, attempt = .response 200 responseBody := by
  cases attempt with
  | requestError err => simp [MonitoringDeployer.operation]
  | transportError err => simp [MonitoringDeployer.operation]
  | readError statusCode err => simp [MonitoringDeployer.operation]
  | response statusCode responseBody =>
    by_cases h : statusCode = 200 <;> simp [MonitoringDeployer.operation, h]

/-- C15: whatever the upload requests are answered, `createPipeline` makes at most 10
attempts; it stops at the first attempt that is answered with HTTP 200 and then
returns nil; and it returns an error if and only if all 10 attempts fail (an error of
the request or of the transport, or a status other than 200), in which case it made
10 attempts. The pipeline posted is the one of the cluster spec when that is set. -/
theorem createPipeline_attempts (deps : MonitoringDeps) (cluster : GreptimeDBCluster)
    (pipeline pipelineName payload : String)
    (hpayload : payload =
      if PipelineSpec.GetData (LogsCollectionSpec.GetPipeline
          (MonitoringSpec.GetLogsCollection cluster.Spec.Monitoring)) ≠ "" then
        PipelineSpec.GetData (LogsCollectionSpec.GetPipeline
          (MonitoringSpec.GetLogsCollection cluster.Spec.Monitoring))
      else pipeline) :
    (MonitoringDeployer.createPipeline deps cluster pipeline pipelineName).attempts ≤ 10
    ∧ (∀ j, j < 10 →
        (∃ responseBody, deps.Do pipelineName payload j = .response 200 responseBody) →
        (∀ i, i < j → ¬ ∃ responseBody,
          deps.Do pipelineName payload i = .response 200 responseBody) →
        (MonitoringDeployer.createPipeline deps cluster pipeline pipelineName).err = none
        ∧ (MonitoringDeployer.createPipeline deps cluster pipeline pipelineName).attempts
            = j + 1)
    ∧ ((MonitoringDeployer.createPipeline deps cluster pipeline pipelineName).err ≠ none ↔
        ∀ i, i < 10 → ¬ ∃ responseBody,
          deps.Do pipelineName payload i = .response 200 responseBody)
    ∧ ((MonitoringDeployer.createPipeline deps cluster pipeline pipelineName).err ≠ none →
        (MonitoringDeployer.createPipeline deps cluster pipeline pipelineName).attempts
          = 10) := by
  have hcreate : MonitoringDeployer.createPipeline deps cluster pipeline pipelineName
      = retryLoop (fun n => MonitoringDeployer.operation (deps.Do pipelineName payload n))
          10 0 [] [] := by
    rw [hpayload]
    rfl
  rw [hcreate]
  have hfail : (∀ i, i < 10 → ¬ ∃ responseBody,
        deps.Do pipelineName payload i = .response 200 responseBody) →
      ∀ i, i < 10 →
        (MonitoringDeployer.operation (deps.Do pipelineName payload (0 + i))).1 ≠ none := by
    intro h i hi hnone
    rw [Nat.zero_add] at hnone
    exact h i hi ((MonitoringDeployer.operation_eq_none_iff _).mp hnone)
  have hfirst : ∀ j, j < 10 →
      (∃ responseBody, deps.Do pipelineName payload j = .response 200 responseBody) →
      (∀ i, i < j → ¬ ∃ responseBody,
        deps.Do pipelineName payload i = .response 200 responseBody) →
      (retryLoop (fun n => MonitoringDeployer.operation (deps.Do pipelineName payload n))
          10 0 [] []).err = none
      ∧ (retryLoop (fun n => MonitoringDeployer.operation (deps.Do pipelineName payload n))
          10 0 [] []).attempts = j + 1 := by
    intro j hj hok hbefore
    have := retryLoop_first_success
      (fun n => MonitoringDeployer.operation (deps.Do pipelineName payload n)) 10 0 [] [] j hj
      (by
        show (MonitoringDeployer.operation (deps.Do pipelineName payload (0 + j))).1 = none
        rw [Nat.zero_add]
        exact (MonitoringDeployer.operation_eq_none_iff _).mpr hok)
      (fun i hi hnone => by
        have hnone' : (MonitoringDeployer.operation
            (deps.Do pipelineName payload (0 + i))).1 = none := hnone
        rw [Nat.zero_add] at hnone'
        exact hbefore i hi ((MonitoringDeployer.operation_eq_none_iff _).mp hnone'))
    simpa using this
  refine ⟨?_, hfirst, ?_, ?_⟩
  · have := retryLoop_attempts_le
      (fun n => MonitoringDeployer.operation (deps.Do pipelineName payload n)) 10 0 [] []
    omega
  · constructor
    · intro herr i hi hok
      -- the least successful attempt below 10 makes the loop return nil
      have hex : ∃ j, j < 10 ∧ ∃ responseBody,
          deps.Do pipelineName payload j = .response 200 responseBody := ⟨i, hi, hok⟩
      classical
      let j := Nat.find hex
      have hj := Nat.find_spec hex
      have hmin : ∀ k, k < j → ¬ ∃ responseBody,
          deps.Do pipelineName payload k = .response 200 responseBody := by
        intro k hk hok'
        exact Nat.find_min hex hk ⟨Nat.lt_trans hk hj.1, hok'⟩
      exact herr (hfirst j hj.1 hj.2 hmin).1
    · intro hall
      exact (retryLoop_all_fail
        (fun n => MonitoringDeployer.operation (deps.Do pipelineName payload n)) 10 0 [] []
        (hfail hall)).1
  · intro herr
    by_cases hall : ∀ i, i < 10 → ¬ ∃ responseBody,
        deps.Do pipelineName payload i = .response 200 responseBody
    · have := (retryLoop_all_fail
        (fun n => MonitoringDeployer.operation (deps.Do pipelineName payload n)) 10 0 [] []
        (hfail hall)).2
      omega
    · exfalso
      push_neg at hall
      obtain ⟨i, hi, hok⟩ := hall
      have hex : ∃ j, j < 10 ∧ ∃ responseBody,
          deps.Do pipelineName payload j = .response 200 responseBody := ⟨i, hi, hok⟩
      classical
      let j := Nat.find hex
      have hj := Nat.find_spec hex
      have hmin : ∀ k, k < j → ¬ ∃ responseBody,
          deps.Do pipelineName payload k = .response 200 responseBody := by
        intro k hk hok'
        exact Nat.find_min hex hk ⟨Nat.lt_trans hk hj.1, hok'⟩
      exact herr (hfirst j hj.1 hj.2 hmin).1

/-- C15, evaluated on an upload that is refused twice and then answered with 200. -/
theorem createPipeline_attempts_witness :
    (MonitoringDeployer.createPipeline Examples.monitoringDeps Examples.dbCluster "p"
        "default-db-logs").err = none
    ∧ (MonitoringDeployer.createPipeline Examples.monitoringDeps Examples.dbCluster "p"
        "default-db-logs").attempts = 3 :=
  (createPipeline_attempts Examples.monitoringDeps Examples.dbCluster "p" "default-db-logs"
    "p" rfl).2.1 2 (by decide) ⟨"ok", rfl⟩ (by
      intro i hi
      rintro ⟨responseBody, h⟩
      have hi' : i = 0 ∨ i = 1 := by omega
      rcases hi' with hi' | hi' <;> subst hi' <;> simp [Examples.monitoringDeps] at h)

/-- The monitoring pass with monitoring enabled, a standalone that is not reported
missing and is in the `Running` phase, and the default pipeline loaded, is the loop
over the one required pipeline. -/
theorem MonitoringDeployer.pass_of_running (deps : MonitoringDeps) (object : ClientObject)
    (cluster : GreptimeDBCluster) (data : Bytes)
    (hc : deps.GetCluster object = .ok cluster)
    (hen : MonitoringSpec.IsEnabled cluster.Spec.Monitoring = true)
    (hst : (MonitoringSpec.GetStandalone cluster.Spec.Monitoring).isSome)
    (hfound : ∀ err, (deps.Get cluster.Namespace
        (deps.MonitoringServiceName cluster.Name)).2 = some err → err.NotFound = false)
    (hrun : (deps.Get cluster.Namespace
        (deps.MonitoringServiceName cluster.Name)).1.Status.StandalonePhase = PhaseRunning)
    (hfile : deps.ReadFile "logs-pipeline.yaml" = .ok data) :
    MonitoringDeployer.CheckAndUpdateStatus deps object
      = MonitoringDeployer.pipelineLoop deps
          [{ name := deps.LogsPipelineName cluster.Namespace cluster.Name,
             data := Dbconfig.bytesToString data }]
          cluster
          [Call.Get cluster.Namespace (deps.MonitoringServiceName cluster.Name)] [] := by
  have hst' : (MonitoringSpec.GetStandalone cluster.Spec.Monitoring).isNone = false := by
    cases h : MonitoringSpec.GetStandalone cluster.Spec.Monitoring with
    | none => rw [h] at hst; cases hst
    | some _ => rfl
  have hnf : (match (deps.Get cluster.Namespace
        (deps.MonitoringServiceName cluster.Name)).2 with
      | some err => err.NotFound
      | none => false) = false := by
    cases h : (deps.Get cluster.Namespace (deps.MonitoringServiceName cluster.Name)).2 with
    | none => rfl
    | some err => exact hfound err h
  unfold MonitoringDeployer.CheckAndUpdateStatus
  simp only [hc, GreptimeDBCluster.GetMonitoring, hen, hst', hnf, hrun, Bool.not_true,
    Bool.or_self, Bool.false_eq_true, if_false, beq_self_eq_true, Bool.and_self, if_true,
    MonitoringDeployer.pipelines, MonitoringDeployer.defaultLogsPipeline, hfile]

/-- The calls of the loop over one pipeline. -/
theorem MonitoringDeployer.pipelineLoop_one (deps : MonitoringDeps) (p : pipeline)
    (cluster : GreptimeDBCluster) (ns name : String) :
    ((MonitoringDeployer.pipelineLoop deps [p] cluster [Call.Get ns name] []).calls.countP
        Call.isGetPipeline = 1)
    ∧ (Call.getPipeline p.name
        ∈ (MonitoringDeployer.pipelineLoop deps [p] cluster [Call.Get ns name] []).calls)
    ∧ (Call.createPipeline p.data p.name
          ∈ (MonitoringDeployer.pipelineLoop deps [p] cluster [Call.Get ns name] []).calls ↔
        MonitoringDeployer.getPipeline deps p.name = ("", none))
    ∧ ((MonitoringDeployer.pipelineLoop deps [p] cluster [Call.Get ns name] []).calls.countP
          Call.isCreatePipeline
        = if MonitoringDeployer.getPipeline deps p.name = ("", none) then 1 else 0)
    ∧ (∀ err, (MonitoringDeployer.getPipeline deps p.name).2 = some err →
        (MonitoringDeployer.pipelineLoop deps [p] cluster [Call.Get ns name] []).err = some err
        ∧ (MonitoringDeployer.pipelineLoop deps [p] cluster [Call.Get ns name] []).ready
            = false) := by
  cases hgot : MonitoringDeployer.getPipeline deps p.name with
  | mk text err =>
    cases err with
    | some err =>
      simp [MonitoringDeployer.pipelineLoop, hgot, Call.isGetPipeline, Call.isCreatePipeline]
    | none =>
      by_cases htext : text = ""
      · subst htext
        cases hup : (MonitoringDeployer.createPipeline deps cluster p.data p.name).err <;>
          simp [MonitoringDeployer.pipelineLoop, hgot, hup, Call.isGetPipeline,
            Call.isCreatePipeline]
      · simp [MonitoringDeployer.pipelineLoop, hgot, htext, Call.isGetPipeline,
          Call.isCreatePipeline]

/-- The three outcomes of the existence query in `getPipeline`, and the outcomes of the
query of the pipeline. -/
theorem MonitoringDeployer.getPipeline_cases (deps : MonitoringDeps) (pipelineName : String)
    (hopen : deps.sqlOpen = none) :
    (∀ err, deps.queryTable = some err → stringsContains err "TableNotFound" = true →
      MonitoringDeployer.getPipeline deps pipelineName = ("", none))
    ∧ (∀ err, deps.queryTable = some err → stringsContains err "TableNotFound" = false →
      MonitoringDeployer.getPipeline deps pipelineName = ("", some err))
    ∧ (∀ err, deps.queryTable = none → deps.queryPipeline pipelineName = .error err →
      MonitoringDeployer.getPipeline deps pipelineName = ("", some err))
    ∧ (deps.queryTable = none → deps.queryPipeline pipelineName = .ok none →
      MonitoringDeployer.getPipeline deps pipelineName = ("", none))
    ∧ (∀ text, deps.queryTable = none →
      deps.queryPipeline pipelineName = .ok (some (.ok text)) →
      MonitoringDeployer.getPipeline deps pipelineName = (text, none)) := by
  refine ⟨?_, ?_, ?_, ?_, ?_⟩
  · intro err hq hcontains
    simp [MonitoringDeployer.getPipeline, hopen, hq, hcontains]
  · intro err hq hcontains
    simp [MonitoringDeployer.getPipeline, hopen, hq, hcontains]
  · intro err hq hp
    simp [MonitoringDeployer.getPipeline, hopen, hq, hp]
  · intro hq hp
    simp [MonitoringDeployer.getPipeline, hopen, hq, hp]
  · intro text hq hp
    simp [MonitoringDeployer.getPipeline, hopen, hq, hp]

/-- C14: in `MonitoringDeployer.CheckAndUpdateStatus` with monitoring enabled and the
standalone in the `Running` phase, the one required pipeline is queried once, and
`createPipeline` is invoked for it if and only if `getPipeline` returns the empty
string (and no error) for its name. `getPipeline` returns `("", nil)` when the
existence query fails with an error whose text contains `TableNotFound`, returns any
other query error, and returns the text of the pipeline when the pipeline is present;
with a pipeline that is present (a non-empty text) the pass makes no creation call. -/
theorem pipeline_created_iff_absent (deps : MonitoringDeps) (object : ClientObject)
    (cluster : GreptimeDBCluster) (data : Bytes)
    (hc : deps.GetCluster object = .ok cluster)
    (hen : MonitoringSpec.IsEnabled cluster.Spec.Monitoring = true)
    (hst : (MonitoringSpec.GetStandalone cluster.Spec.Monitoring).isSome)
    (hfound : ∀ err, (deps.Get cluster.Namespace
        (deps.MonitoringServiceName cluster.Name)).2 = some err → err.NotFound = false)
    (hrun : (deps.Get cluster.Namespace
        (deps.MonitoringServiceName cluster.Name)).1.Status.StandalonePhase = PhaseRunning)
    (hfile : deps.ReadFile "logs-pipeline.yaml" = .ok data) :
    (MonitoringDeployer.CheckAndUpdateStatus deps object).calls.countP Call.isGetPipeline = 1
    ∧ (Call.getPipeline (deps.LogsPipelineName cluster.Namespace cluster.Name)
        ∈ (MonitoringDeployer.CheckAndUpdateStatus deps object).calls)
    ∧ (Call.createPipeline (Dbconfig.bytesToString data)
          (deps.LogsPipelineName cluster.Namespace cluster.Name)
          ∈ (MonitoringDeployer.CheckAndUpdateStatus deps object).calls ↔
        MonitoringDeployer.getPipeline deps
          (deps.LogsPipelineName cluster.Namespace cluster.Name) = ("", none))
    ∧ ((MonitoringDeployer.CheckAndUpdateStatus deps object).calls.countP
          Call.isCreatePipeline
        = if MonitoringDeployer.getPipeline deps
            (deps.LogsPipelineName cluster.Namespace cluster.Name) = ("", none)
          then 1 else 0)
    ∧ (deps.sqlOpen = none → ∀ err, deps.queryTable = some err →
        stringsContains err "TableNotFound" = true →
        MonitoringDeployer.getPipeline deps
            (deps.LogsPipelineName cluster.Namespace cluster.Name) = ("", none)
        ∧ (MonitoringDeployer.CheckAndUpdateStatus deps object).calls.countP
            Call.isCreatePipeline = 1)
    ∧ (deps.sqlOpen = none → ∀ err, deps.queryTable = some err →
        stringsContains err "TableNotFound" = false →
        MonitoringDeployer.getPipeline deps
            (deps.LogsPipelineName cluster.Namespace cluster.Name) = ("", some err)
        ∧ (MonitoringDeployer.CheckAndUpdateStatus deps object).err = some err
        ∧ (MonitoringDeployer.CheckAndUpdateStatus deps object).ready = false)
    ∧ (deps.sqlOpen = none → deps.queryTable = none → ∀ err,
        deps.queryPipeline (deps.LogsPipelineName cluster.Namespace cluster.Name)
          = .error err →
        MonitoringDeployer.getPipeline deps
            (deps.LogsPipelineName cluster.Namespace cluster.Name) = ("", some err)
        ∧ (MonitoringDeployer.CheckAndUpdateStatus deps object).err = some err)
    ∧ (deps.sqlOpen = none → deps.queryTable = none → ∀ text,
        deps.queryPipeline (deps.LogsPipelineName cluster.Namespace cluster.Name)
          = .ok (some (.ok text)) →
        text ≠ "" →
        MonitoringDeployer.getPipeline deps
            (deps.LogsPipelineName cluster.Namespace cluster.Name) = (text, none)
        ∧ (MonitoringDeployer.CheckAndUpdateStatus deps object).calls.countP
            Call.isCreatePipeline = 0) := by
  rw [MonitoringDeployer.pass_of_running deps object cluster data hc hen hst hfound hrun hfile]
  have hloop := MonitoringDeployer.pipelineLoop_one deps
    { name := deps.LogsPipelineName cluster.Namespace cluster.Name,
      data := Dbconfig.bytesToString data } cluster cluster.Namespace
    (deps.MonitoringServiceName cluster.Name)
  simp only at hloop
  obtain ⟨hquery, hqueried, hcreate, hcount, herr⟩ := hloop
  refine ⟨hquery, hqueried, hcreate, hcount, ?_, ?_, ?_, ?_⟩
  · intro hopen err hq hcontains
    have hget := (MonitoringDeployer.getPipeline_cases deps
      (deps.LogsPipelineName cluster.Namespace cluster.Name) hopen).1 err hq hcontains
    exact ⟨hget, by rw [hcount, if_pos hget]⟩
  · intro hopen err hq hcontains
    have hget := (MonitoringDeployer.getPipeline_cases deps
      (deps.LogsPipelineName cluster.Namespace cluster.Name) hopen).2.1 err hq hcontains
    exact ⟨hget, herr err (by rw [hget])⟩
  · intro hopen hq err hp
    have hget := (MonitoringDeployer.getPipeline_cases deps
      (deps.LogsPipelineName cluster.Namespace cluster.Name) hopen).2.2.1 err hq hp
    exact ⟨hget, (herr err (by rw [hget])).1⟩
  · intro hopen hq text hp htext
    have hget := (MonitoringDeployer.getPipeline_cases deps
      (deps.LogsPipelineName cluster.Namespace cluster.Name) hopen).2.2.2.2 text hq hp
    refine ⟨hget, ?_⟩
    rw [hcount, if_neg]
    rw [hget]
    intro h
    exact htext (congrArg Prod.fst h)

/-- C14, evaluated on a pass in which the table of pipelines does not exist yet: the
pipeline is queried, then created, then the status is persisted. -/
theorem pipeline_created_iff_absent_witness :
    stringsContains "Error 1146: TableNotFound: pipelines" "TableNotFound" = true
    ∧ MonitoringDeployer.getPipeline Examples.monitoringDeps "default-db-logs" = ("", none)
    ∧ (MonitoringDeployer.CheckAndUpdateStatus Examples.monitoringDeps
        (.cluster Examples.dbCluster)).calls.countP Call.isCreatePipeline = 1 :=
  ⟨by decide,
   ((pipeline_created_iff_absent Examples.monitoringDeps (.cluster Examples.dbCluster)
      Examples.dbCluster [112] rfl rfl rfl (by decide) rfl rfl).2.2.2.2.1 rfl
      "Error 1146: TableNotFound: pipelines" rfl (by decide)).1,
   ((pipeline_created_iff_absent Examples.monitoringDeps (.cluster Examples.dbCluster)
      Examples.dbCluster [112] rfl rfl rfl (by decide) rfl rfl).2.2.2.2.1 rfl
      "Error 1146: TableNotFound: pipelines" rfl (by decide)).2⟩

end Deployers

/-! ## The meta backend storage -/

namespace V1alpha1

/-- `Validate` does not read the backend storage of the meta spec. -/
theorem Validate_ignores_meta_backend (tomlUnmarshal : String → Error)
    (c : GreptimeDBCluster) (m : MetaSpec) (backendStorage : Option BackendStorage)
    (hm : c.Spec.Meta = some m) :
    GreptimeDBCluster.Validate tomlUnmarshal
        (some { c with Spec := { c.Spec with
          Meta := some { m with BackendStorage := backendStorage } } })
      = GreptimeDBCluster.Validate tomlUnmarshal (some c) := by
  have hc : c = { c with Spec := { c.Spec with Meta := some m } } := by
    rw [← hm]
  rw [hc]
  rfl

/-- C22: a cluster whose meta backend storage has two backends populated makes
`validateMetaBackendStorage` return its error, and `Validate` accepts the cluster: no
check of `Validate` calls `validateMetaBackendStorage`. -/
theorem Validate_accepts_two_meta_backends :
    Examples.twoBackendStorages.backendStorageCount = 2
    ∧ GreptimeDBCluster.validateMetaBackendStorage (some Examples.twoBackends)
        = some "only one of the backend storage can be set"
    ∧ GreptimeDBCluster.Validate Examples.tomlUnmarshal (some Examples.twoBackends) = none := by
  decide

end V1alpha1

/-! ## The maintenance-mode call and the read of the standalone -/

namespace Deployers

open V1alpha1

/-- On a cluster that has a meta spec, with a deployment that has its `Spec.Replicas`
set: in a `MetaDeployer.CheckAndUpdateStatus` pass in which the deployment is found,
the `SetMaintenanceMode(url, true)` call is issued if and only if
`maintenanceModeWhenCreateCluster` is true, the cluster phase is `Starting`, the
deployment is ready and the recorded flag is false; it is issued at most once; if it
succeeds the flag is true afterwards and the pass returns the readiness and no error;
if it fails the pass returns `(false, that error)` with the flag still false and
without an `UpdateStatus` call. -/
theorem maintenance_mode_call_iff (d : MetaDeployer) (deps : MetaDeps)
    (object : ClientObject) (cluster : GreptimeDBCluster) (replicas : Int)
    (metaSpec : MetaSpec)
    (hc : deps.GetCluster object = .ok cluster)
    (hget : (deps.Get cluster.Namespace (deps.ResourceName cluster.Name MetaRoleKind)).2 = none)
    (hrep : (deps.Get cluster.Namespace (deps.ResourceName cluster.Name MetaRoleKind)).1.Replicas
      = some replicas)
    (hmeta : cluster.Spec.Meta = some metaSpec) :
    ∃ pass after, d.CheckAndUpdateStatus deps object = .returned pass
      ∧ pass.cluster = some after
      ∧ (Call.SetMaintenanceMode
            (deps.GetMetaHTTPServiceURL
              (MetaDeployer.recordReplicas cluster
                (deps.Get cluster.Namespace (deps.ResourceName cluster.Name MetaRoleKind)).1
                replicas metaSpec)) true ∈ pass.calls ↔
          d.maintenanceModeWhenCreateCluster = true
            ∧ cluster.Status.ClusterPhase = PhaseStarting
            ∧ deps.IsDeploymentReady
                (deps.Get cluster.Namespace (deps.ResourceName cluster.Name MetaRoleKind)).1
                = true
            ∧ cluster.Status.Meta.MaintenanceMode = false)
      ∧ pass.calls.countP Call.isSetMaintenanceMode
          = (if d.maintenanceModeWhenCreateCluster = true
                ∧ cluster.Status.ClusterPhase = PhaseStarting
                ∧ deps.IsDeploymentReady
                    (deps.Get cluster.Namespace
                      (deps.ResourceName cluster.Name MetaRoleKind)).1 = true
                ∧ cluster.Status.Meta.MaintenanceMode = false then 1 else 0)
      ∧ (pass.calls.countP Call.isSetMaintenanceMode = 1 →
          deps.SetMaintenanceMode
            (deps.GetMetaHTTPServiceURL
              (MetaDeployer.recordReplicas cluster
                (deps.Get cluster.Namespace (deps.ResourceName cluster.Name MetaRoleKind)).1
                replicas metaSpec)) true = none →
          after.Status.Meta.MaintenanceMode = true ∧ pass.err = none
            ∧ pass.ready = deps.IsDeploymentReady
                (deps.Get cluster.Namespace (deps.ResourceName cluster.Name MetaRoleKind)).1
            ∧ pass.calls.countP Call.isUpdateStatus = 1)
      ∧ (pass.calls.countP Call.isSetMaintenanceMode = 1 →
          ∀ err, deps.SetMaintenanceMode
            (deps.GetMetaHTTPServiceURL
              (MetaDeployer.recordReplicas cluster
                (deps.Get cluster.Namespace (deps.ResourceName cluster.Name MetaRoleKind)).1
                replicas metaSpec)) true = some err →
          pass.ready = false ∧ pass.err = some err
            ∧ after.Status.Meta.MaintenanceMode = false
            ∧ pass.calls.countP Call.isUpdateStatus = 0) := by
  rw [MetaDeployer.pass_of_deployment d deps object cluster replicas metaSpec hc hget hrep
    hmeta]
  by_cases hcond : d.turnsOnMaintenanceMode cluster
      (deps.IsDeploymentReady
        (deps.Get cluster.Namespace (deps.ResourceName cluster.Name MetaRoleKind)).1) = true
  · have hfour := (MetaDeployer.turnsOnMaintenanceMode_iff d cluster _).mp hcond
    rw [if_pos hcond, if_pos hfour]
    cases hset : deps.SetMaintenanceMode
        (deps.GetMetaHTTPServiceURL
          (MetaDeployer.recordReplicas cluster
            (deps.Get cluster.Namespace (deps.ResourceName cluster.Name MetaRoleKind)).1
            replicas metaSpec)) true with
    | none =>
      refine ⟨_, _, rfl, rfl, ?_, rfl, ?_, ?_⟩
      · exact ⟨fun _ => hfour, fun _ => by simp⟩
      · intro _ _
        exact ⟨rfl, rfl, rfl, rfl⟩
      · intro _ err herr
        cases herr
    | some err =>
      refine ⟨_, _, rfl, rfl, ?_, rfl, ?_, ?_⟩
      · exact ⟨fun _ => hfour, fun _ => by simp⟩
      · intro _ hnone
        cases hnone
      · intro _ err' herr
        cases herr
        exact ⟨rfl, rfl, hfour.2.2.2, rfl⟩
  · have hfour : ¬ (d.maintenanceModeWhenCreateCluster = true
        ∧ cluster.Status.ClusterPhase = PhaseStarting
        ∧ deps.IsDeploymentReady
            (deps.Get cluster.Namespace (deps.ResourceName cluster.Name MetaRoleKind)).1 = true
        ∧ cluster.Status.Meta.MaintenanceMode = false) := fun h =>
      hcond ((MetaDeployer.turnsOnMaintenanceMode_iff d cluster _).mpr h)
    rw [if_neg hcond, if_neg hfour]
    refine ⟨_, _, rfl, rfl, ?_, rfl, ?_, ?_⟩
    · constructor
      · intro hmem
        simp at hmem
      · intro h
        exact absurd h hfour
    · intro hone
      simp [Call.isSetMaintenanceMode, Call.isUpdateStatus] at hone
    · intro hone
      simp [Call.isSetMaintenanceMode, Call.isUpdateStatus] at hone

/-- A pass over a starting cluster that has a meta spec, with a ready deployment: with a
maintenance-mode call that succeeds, and with one that fails. -/
theorem maintenance_mode_call_iff_witness :
    (∃ pass after, MetaDeployer.CheckAndUpdateStatus { maintenanceModeWhenCreateCluster := true }
          Examples.metaDeps (.cluster Examples.startingCluster) = .returned pass
        ∧ pass.cluster = some after
        ∧ pass.calls.countP Call.isSetMaintenanceMode = 1
        ∧ after.Status.Meta.MaintenanceMode = true ∧ pass.err = none ∧ pass.ready = true)
    ∧ (∃ pass after, MetaDeployer.CheckAndUpdateStatus { maintenanceModeWhenCreateCluster := true }
          { Examples.metaDeps with SetMaintenanceMode := fun _ _ => some "503" }
          (.cluster Examples.startingCluster) = .returned pass
        ∧ pass.cluster = some after
        ∧ pass.calls.countP Call.isSetMaintenanceMode = 1
        ∧ after.Status.Meta.MaintenanceMode = false ∧ pass.err = some "503"
        ∧ pass.ready = false ∧ pass.calls.countP Call.isUpdateStatus = 0) := by
  constructor
  · obtain ⟨pass, after, hpass, hafter, _, hcount, hok, _⟩ :=
      maintenance_mode_call_iff { maintenanceModeWhenCreateCluster := true }
        Examples.metaDeps (.cluster Examples.startingCluster) Examples.startingCluster 1
        { Config := "=", EtcdEndpoints := ["etcd:2379"] } rfl rfl rfl rfl
    have hone : pass.calls.countP Call.isSetMaintenanceMode = 1 := by
      rw [hcount]
      decide
    obtain ⟨h1, h2, h3, _⟩ := hok hone rfl
    exact ⟨pass, after, hpass, hafter, hone, h1, h2, by rw [h3]; rfl⟩
  · obtain ⟨pass, after, hpass, hafter, _, hcount, _, hfail⟩ :=
      maintenance_mode_call_iff { maintenanceModeWhenCreateCluster := true }
        { Examples.metaDeps with SetMaintenanceMode := fun _ _ => some "503" }
        (.cluster Examples.startingCluster) Examples.startingCluster 1
        { Config := "=", EtcdEndpoints := ["etcd:2379"] } rfl rfl rfl rfl
    have hone : pass.calls.countP Call.isSetMaintenanceMode = 1 := by
      rw [hcount]
      decide
    obtain ⟨h1, h2, h3, h4⟩ := hfail hone "503" rfl
    exact ⟨pass, after, hpass, hafter, hone, h3, h2, h1, h4⟩

/-- The error of the loop over one pipeline is the error of `getPipeline` or the error
of `createPipeline`. -/
theorem MonitoringDeployer.pipelineLoop_one_err (deps : MonitoringDeps) (p : pipeline)
    (cluster : GreptimeDBCluster) (calls : List Call) (logs : List String) (err : String)
    (h : (MonitoringDeployer.pipelineLoop deps [p] cluster calls logs).err = some err) :
    (MonitoringDeployer.getPipeline deps p.name).2 = some err
    ∨ (MonitoringDeployer.createPipeline deps cluster p.data p.name).err = some err := by
  cases hgot : MonitoringDeployer.getPipeline deps p.name with
  | mk text gerr =>
    cases gerr with
    | some gerr =>
      left
      simpa [MonitoringDeployer.pipelineLoop, hgot] using h
    | none =>
      by_cases htext : text = ""
      · subst htext
        cases hup : (MonitoringDeployer.createPipeline deps cluster p.data p.name).err with
        | none => simp [MonitoringDeployer.pipelineLoop, hgot, hup] at h
        | some uerr =>
          right
          simpa [MonitoringDeployer.pipelineLoop, hgot, hup] using h
      · simp [MonitoringDeployer.pipelineLoop, hgot, htext] at h

/-- C23: in `MonitoringDeployer.CheckAndUpdateStatus` with monitoring enabled and a
standalone specified, an error of the read of the standalone that is not a not-found
error is not returned: when the failed read leaves the standalone at its zero value,
the pass returns `(false, nil)`, leaves the cluster as it was and issues no call
besides the read. An error that the pass returns is the error of `GetCluster`, of
`pipelines`, of `getPipeline` or of `createPipeline`. -/
theorem standalone_read_error_dropped (deps : MonitoringDeps) (object : ClientObject)
    (cluster : GreptimeDBCluster) (err : GetError)
    (hc : deps.GetCluster object = .ok cluster)
    (hen : MonitoringSpec.IsEnabled cluster.Spec.Monitoring = true)
    (hst : (MonitoringSpec.GetStandalone cluster.Spec.Monitoring).isSome)
    (hget : deps.Get cluster.Namespace (deps.MonitoringServiceName cluster.Name)
      = ({}, some err))
    (hnf : err.NotFound = false) :
    MonitoringDeployer.CheckAndUpdateStatus deps object
        = { ready := false, err := none, cluster := some cluster,
            calls := [Call.Get cluster.Namespace (deps.MonitoringServiceName cluster.Name)],
            logs := [] }
    ∧ (∀ (deps' : MonitoringDeps) (object' : ClientObject) (returned : String),
        (MonitoringDeployer.CheckAndUpdateStatus deps' object').err = some returned →
        deps'.GetCluster object' = .error returned
        ∨ ∃ c, deps'.GetCluster object' = .ok c
            ∧ (MonitoringDeployer.pipelines deps' c = .error returned
              ∨ (MonitoringDeployer.getPipeline deps'
                  (deps'.LogsPipelineName c.Namespace c.Name)).2 = some returned
              ∨ ∃ data, (MonitoringDeployer.createPipeline deps' c data
                  (deps'.LogsPipelineName c.Namespace c.Name)).err = some returned)) := by
  constructor
  · have hst' : (MonitoringSpec.GetStandalone cluster.Spec.Monitoring).isNone = false := by
      cases h : MonitoringSpec.GetStandalone cluster.Spec.Monitoring with
      | none => rw [h] at hst; cases hst
      | some _ => rfl
    have hphase : (({} : GreptimeDBStandalone).Status.StandalonePhase == PhaseRunning)
        = false := by decide
    unfold MonitoringDeployer.CheckAndUpdateStatus
    simp only [hc, GreptimeDBCluster.GetMonitoring, hen, hst', hget, hnf, hphase,
      Bool.not_true, Bool.or_self, Bool.false_eq_true, if_false, Bool.and_false]
  · intro deps' object' returned hret
    unfold MonitoringDeployer.CheckAndUpdateStatus at hret
    cases hc' : deps'.GetCluster object' with
    | error e =>
      left
      simp only [hc'] at hret
      simpa using hret
    | ok c =>
      right
      refine ⟨c, rfl, ?_⟩
      simp only [hc'] at hret
      split at hret
      · simp at hret
      · split at hret
        · simp at hret
        · split at hret
          · split at hret
            · rename_i e hpipes
              left
              simp only [Option.some.injEq] at hret
              rw [hpipes, hret]
            · rename_i ps hpipes
              have hps : ∃ data,
                  ps = [{ name := deps'.LogsPipelineName c.Namespace c.Name, data := data }] := by
                unfold MonitoringDeployer.pipelines at hpipes
                split at hpipes
                · cases hpipes
                · rename_i logsPipeline _
                  simp only [Except.ok.injEq] at hpipes
                  exact ⟨logsPipeline, hpipes.symm⟩
              obtain ⟨data, hps⟩ := hps
              rw [hps] at hret
              right
              rcases MonitoringDeployer.pipelineLoop_one_err deps' _ c _ _ returned hret
                with h | h
              · exact Or.inl h
              · exact Or.inr ⟨_, h⟩
          · simp at hret

/-- C23, evaluated on a pass in which the read of the standalone fails with
`connection refused`. -/
theorem standalone_read_error_dropped_witness :
    Examples.monitoringDepsReadFails.Get "default" "db-monitor"
        = ({}, some { NotFound := false, Message := "connection refused" })
    ∧ MonitoringDeployer.CheckAndUpdateStatus Examples.monitoringDepsReadFails
        (.cluster Examples.dbCluster)
      = { ready := false, err := none, cluster := some Examples.dbCluster,
          calls := [Call.Get "default" "db-monitor"], logs := [] } :=
  ⟨rfl,
   (standalone_read_error_dropped Examples.monitoringDepsReadFails
      (.cluster Examples.dbCluster) Examples.dbCluster
      { NotFound := false, Message := "connection refused" } rfl rfl rfl rfl rfl).1⟩

end Deployers

/-! ## The meta pass on a cluster without meta spec -/

namespace Deployers

open V1alpha1

/-- A pass that reads the deployment of a cluster without meta spec panics, whatever the
deployment, the options and the other collaborators are: line 139 of `meta.go`
dereferences `cluster.Spec.Meta`. -/
theorem MetaDeployer.pass_of_nil_meta (d : MetaDeployer) (deps : MetaDeps)
    (object : ClientObject) (cluster : GreptimeDBCluster)
    (hc : deps.GetCluster object = .ok cluster)
    (hget : (deps.Get cluster.Namespace (deps.ResourceName cluster.Name MetaRoleKind)).2 = none)
    (hmeta : cluster.Spec.Meta = none) :
    d.CheckAndUpdateStatus deps object = .panicked := by
  unfold MetaDeployer.CheckAndUpdateStatus
  simp only [hc, hget, hmeta]
  cases (deps.Get cluster.Namespace (deps.ResourceName cluster.Name MetaRoleKind)).1.Replicas <;>
    rfl

/-- C13: on a cluster without meta spec the maintenance-mode call is never issued. The
flag is false, `maintenanceModeWhenCreateCluster` is enabled, the phase is `Starting`,
the meta deployment is present and ready and the call would succeed, and the first pass
panics on `cluster.Spec.Meta`: whatever passes are to follow, no pass returns, no call
is issued and no flag is recorded. -/
theorem maintenance_mode_once_fails_without_meta (envs : List MetaDeps) :
    Examples.startingClusterNoMeta.Status.Meta.MaintenanceMode = false
    ∧ Examples.startingClusterNoMeta.Status.ClusterPhase = PhaseStarting
    ∧ Examples.metaDeps.Get "default" (Examples.metaDeps.ResourceName "db" MetaRoleKind)
        = (Examples.readyDeployment, none)
    ∧ Examples.metaDeps.IsDeploymentReady Examples.readyDeployment = true
    ∧ (∀ url, Examples.metaDeps.SetMaintenanceMode url true = none)
    ∧ MetaDeployer.CheckAndUpdateStatus { maintenanceModeWhenCreateCluster := true }
        Examples.metaDeps (.cluster Examples.startingClusterNoMeta) = .panicked
    ∧ MetaDeployer.passes { maintenanceModeWhenCreateCluster := true }
        (Examples.metaDeps :: envs) Examples.startingClusterNoMeta = [] := by
  have hpass := MetaDeployer.pass_of_nil_meta { maintenanceModeWhenCreateCluster := true }
    Examples.metaDeps (.cluster Examples.startingClusterNoMeta)
    Examples.startingClusterNoMeta rfl rfl rfl
  refine ⟨rfl, rfl, rfl, by decide, fun _ => rfl, hpass, ?_⟩
  simp only [MetaDeployer.passes, hpass]

/-- C20: on a cluster without meta spec a pass in which the deployment is read and no
maintenance-mode call fails does not return `(ready, nil)`: for every option of the
deployer and every `UpdateStatus`, succeeding or failing, the pass panics on
`cluster.Spec.Meta` before it reaches `UpdateStatus`. -/
theorem CheckAndUpdateStatus_panics_without_meta (d : MetaDeployer)
    (updateStatus : GreptimeDBCluster → Error) :
    Examples.metaDeps.Get "default" (Examples.metaDeps.ResourceName "db" MetaRoleKind)
        = (Examples.readyDeployment, none)
    ∧ Examples.metaDeps.IsDeploymentReady Examples.readyDeployment = true
    ∧ (∀ url, Examples.metaDeps.SetMaintenanceMode url true = none)
    ∧ d.CheckAndUpdateStatus { Examples.metaDeps with UpdateStatus := updateStatus }
        (.cluster Examples.startingClusterNoMeta) = .panicked
    ∧ ∀ pass, d.CheckAndUpdateStatus { Examples.metaDeps with UpdateStatus := updateStatus }
        (.cluster Examples.startingClusterNoMeta) ≠ .returned pass := by
  have hpass := MetaDeployer.pass_of_nil_meta d
    { Examples.metaDeps with UpdateStatus := updateStatus }
    (.cluster Examples.startingClusterNoMeta) Examples.startingClusterNoMeta rfl rfl rfl
  refine ⟨rfl, by decide, fun _ => rfl, hpass, ?_⟩
  intro pass h
  rw [hpass] at h
  cases h

/-- C21: on a cluster without meta spec the four conditions do not lead to the call. The
deployment is found and ready, `maintenanceModeWhenCreateCluster` is true, the phase is
`Starting` and the flag is false, and for every `SetMaintenanceMode` the pass panics on
`cluster.Spec.Meta` before the call; the same pass on the cluster with a meta spec
issues the call. -/
theorem maintenance_mode_call_skipped_without_meta
    (setMaintenanceMode : String → Bool → Error) :
    Examples.metaDeps.Get "default" (Examples.metaDeps.ResourceName "db" MetaRoleKind)
        = (Examples.readyDeployment, none)
    ∧ MetaDeployer.maintenanceModeWhenCreateCluster { maintenanceModeWhenCreateCluster := true }
        = true
    ∧ Examples.startingClusterNoMeta.Status.ClusterPhase = PhaseStarting
    ∧ Examples.metaDeps.IsDeploymentReady Examples.readyDeployment = true
    ∧ Examples.startingClusterNoMeta.Status.Meta.MaintenanceMode = false
    ∧ MetaDeployer.CheckAndUpdateStatus { maintenanceModeWhenCreateCluster := true }
        { Examples.metaDeps with SetMaintenanceMode := setMaintenanceMode }
        (.cluster Examples.startingClusterNoMeta) = .panicked
    ∧ (∃ pass, MetaDeployer.CheckAndUpdateStatus { maintenanceModeWhenCreateCluster := true }
          Examples.metaDeps (.cluster Examples.startingCluster) = .returned pass
        ∧ pass.calls.countP Call.isSetMaintenanceMode = 1) := by
  refine ⟨rfl, rfl, rfl, by decide, rfl,
    MetaDeployer.pass_of_nil_meta { maintenanceModeWhenCreateCluster := true }
      { Examples.metaDeps with SetMaintenanceMode := setMaintenanceMode }
      (.cluster Examples.startingClusterNoMeta) Examples.startingClusterNoMeta rfl rfl rfl,
    ?_⟩
  rw [MetaDeployer.pass_of_deployment { maintenanceModeWhenCreateCluster := true }
    Examples.metaDeps (.cluster Examples.startingCluster) Examples.startingCluster 1
    { Config := "=", EtcdEndpoints := ["etcd:2379"] } rfl rfl rfl rfl]
  exact ⟨_, rfl, by decide⟩

end Deployers
